import Mathlib

/-!
ONU adapter core: lifecycle, ANI configuration, lock/unlock and flow handling.

A shallow embedding of `internal/pkg/onuadaptercore` (device_handler.go,
omci_ani_config.go, uniportadmin.go).  Machine integers are natural numbers,
reduced modulo the width where the source computes with them.  State machines are built with the
third-party package `github.com/looplab/fsm`; its `Event` contract is modelled
once (`fsmEvent`) and instantiated with the transition tables copied from the
`fsm.NewFSM` calls of the source.  Go routines started by entry actions
(`go func() { pFsm.Event(x) }()`) are modelled as events appended to a pending
queue that a driver drains in FIFO order.
-/

namespace Onu

/-! ## The state-machine library -/

/-- One row of `fsm.Events`: `{Name: ..., Src: []string{...}, Dst: ...}`. -/
structure EventDesc (S E : Type) where
  Name : E
  Src : List S
  Dst : S

/-- The error values `FSM.Event` can return. -/
inductive FsmError
  | InvalidEventError
  | UnknownEventError
  | CanceledError
  | NoTransitionError
  deriving DecidableEq, Repr

/-- The `transitions` map built by `fsm.NewFSM`: every row stores
`transitions[eKey{Name, src}] = Dst` for each of its sources, a later row
overwriting an earlier one with the same key. -/
def transitions {S E : Type} [DecidableEq S] [DecidableEq E]
    (events : List (EventDesc S E)) (ev : E) (src : S) : Option S :=
  events.foldl (fun acc d => if d.Name = ev ∧ src ∈ d.Src then some d.Dst else acc) none

/-- Model of `FSM.Event(event)`.  `cancel` tells whether a `before_` callback of
the event calls `e.Cancel`.  The result is the state after the call and the
returned error (`none` for `nil`).
* no transition for (event, current): `InvalidEventError` (or
  `UnknownEventError` when no row has that name), nothing runs;
* a `before_` callback cancels: `CanceledError`, state unchanged;
* destination equals current: `NoTransitionError`, state unchanged;
* otherwise `current := dst`, the `enter_`/`after_` callbacks run. -/
def fsmEvent {S E : Type} [DecidableEq S] [DecidableEq E]
    (events : List (EventDesc S E)) (current : S) (ev : E) (cancel : Bool) :
    S × Option FsmError :=
  match transitions events ev current with
  | none =>
    if events.any (fun d => decide (d.Name = ev)) then (current, some FsmError.InvalidEventError)
    else (current, some FsmError.UnknownEventError)
  | some dst =>
    if cancel then (current, some FsmError.CanceledError)
    else if current = dst then (current, some FsmError.NoTransitionError)
    else (dst, none)

/-! ## Device lifecycle machine (device_handler.go, `newDeviceHandler`) -/

/-- Lifecycle events (`devEv...` constants). -/
inductive DevEvent
  | devEvDeviceInit
  | devEvGrpcConnected
  | devEvGrpcDisconnected
  | devEvDeviceUpInd
  | devEvDeviceDownInd
  deriving DecidableEq, Repr

/-- Lifecycle states (`devSt...` constants). -/
inductive DevState
  | devStNull
  | devStDown
  | devStInit
  | devStConnected
  | devStUp
  deriving DecidableEq, Repr

open DevEvent DevState

/-- The `fsm.Events` table of `dh.pDeviceStateFsm`. -/
def deviceStateEvents : List (EventDesc DevState DevEvent) :=
  [ ⟨devEvDeviceInit, [devStNull, devStDown], devStInit⟩,
    ⟨devEvGrpcConnected, [devStInit], devStConnected⟩,
    ⟨devEvGrpcDisconnected, [devStConnected, devStDown], devStInit⟩,
    ⟨devEvDeviceUpInd, [devStConnected, devStDown], devStUp⟩,
    ⟨devEvDeviceDownInd, [devStUp], devStDown⟩ ]

/-- Initial state passed to `fsm.NewFSM`. -/
def deviceStateInitial : DevState := devStNull

/-- `dh.pDeviceStateFsm.Event(ev)` on the lifecycle table. -/
def devFsmEvent (s : DevState) (ev : DevEvent) (cancel : Bool) : DevState × Option FsmError :=
  fsmEvent deviceStateEvents s ev cancel

/-- State after one fired event; the flag says whether its handler cancels. -/
def devStep (s : DevState) (x : DevEvent × Bool) : DevState :=
  (devFsmEvent s x.1 x.2).1

/-- State after a sequence of fired events. -/
def devRun (s : DevState) (xs : List (DevEvent × Bool)) : DevState :=
  xs.foldl devStep s

/-- The states the machine is in during a run: the start state followed by the
state after each fired event. -/
def devTrace (s : DevState) : List (DevEvent × Bool) → List DevState
  | [] => [s]
  | x :: xs => s :: devTrace (devStep s x) xs

/-- A run passed Init, later Connected, and later entered Up for the first time. -/
def InitConnectedBeforeUp (tr : List DevState) : Prop :=
  ∃ a b c d, tr = a ++ devStInit :: (b ++ devStConnected :: (c ++ devStUp :: d)) ∧
    devStUp ∉ a ∧ devStUp ∉ b ∧ devStUp ∉ c

/-- Invariant of a run prefix `pre` followed by the current state `s`. -/
def LifecycleInv (pre : List DevState) (s : DevState) : Prop :=
  InitConnectedBeforeUp (pre ++ [s]) ∨
    (devStUp ∉ pre ∧
      (s = devStNull ∨ s = devStInit ∨
        (s = devStConnected ∧ ∃ a b, pre = a ++ devStInit :: b)))

/-! ## ANI / technology-profile configuration machine (omci_ani_config.go) -/

/-- Domain events reported to the device handler (`OnuDeviceEvent`; the type is
declared in onu_device_entry.go; the constants are the ones used by the handlers). -/
inductive OnuDeviceEvent
  | MibDatabaseSync
  | MibDownloadDone
  | UniLockStateDone
  | UniUnlockStateDone
  | UniAdminStateDone
  | OmciAniConfigDone
  | OmciVlanFilterDone
  deriving DecidableEq, Repr

/-- ANI-config events (`aniEv...` constants). -/
inductive AniEvent
  | aniEvStart
  | aniEvStartConfig
  | aniEvRxDot1pmapCResp
  | aniEvRxMbpcdResp
  | aniEvRxTcontsResp
  | aniEvRxGemntcpsResp
  | aniEvRxGemiwsResp
  | aniEvRxPrioqsResp
  | aniEvRxDot1pmapSResp
  | aniEvTimeoutSimple
  | aniEvTimeoutMids
  | aniEvReset
  | aniEvRestart
  deriving DecidableEq, Repr

/-- ANI-config states (`aniSt...` constants). -/
inductive AniState
  | aniStDisabled
  | aniStStarting
  | aniStCreatingDot1PMapper
  | aniStCreatingMBPCD
  | aniStSettingTconts
  | aniStCreatingGemNCTPs
  | aniStCreatingGemIWs
  | aniStSettingPQs
  | aniStSettingDot1PMapper
  | aniStConfigDone
  | aniStResetting
  deriving DecidableEq, Repr

open AniEvent AniState

/-- The `fsm.Events` table of `newUniPonAniConfigFsm`. -/
def aniConfigEvents : List (EventDesc AniState AniEvent) :=
  [ ⟨aniEvStart, [aniStDisabled], aniStStarting⟩,
    ⟨aniEvStartConfig, [aniStStarting], aniStCreatingDot1PMapper⟩,
    ⟨aniEvRxDot1pmapCResp, [aniStCreatingDot1PMapper], aniStCreatingMBPCD⟩,
    ⟨aniEvRxMbpcdResp, [aniStCreatingMBPCD], aniStSettingTconts⟩,
    ⟨aniEvRxTcontsResp, [aniStSettingTconts], aniStCreatingGemNCTPs⟩,
    ⟨aniEvRxGemntcpsResp, [aniStCreatingGemNCTPs], aniStCreatingGemIWs⟩,
    ⟨aniEvRxGemiwsResp, [aniStCreatingGemIWs], aniStSettingPQs⟩,
    ⟨aniEvRxPrioqsResp, [aniStSettingPQs], aniStSettingDot1PMapper⟩,
    ⟨aniEvRxDot1pmapSResp, [aniStSettingDot1PMapper], aniStConfigDone⟩,
    ⟨aniEvTimeoutSimple,
      [aniStCreatingDot1PMapper, aniStCreatingMBPCD, aniStSettingTconts, aniStSettingDot1PMapper],
      aniStStarting⟩,
    ⟨aniEvTimeoutMids, [aniStCreatingGemNCTPs, aniStCreatingGemIWs, aniStSettingPQs],
      aniStStarting⟩,
    ⟨aniEvReset,
      [aniStStarting, aniStCreatingDot1PMapper, aniStCreatingMBPCD, aniStSettingTconts,
        aniStCreatingGemNCTPs, aniStCreatingGemIWs, aniStSettingPQs, aniStSettingDot1PMapper,
        aniStConfigDone],
      aniStResetting⟩,
    ⟨aniEvRestart, [aniStResetting], aniStDisabled⟩ ]

/-- Go type `ponAniGemPortAttribs`.  The numeric fields are `uint16`/`uint8`
values.  `pbitString` is the Go string given by its bytes, each byte as the
character with that code: `string(pbitString[k])` is the one-character string
of element `k`. -/
structure ponAniGemPortAttribs where
  gemPortID : Nat
  upQueueID : Nat
  downQueueID : Nat
  direction : Nat
  qosPolicy : String
  weight : Nat
  pbitString : List Char

/-- Go type `me.AttributeValueMap` (`map[string]interface{}`) with numeric values:
a finite partial map from attribute names to values. -/
abbrev AttributeValueMap := String → Option Nat

/-- The empty map `make(me.AttributeValueMap)`. -/
def AttributeValueMap.empty : AttributeValueMap := fun _ => none

/-- Map assignment `m[k] = v`. -/
def AttributeValueMap.set (m : AttributeValueMap) (k : String) (v : Nat) : AttributeValueMap :=
  fun k2 => if k2 = k then some v else m k2

/-- Value of `strconv.Atoi(string(c))` for a single byte `c`: the digit value for
'0'..'9', an error (`none`) for every other byte. -/
def atoiByte (c : Char) : Option Nat :=
  if c.isDigit then some (c.toNat - '0'.toNat) else none

/-- Body of the inner loop of `enterSettingDot1PMapper` for position `i` of one
GEM port; `none` is the run-time panic of `pbitString[7-i]` on a string shorter
than `8 - i` bytes. -/
def setPrioGemPort (arr : List Nat) (p : ponAniGemPortAttribs) (i : Nat) : Option (List Nat) :=
  match p.pbitString.get? (7 - i) with
  | none => none
  | some c =>
    match atoiByte c with
    | some prio =>
      if prio = 1 then
        if arr.getD i 0 = 0 then some (arr.set i p.gemPortID) else some arr
      else some arr
    | none => some arr

/-- Inner loop `for i := 0; i < 8; i++` for one GEM port. -/
def scanGemPort (arr : List Nat) (p : ponAniGemPortAttribs) : Option (List Nat) :=
  (List.range 8).foldlM (fun a i => setPrioGemPort a p i) arr

/-- The array `loPrioGemPortArray` after the loop over `gemPortAttribsSlice`. -/
def loPrioGemPortArray (ports : List ponAniGemPortAttribs) : Option (List Nat) :=
  ports.foldlM scanGemPort (List.replicate 8 0)

/-- Attribute name `fmt.Sprintf("InterworkTpPointerForPBitPriority%d", index)`. -/
def iwTpPointerName (index : Nat) : String :=
  "InterworkTpPointerForPBitPriority" ++ toString index

/-- Loop `for index, value := range loPrioGemPortArray`: sets one attribute per
non-zero slot and reports in the second component whether one was found
(`foundIwPtr`).  `index` is the position of the head of the remaining slots. -/
def setIwTpPointers (acc : AttributeValueMap × Bool) (index : Nat) :
    List Nat → AttributeValueMap × Bool
  | [] => acc
  | value :: rest =>
    setIwTpPointers
      (if value ≠ 0 then (acc.1.set (iwTpPointerName index) value, true) else acc)
      (index + 1) rest

/-- Attributes and `foundIwPtr` computed by `enterSettingDot1PMapper` from the
GEM ports (`none`: the function panics). -/
def dot1PMapperAttributes (ports : List ponAniGemPortAttribs) :
    Option (AttributeValueMap × Bool) :=
  (loPrioGemPortArray ports).map (setIwTpPointers (AttributeValueMap.empty, false) 0)

/-- Port `p` claims priority bit `i`: byte `7 - i` of its string is '1'. -/
def claimsPbit (i : Nat) (p : ponAniGemPortAttribs) : Bool :=
  p.pbitString.get? (7 - i) == some '1'

/-- Id of the first port in list order that claims bit `i` and has a non-zero id;
0 when there is none. -/
def firstNonZeroClaimantID (i : Nat) (ports : List ponAniGemPortAttribs) : Nat :=
  match ports.find? (fun p => claimsPbit i p && decide (p.gemPortID ≠ 0)) with
  | some p => p.gemPortID
  | none => 0

/-- Two claimants of bit 0, the first with GEM port id 0. -/
def zeroIdFirstPorts : List ponAniGemPortAttribs :=
  [ ⟨0, 0, 0, 0, "", 0, "00000001".toList⟩, ⟨5, 0, 0, 0, "", 0, "00000001".toList⟩ ]

/-- Ports with non-zero ids that collide on bits 0 and 1. -/
def collidingPorts : List ponAniGemPortAttribs :=
  [ ⟨1024, 0x8001, 1, 3, "StrictPriority", 0, "00001111".toList⟩,
    ⟨1025, 0x8002, 2, 3, "WRR", 10, "11110011".toList⟩ ]

/-! ### The machine with its entry actions -/

/-- Outcome of one wait in `waitforOmciResponse`: the 30 s timer fires, or a
value arrives on the multi-instance response channel. -/
inductive WaitOutcome
  | timeout
  | received (success : Bool)
  deriving DecidableEq, Repr

/-- Go method `waitforOmciResponse`: the returned error (`none` for `nil`). -/
def waitforOmciResponse : WaitOutcome → Option String
  | WaitOutcome.timeout => some "uniPonAniConfigFsm multi entity timeout"
  | WaitOutcome.received true => none
  | WaitOutcome.received false => some "uniPonAniConfigFsm multi entity responseError"

/-- An OMCI request handed to the management channel by one of the `send...`
methods of `omciCC`: message type, managed-entity name, entity id, attributes. -/
structure OmciRequest where
  msgType : String
  meName : String
  EntityID : Nat
  Attributes : AttributeValueMap

/-- A map literal `me.AttributeValueMap{k1: v1, ...}`. -/
def AttributeValueMap.ofList (l : List (String × Nat)) : AttributeValueMap :=
  l.foldl (fun m kv => m.set kv.1 kv.2) AttributeValueMap.empty

/-- Work units started with `go` by the ANI-config machine. -/
inductive AniTask
  | event (e : AniEvent)
  | processOmciAniMessages
  | prepareAndEnterConfigState
  | performCreatingGemNCTPs
  | performCreatingGemIWs
  | performSettingPQs
  | verifyUniVlanConfigRequest (uniID : Nat)
  deriving DecidableEq, Repr

/-- Messages put on an FSM's `commChan` by the machine itself. -/
inductive TestMessageType
  | AbortMessageProcessing
  deriving DecidableEq, Repr

/-- Go type `gemPortParamStruct` (technology-profile GEM entry), the fields read
by `prepareAndEnterConfigState`. -/
structure gemPortParamStruct where
  gemPortID : Nat
  direction : Nat
  prioQueueIndex : Nat
  pbitString : List Char
  queueSchedPolicy : String
  queueWeight : Nat

/-- What the ANI-config machine reads from its surroundings: entity-id constants
of the management channel, the sorted instance keys and the `RelatedPort`
attribute of the local managed-entity mirror (`none`: entity or attribute
missing, or not convertible), and the technology profile of the UNI (the GEM
entries in the order the Go map iteration yields them). -/
structure AniEnv where
  ieeeMapperServiceProfileEID : Nat
  macBridgePortAniEID : Nat
  macBridgeServiceProfileEID : Nat
  galEthernetEID : Nat
  tcontInstKeys : List Nat
  queueInstKeys : List Nat
  relatedPort : Nat → Option Nat
  allocID : Nat
  mapGemPortParams : List gemPortParamStruct

/-- Go type `uniPonAniConfigFsm`: the fields of the struct together with the
current state of `pAdaptFsm.pFsm` and the identity of `pOnuUniPort`. -/
structure uniPonAniConfigFsm where
  current : AniState
  uniID : Nat
  macBpNo : Nat
  entityID : Nat
  techProfileID : Nat
  requestEvent : OnuDeviceEvent
  aniConfigCompleted : Bool
  chanSet : Bool
  procStep : Nat
  mapperSP0ID : Nat
  macBPCD0ID : Nat
  tcont0ID : Nat
  alloc0ID : Nat
  gemPortAttribsSlice : List ponAniGemPortAttribs

/-- The ANI-config machine and everything it acts on:
* `tpConfigDone`: the per-UNI "configuration done" marker of `pUniTechProf`;
* `dhEvents`: events passed to `deviceProcStatusUpdate` of the device handler;
* `txRequests`, `pLastTxMeInstance`: requests sent, last transmitted instance;
* `commChan`: messages the machine put on its own channel;
* `chSuccess`: values sent on the completion channel;
* `started`: work started with `go` and not yet run;
* `pumpRunning`: the message loop `processOmciAniMessages` was started;
* `vlanVerifyCalls`: `verifyUniVlanConfigRequest` calls that have run;
* `stateLog`: states entered (the `enter_state` callback);
* `panicked`: a run-time panic occurred. -/
structure AniWorld where
  oFsm : uniPonAniConfigFsm
  tpConfigDone : Nat → Bool
  dhEvents : List OnuDeviceEvent
  txRequests : List OmciRequest
  pLastTxMeInstance : Option (String × Nat)
  commChan : List TestMessageType
  chSuccess : List Nat
  started : List AniTask
  pumpRunning : Bool
  vlanVerifyCalls : List Nat
  stateLog : List AniState
  panicked : Bool

/-- Modelled from the spec: `onuUniTechProf.setConfigDone` (onu_uni_tp.go, whose
source is not available) stores the per-UNI "configuration done" marker. -/
def setConfigDone (m : Nat → Bool) (uniID : Nat) (done : Bool) : Nat → Bool :=
  fun u => if u = uniID then done else m u

namespace Ani

/-- A `send...` call followed by `pLastTxMeInstance = meInstance`. -/
def send (w : AniWorld) (req : OmciRequest) : AniWorld :=
  { w with txRequests := w.txRequests ++ [req],
           pLastTxMeInstance := some (req.meName, req.EntityID) }

/-- Go method `enterConfigStartingState`. -/
def enterConfigStartingState (w : AniWorld) : AniWorld :=
  { w with oFsm := { w.oFsm with gemPortAttribsSlice := [] },
           started := w.started ++
             [AniTask.processOmciAniMessages, AniTask.prepareAndEnterConfigState] }

/-- Go method `enterCreatingDot1PMapper`. -/
def enterCreatingDot1PMapper (w : AniWorld) : AniWorld :=
  send w ⟨"Create", "Ieee8021PMapperServiceProfile", w.oFsm.mapperSP0ID,
    AttributeValueMap.empty⟩

/-- Go method `enterCreatingMBPCD`. -/
def enterCreatingMBPCD (env : AniEnv) (w : AniWorld) : AniWorld :=
  let bridgePtr := (env.macBridgeServiceProfileEID + w.oFsm.macBpNo) % 2 ^ 16
  send w ⟨"Create", "MacBridgePortConfigurationData", w.oFsm.macBPCD0ID,
    AttributeValueMap.ofList [("BridgeIdPointer", bridgePtr), ("PortNum", 0xFF),
      ("TpType", 3), ("TpPointer", w.oFsm.mapperSP0ID)]⟩

/-- Go method `enterSettingTconts`. -/
def enterSettingTconts (w : AniWorld) : AniWorld :=
  send w ⟨"Set", "TCont", w.oFsm.tcont0ID,
    AttributeValueMap.ofList [("AllocId", w.oFsm.alloc0ID)]⟩

/-- Go method `enterCreatingGemNCTPs`. -/
def enterCreatingGemNCTPs (w : AniWorld) : AniWorld :=
  { w with started := w.started ++ [AniTask.performCreatingGemNCTPs] }

/-- Go method `enterCreatingGemIWs`. -/
def enterCreatingGemIWs (w : AniWorld) : AniWorld :=
  { w with started := w.started ++ [AniTask.performCreatingGemIWs] }

/-- Go method `enterSettingPQs`. -/
def enterSettingPQs (w : AniWorld) : AniWorld :=
  { w with started := w.started ++ [AniTask.performSettingPQs] }

/-- Go method `enterSettingDot1PMapper`: builds the priority-bit attributes,
starts a decoupled reset event when no slot is set, and sends the Set request in
either case. -/
def enterSettingDot1PMapper (w : AniWorld) : AniWorld :=
  match dot1PMapperAttributes w.oFsm.gemPortAttribsSlice with
  | none => { w with panicked := true }
  | some (attrs, foundIwPtr) =>
    let w1 : AniWorld :=
      if foundIwPtr then w
      else { w with started := w.started ++ [AniTask.event aniEvReset] }
    send w1 ⟨"Set", "Ieee8021PMapperServiceProfile", w.oFsm.mapperSP0ID, attrs⟩

/-- Go method `enterAniConfigDone`. -/
def enterAniConfigDone (w : AniWorld) : AniWorld :=
  { w with oFsm := { w.oFsm with aniConfigCompleted := true },
           started := w.started ++ [AniTask.event aniEvReset] }

/-- Go method `enterResettingState`. -/
def enterResettingState (w : AniWorld) : AniWorld :=
  { w with commChan := w.commChan ++ [TestMessageType.AbortMessageProcessing],
           started := w.started ++ [AniTask.event aniEvRestart] }

/-- Go method `enterDisabledState`. -/
def enterDisabledState (w : AniWorld) : AniWorld :=
  let w1 : AniWorld :=
    if w.oFsm.aniConfigCompleted then
      { w with dhEvents := w.dhEvents ++ [w.oFsm.requestEvent],
               oFsm := { w.oFsm with aniConfigCompleted := false } }
    else w
  let w2 : AniWorld :=
    { w1 with tpConfigDone := setConfigDone w1.tpConfigDone w1.oFsm.uniID true,
              started := w1.started ++ [AniTask.verifyUniVlanConfigRequest w1.oFsm.uniID] }
  if w2.oFsm.chanSet then
    { w2 with chSuccess := w2.chSuccess ++ [w2.oFsm.procStep],
              oFsm := { w2.oFsm with chanSet := false } }
  else w2

/-- The `enter_<state>` callbacks registered in `newUniPonAniConfigFsm`. -/
def enterState (env : AniEnv) (w : AniWorld) : AniState → AniWorld
  | aniStDisabled => enterDisabledState w
  | aniStStarting => enterConfigStartingState w
  | aniStCreatingDot1PMapper => enterCreatingDot1PMapper w
  | aniStCreatingMBPCD => enterCreatingMBPCD env w
  | aniStSettingTconts => enterSettingTconts w
  | aniStCreatingGemNCTPs => enterCreatingGemNCTPs w
  | aniStCreatingGemIWs => enterCreatingGemIWs w
  | aniStSettingPQs => enterSettingPQs w
  | aniStSettingDot1PMapper => enterSettingDot1PMapper w
  | aniStConfigDone => enterAniConfigDone w
  | aniStResetting => enterResettingState w

/-- The call `_ = oFsm.pAdaptFsm.pFsm.Event(ev)`: on a valid transition the state
changes, is logged, and the entry action of the new state runs; an error leaves
everything unchanged. -/
def fire (env : AniEnv) (w : AniWorld) (ev : AniEvent) : AniWorld :=
  if w.panicked then w
  else
    match fsmEvent aniConfigEvents w.oFsm.current ev false with
    | (s, none) =>
      enterState env
        { w with oFsm := { w.oFsm with current := s }, stateLog := w.stateLog ++ [s] } s
    | (_, some _) => w

end Ani

/-! ### Background loops of the ANI-config machine -/

/-- The insertion-ordered map of `github.com/cevaris/ordered_map` with `uint16`
keys and values: key/value pairs in insertion order. -/
abbrev OrderedMap := List (Nat × Nat)

/-- `OrderedMap.Get`: the value stored under the key, if any. -/
def OrderedMap.Get (m : OrderedMap) (key : Nat) : Option Nat :=
  m.lookup key

/-- `OrderedMap.Set`: replaces the value of an existing key in place, appends a
new key at the end. -/
def OrderedMap.Set : OrderedMap → Nat → Nat → OrderedMap
  | [], key, value => [(key, value)]
  | (k, v) :: rest, key, value =>
    if k = key then (k, value) :: rest else (k, v) :: OrderedMap.Set rest key value

/-- The constant `cu16StrictPrioWeight`. -/
def cu16StrictPrioWeight : Nat := 0xFFFF

/-- The local `loTrafficSchedulerEID`. -/
def loTrafficSchedulerEID : Nat := 0x8000

/-- First loop of `performSettingPQs`: one step for one GEM port.  `weight` is a
`uint8`, so `uint16(weight)` is its value below 256. -/
def queueMapStep (m : OrderedMap) (p : ponAniGemPortAttribs) : OrderedMap :=
  if p.qosPolicy = "WRR" then
    match m.Get p.upQueueID with
    | none => m.Set p.upQueueID (p.weight % 2 ^ 8)
    | some _ => m
  else m.Set p.upQueueID cu16StrictPrioWeight

/-- The map `loQueueMap` after the first loop of `performSettingPQs`. -/
def loQueueMap (ports : List ponAniGemPortAttribs) : OrderedMap :=
  ports.foldl queueMapStep []

/-- The Set request `performSettingPQs` builds for one entry of `loQueueMap`. -/
def prioQueueRequest (kv : Nat × Nat) : OmciRequest :=
  if kv.2 = cu16StrictPrioWeight then
    ⟨"Set", "PriorityQueue", kv.1,
      AttributeValueMap.empty.set "TrafficSchedulerPointer" 0⟩
  else
    ⟨"Set", "PriorityQueue", kv.1,
      (AttributeValueMap.empty.set "TrafficSchedulerPointer" loTrafficSchedulerEID).set
        "Weight" (kv.2 % 2 ^ 8)⟩

/-- The Create request `performCreatingGemNCTPs` builds for one GEM port. -/
def gemNCTPRequest (tcont0ID : Nat) (p : ponAniGemPortAttribs) : OmciRequest :=
  ⟨"Create", "GemPortNetworkCtp", p.gemPortID,
    AttributeValueMap.ofList [("PortId", p.gemPortID), ("TContPointer", tcont0ID),
      ("Direction", p.direction), ("TrafficManagementPointerForUpstream", p.upQueueID),
      ("PriorityQueuePointerForDownStream", p.downQueueID)]⟩

/-- The Create request `performCreatingGemIWs` builds for one GEM port. -/
def gemIWTPRequest (env : AniEnv) (mapperSP0ID : Nat) (p : ponAniGemPortAttribs) :
    OmciRequest :=
  ⟨"Create", "GemInterworkingTerminationPoint", p.gemPortID,
    AttributeValueMap.ofList [("GemPortNetworkCtpConnectivityPointer", p.gemPortID),
      ("InterworkingOption", 5), ("ServiceProfilePointer", mapperSP0ID),
      ("InterworkingTerminationPointPointer", 0), ("GalProfilePointer", env.galEthernetEID)]⟩

namespace Ani

/-- The common shape of the three multi-instance loops: for each request in
order send it and wait for the response; the first failing wait fires the reset
event and ends the loop, a loop that runs through fires `done`.  `waits k` is the
outcome of the wait after request number `k`. -/
def multiInstanceLoop (env : AniEnv) (done : AniEvent) (waits : Nat → WaitOutcome) :
    List OmciRequest → Nat → AniWorld → AniWorld
  | [], _, w => fire env w done
  | req :: rest, k, w =>
    let w1 := send w req
    match waitforOmciResponse (waits k) with
    | some _ => fire env w1 aniEvReset
    | none => multiInstanceLoop env done waits rest (k + 1) w1

/-- Go method `performCreatingGemNCTPs`. -/
def performCreatingGemNCTPs (env : AniEnv) (w : AniWorld) (waits : Nat → WaitOutcome) :
    AniWorld :=
  multiInstanceLoop env aniEvRxGemntcpsResp waits
    (w.oFsm.gemPortAttribsSlice.map (gemNCTPRequest w.oFsm.tcont0ID)) 0 w

/-- Go method `performCreatingGemIWs`. -/
def performCreatingGemIWs (env : AniEnv) (w : AniWorld) (waits : Nat → WaitOutcome) :
    AniWorld :=
  multiInstanceLoop env aniEvRxGemiwsResp waits
    (w.oFsm.gemPortAttribsSlice.map (gemIWTPRequest env w.oFsm.mapperSP0ID)) 0 w

/-- Go method `performSettingPQs`. -/
def performSettingPQs (env : AniEnv) (w : AniWorld) (waits : Nat → WaitOutcome) :
    AniWorld :=
  multiInstanceLoop env aniEvRxPrioqsResp waits
    ((loQueueMap w.oFsm.gemPortAttribsSlice).map prioQueueRequest) 0 w

/-- Queue search of `prepareAndEnterConfigState` for one GEM entry: walks the
sorted priority-queue keys and records the matching upstream and downstream
queue in `lo`; the flags are `usQueueFound` and `dsQueueFound`. -/
def searchQueues (env : AniEnv) (usQrelPortMask dsQrelPortMask : Nat) :
    List Nat → ponAniGemPortAttribs × Bool × Bool → ponAniGemPortAttribs × Bool × Bool
  | [], acc => acc
  | mgmtEntityID :: rest, (lo, usFound, dsFound) =>
    match env.relatedPort mgmtEntityID with
    | none => searchQueues env usQrelPortMask dsQrelPortMask rest (lo, usFound, dsFound)
    | some relatedPort =>
      let acc : ponAniGemPortAttribs × Bool × Bool :=
        if relatedPort = usQrelPortMask then
          ({ lo with upQueueID := mgmtEntityID }, true, dsFound)
        else if relatedPort % 2 ^ 24 = dsQrelPortMask ∧ mgmtEntityID < 0x8000 then
          ({ lo with downQueueID := mgmtEntityID }, usFound, true)
        else (lo, usFound, dsFound)
      if acc.2.1 && acc.2.2 then acc
      else searchQueues env usQrelPortMask dsQrelPortMask rest acc

/-- Loop of `prepareAndEnterConfigState` over the GEM entries.  The variable
`loGemPortAttribs` (`lo`) is declared before the loop and carried through it. -/
def collectGemPorts (env : AniEnv) (tcont0ID uniID : Nat) :
    List gemPortParamStruct → ponAniGemPortAttribs → List ponAniGemPortAttribs →
      List ponAniGemPortAttribs
  | [], _, slice => slice
  | gemEntry :: rest, lo, slice =>
    let lo1 : ponAniGemPortAttribs :=
      if env.queueInstKeys.length > 0 then
        let usQrelPortMask := (tcont0ID * 2 ^ 16 + gemEntry.prioQueueIndex) % 2 ^ 32
        let dsQrelPortMask := (((uniID + 1) % 2 ^ 8) * 2 ^ 16 + gemEntry.prioQueueIndex) % 2 ^ 32
        (searchQueues env usQrelPortMask dsQrelPortMask env.queueInstKeys
          ({ lo with gemPortID := gemEntry.gemPortID }, false, false)).1
      else lo
    let lo2 : ponAniGemPortAttribs :=
      { lo1 with direction := gemEntry.direction, qosPolicy := gemEntry.queueSchedPolicy,
                 weight := gemEntry.queueWeight, pbitString := gemEntry.pbitString }
    collectGemPorts env tcont0ID uniID rest lo2 (slice ++ [lo2])

/-- Go method `prepareAndEnterConfigState`. -/
def prepareAndEnterConfigState (env : AniEnv) (w : AniWorld) : AniWorld :=
  let f := w.oFsm
  let tcont0ID := match env.tcontInstKeys with
    | [] => f.tcont0ID
    | k :: _ => k
  let f1 : uniPonAniConfigFsm :=
    { f with
      mapperSP0ID := (env.ieeeMapperServiceProfileEID + f.macBpNo + f.techProfileID) % 2 ^ 16,
      macBPCD0ID := (env.macBridgePortAniEID + f.entityID + f.techProfileID) % 2 ^ 16,
      tcont0ID := tcont0ID,
      alloc0ID := env.allocID,
      gemPortAttribsSlice :=
        collectGemPorts env tcont0ID f.uniID env.mapGemPortParams ⟨0, 0, 0, 0, "", 0, []⟩
          f.gemPortAttribsSlice }
  fire env { w with oFsm := f1 } aniEvStartConfig

/-- Runs one started work unit.  `waits` gives the wait outcomes of a loop. -/
def runTask (env : AniEnv) (waits : Nat → WaitOutcome) (w : AniWorld) : AniTask → AniWorld
  | AniTask.event e => fire env w e
  | AniTask.processOmciAniMessages => { w with pumpRunning := true }
  | AniTask.prepareAndEnterConfigState => prepareAndEnterConfigState env w
  | AniTask.performCreatingGemNCTPs => performCreatingGemNCTPs env w waits
  | AniTask.performCreatingGemIWs => performCreatingGemIWs env w waits
  | AniTask.performSettingPQs => performSettingPQs env w waits
  | AniTask.verifyUniVlanConfigRequest uniID =>
    { w with vlanVerifyCalls := w.vlanVerifyCalls ++ [uniID] }

/-- Runs started work units in the order they were started, at most `fuel` of
them, until none is left. -/
def drain (env : AniEnv) (waits : Nat → WaitOutcome) : Nat → AniWorld → AniWorld
  | 0, w => w
  | fuel + 1, w =>
    match w.started with
    | [] => w
    | t :: ts => drain env waits fuel (runTask env waits { w with started := ts } t)

end Ani

/-- An ANI-config machine for UNI 0 in the given state with the given GEM ports,
marker unset, nothing sent and nothing started. -/
def sampleAniWorld (s : AniState) (ports : List ponAniGemPortAttribs) : AniWorld :=
  { oFsm := ⟨s, 0, 1, 0x101, 64, OnuDeviceEvent.OmciAniConfigDone, false, false, 0,
      0x8042, 0x2102, 0x8001, 1024, ports⟩,
    tpConfigDone := fun _ => false, dhEvents := [], txRequests := [],
    pLastTxMeInstance := none, commChan := [], chSuccess := [], started := [],
    pumpRunning := true, vlanVerifyCalls := [], stateLog := [], panicked := false }

/-- Entity-id constants and an empty mirror. -/
def sampleAniEnv : AniEnv :=
  ⟨0x8001, 0x2102, 0x201, 1, [0x8001], [], fun _ => none, 1024, []⟩

/-- Wait outcomes: every wait times out. -/
def allTimeout : Nat → WaitOutcome := fun _ => WaitOutcome.timeout

/-- Wait outcomes: every wait receives a success response. -/
def allReceived : Nat → WaitOutcome := fun _ => WaitOutcome.received true

/-- The timeout scenario on a sample machine: the first GEM-NCTP wait times out
and the started work is run to the end. -/
def gemNctpTimeoutRun : AniWorld :=
  Ani.drain sampleAniEnv allTimeout 2
    (Ani.performCreatingGemNCTPs sampleAniEnv
      (sampleAniWorld aniStCreatingGemNCTPs collidingPorts) allTimeout)

/-- A GEM port whose priority string claims no bit. -/
def unclaimedPorts : List ponAniGemPortAttribs :=
  [ ⟨1024, 0x8001, 1, 3, "StrictPriority", 0, "00000000".toList⟩ ]

/-- The no-claim scenario on a sample machine: `enterSettingDot1PMapper` runs
with ports that claim no bit and the started work is run to the end. -/
def noClaimRun : AniWorld :=
  Ani.drain sampleAniEnv allReceived 3
    (Ani.enterSettingDot1PMapper (sampleAniWorld aniStSettingDot1PMapper unclaimedPorts))

/-- Some GEM port mapped to queue `q` has a policy other than "WRR". -/
def hasNonWrrPort (q : Nat) (ports : List ponAniGemPortAttribs) : Bool :=
  ports.any (fun p => decide (p.upQueueID = q) && !decide (p.qosPolicy = "WRR"))

/-- Some GEM port mapped to queue `q` has policy "WRR". -/
def hasWrrPort (q : Nat) (ports : List ponAniGemPortAttribs) : Bool :=
  ports.any (fun p => decide (p.upQueueID = q) && decide (p.qosPolicy = "WRR"))

/-- Weight (as `uint8`) of the first GEM port in list order mapped to queue `q`. -/
def firstWeightOf (q : Nat) (ports : List ponAniGemPortAttribs) : Option Nat :=
  (ports.find? (fun p => decide (p.upQueueID = q))).map (fun p => p.weight % 2 ^ 8)

/-- A "WRR" port followed by a strict-priority port on the same upstream queue. -/
def mixedPolicyPorts : List ponAniGemPortAttribs :=
  [ ⟨1024, 0x8001, 1, 3, "WRR", 10, "00001111".toList⟩,
    ⟨1025, 0x8001, 2, 3, "StrictPriority", 0, "11110000".toList⟩ ]

/-- Two "WRR" ports on one upstream queue and one on another. -/
def wrrPorts : List ponAniGemPortAttribs :=
  [ ⟨1024, 0x8001, 1, 3, "WRR", 10, "00000011".toList⟩,
    ⟨1025, 0x8001, 2, 3, "WRR", 20, "00001100".toList⟩,
    ⟨1026, 0x8002, 3, 3, "StrictPriority", 0, "11110000".toList⟩ ]

/-! ## Lock / unlock machine (uniportadmin.go) and its use by the device handler -/

/-- Lock/unlock events (`uniEv...` constants). -/
inductive UniEvent
  | uniEvStart
  | uniEvStartAdmin
  | uniEvRxUnisResp
  | uniEvRxOnugResp
  | uniEvTimeoutSimple
  | uniEvTimeoutUnis
  | uniEvReset
  | uniEvRestart
  deriving DecidableEq, Repr

/-- Lock/unlock states (`uniSt...` constants). -/
inductive UniState
  | uniStDisabled
  | uniStStarting
  | uniStSettingUnis
  | uniStSettingOnuG
  | uniStAdminDone
  | uniStResetting
  deriving DecidableEq, Repr

open UniEvent UniState

/-- The `fsm.Events` table `newLockStateFsm` builds: the first table for
`aAdminState == true` (port locking requested), the second for `false` (port
unlocking requested). -/
def lockStateEvents (aAdminState : Bool) : List (EventDesc UniState UniEvent) :=
  if aAdminState then
    [ ⟨uniEvStart, [uniStDisabled], uniStStarting⟩,
      ⟨uniEvStartAdmin, [uniStStarting], uniStSettingUnis⟩,
      ⟨uniEvRxUnisResp, [uniStSettingUnis], uniStSettingOnuG⟩,
      ⟨uniEvRxOnugResp, [uniStSettingOnuG], uniStAdminDone⟩,
      ⟨uniEvTimeoutSimple, [uniStSettingOnuG], uniStStarting⟩,
      ⟨uniEvTimeoutUnis, [uniStSettingUnis], uniStStarting⟩,
      ⟨uniEvReset, [uniStStarting, uniStSettingOnuG, uniStSettingUnis, uniStAdminDone],
        uniStResetting⟩,
      ⟨uniEvRestart,
        [uniStStarting, uniStSettingOnuG, uniStSettingUnis, uniStAdminDone, uniStResetting],
        uniStDisabled⟩ ]
  else
    [ ⟨uniEvStart, [uniStDisabled], uniStStarting⟩,
      ⟨uniEvStartAdmin, [uniStStarting], uniStSettingOnuG⟩,
      ⟨uniEvRxOnugResp, [uniStSettingOnuG], uniStSettingUnis⟩,
      ⟨uniEvRxUnisResp, [uniStSettingUnis], uniStAdminDone⟩,
      ⟨uniEvTimeoutSimple, [uniStSettingOnuG], uniStStarting⟩,
      ⟨uniEvTimeoutUnis, [uniStSettingUnis], uniStStarting⟩,
      ⟨uniEvReset, [uniStStarting, uniStSettingOnuG, uniStSettingUnis, uniStAdminDone],
        uniStResetting⟩,
      ⟨uniEvRestart,
        [uniStStarting, uniStSettingOnuG, uniStSettingUnis, uniStAdminDone, uniStResetting],
        uniStDisabled⟩ ]

/-- States of a machine with table `lockStateEvents aAdminState` under a
sequence of events fired without error handling: start state, then the state
after each event. -/
def lockStateTrace (aAdminState : Bool) (s : UniState) : List UniEvent → List UniState
  | [] => [s]
  | ev :: evs =>
    s :: lockStateTrace aAdminState (fsmEvent (lockStateEvents aAdminState) s ev false).1 evs

/-- Errors returned by the events of such a sequence, in order. -/
def lockStateErrors (aAdminState : Bool) (s : UniState) :
    List UniEvent → List (Option FsmError)
  | [] => []
  | ev :: evs =>
    (fsmEvent (lockStateEvents aAdminState) s ev false).2 ::
      lockStateErrors aAdminState (fsmEvent (lockStateEvents aAdminState) s ev false).1 evs

/-- Go type `lockStateFsm`: the struct fields and the current state of
`pAdaptFsm.pFsm`. -/
structure lockStateFsm where
  adminState : Bool
  requestEvent : OnuDeviceEvent
  current : UniState
  deriving DecidableEq, Repr

/-- Work units started with `go` by a lock/unlock machine; the flag names the
machine (`true`: `pLockStateFsm`, `false`: `pUnlockStateFsm`). -/
inductive LockTask
  | event (lock : Bool) (e : UniEvent)
  | processOmciLockMessages (lock : Bool)
  | performUniPortAdminSet (lock : Bool)
  deriving DecidableEq, Repr

/-- The part of `deviceHandler` the lock/unlock procedure works on:
* `pLockStateFsm`, `pUnlockStateFsm`: the two machines (`none` for `nil`);
* `issued`: every `Event` call made, in order (machine, event);
* `entered`: every state entered, in order (machine, state);
* `onuGAdminTx`: AdministrativeState values sent to ONU-G;
* `dhEvents`: events passed to `deviceProcStatusUpdate`;
* `commChan`: messages put on a machine's own channel;
* `started`: work started with `go` and not yet run. -/
structure LockWorld where
  pLockStateFsm : Option lockStateFsm
  pUnlockStateFsm : Option lockStateFsm
  issued : List (Bool × UniEvent)
  entered : List (Bool × UniState)
  onuGAdminTx : List Nat
  dhEvents : List OnuDeviceEvent
  commChan : List (Bool × TestMessageType)
  started : List LockTask
  deriving DecidableEq, Repr

namespace Lock

/-- The machine named by the flag. -/
def fsmOf (w : LockWorld) (lock : Bool) : Option lockStateFsm :=
  if lock then w.pLockStateFsm else w.pUnlockStateFsm

/-- Stores a machine under the name given by the flag. -/
def setFsm (w : LockWorld) (lock : Bool) (f : lockStateFsm) : LockWorld :=
  if lock then { w with pLockStateFsm := some f } else { w with pUnlockStateFsm := some f }

/-- The `enter_<state>` callbacks registered in `newLockStateFsm`
(`enterAdminStartingState`, `enterSettingOnuGState`, `enterSettingUnisState`,
`enterAdminDoneState`, `enterResettingState`; none for Disabled). -/
def enterState (w : LockWorld) (lock : Bool) (f : lockStateFsm) : UniState → LockWorld
  | uniStDisabled => w
  | uniStStarting =>
    { w with started := w.started ++
        [LockTask.processOmciLockMessages lock, LockTask.event lock uniEvStartAdmin] }
  | uniStSettingOnuG =>
    { w with onuGAdminTx := w.onuGAdminTx ++ [if f.adminState then 1 else 0] }
  | uniStSettingUnis =>
    { w with started := w.started ++ [LockTask.performUniPortAdminSet lock] }
  | uniStAdminDone =>
    { w with dhEvents := w.dhEvents ++ [f.requestEvent],
             started := w.started ++ [LockTask.event lock uniEvReset] }
  | uniStResetting =>
    { w with commChan := w.commChan ++ [(lock, TestMessageType.AbortMessageProcessing)],
             started := w.started ++ [LockTask.event lock uniEvRestart] }

/-- The call `pAdaptFsm.pFsm.Event(ev)` on the machine `f` named by the flag. -/
def fire (w : LockWorld) (lock : Bool) (f : lockStateFsm) (ev : UniEvent) : LockWorld :=
  let w1 : LockWorld := { w with issued := w.issued ++ [(lock, ev)] }
  match fsmEvent (lockStateEvents f.adminState) f.current ev false with
  | (s, none) =>
    enterState
      { setFsm w1 lock { f with current := s } with entered := w1.entered ++ [(lock, s)] }
      lock f s
  | (_, some _) => w1

end Lock

/-- Go method `deviceHandler.runUniLockFsm(aAdminState)`.  The result is `none`
when the method dereferences a nil machine pointer. -/
def runUniLockFsm (w : LockWorld) (aAdminState : Bool) : Option LockWorld :=
  match Lock.fsmOf w aAdminState with
  | none => none
  | some own =>
    let w1 : LockWorld :=
      match Lock.fsmOf w (!aAdminState) with
      | none => w
      | some opp =>
        if opp.current ≠ uniStDisabled then Lock.fire w (!aAdminState) opp uniEvReset else w
    if own.current = uniStDisabled then some (Lock.fire w1 aAdminState own uniEvStart)
    else some w1

/-- A handler whose lock machine is busy setting the UNIs and whose unlock
machine is idle. -/
def sampleLockWorld : LockWorld :=
  { pLockStateFsm := some ⟨true, OnuDeviceEvent.UniAdminStateDone, uniStSettingUnis⟩,
    pUnlockStateFsm := some ⟨false, OnuDeviceEvent.UniUnlockStateDone, uniStDisabled⟩,
    issued := [], entered := [], onuGAdminTx := [], dhEvents := [], commChan := [],
    started := [] }

/-- The lock machine of `sampleLockWorld`. -/
def sampleLockFsm : lockStateFsm := ⟨true, OnuDeviceEvent.UniAdminStateDone, uniStSettingUnis⟩

/-- The unlock machine of `sampleLockWorld`. -/
def sampleUnlockFsm : lockStateFsm := ⟨false, OnuDeviceEvent.UniUnlockStateDone, uniStDisabled⟩

/-! ## Flow handling of the device handler (device_handler.go) -/

/-- Go type `onuUniPort` (onu_uni_port.go), the identity fields. -/
structure onuUniPort where
  enabled : Bool
  name : String
  portNo : Nat
  portType : Nat
  ofpPortNo : String
  uniID : Nat
  macBpNo : Nat
  entityID : Nat
  deriving DecidableEq, Repr

/-- The match-field types `getFlowOfbFields` distinguishes. -/
inductive OxmOfbFieldTypes
  | OFPXMT_OFB_ETH_TYPE
  | OFPXMT_OFB_IP_PROTO
  | OFPXMT_OFB_VLAN_VID
  | OFPXMT_OFB_VLAN_PCP
  | OFPXMT_OFB_UDP_DST
  | OFPXMT_OFB_UDP_SRC
  | OFPXMT_OFB_IPV4_DST
  | OFPXMT_OFB_IPV4_SRC
  | OFPXMT_OFB_METADATA
  | OFPXMT_OFB_OTHER
  deriving DecidableEq, Repr

/-- An OpenFlow match field (`ofp.OfpOxmOfbField`): its type and what the getters
`GetIpProto`, `GetVlanVid`, `GetVlanVidMask`, `GetVlanPcp` return (`uint32`). -/
structure OfpOxmOfbField where
  type : OxmOfbFieldTypes
  IpProto : Nat
  VlanVid : Nat
  VlanVidMask : Nat
  VlanPcp : Nat
  deriving DecidableEq, Repr

/-- An OpenFlow action as `getFlowActions` sees it: a push-VLAN action, a
set-field action (with the flag `OxmClass == OFPXMC_OPENFLOW_BASIC` and the
field), or any other action. -/
inductive OfpAction
  | OFPAT_PUSH_VLAN (ethertype : Nat)
  | OFPAT_SET_FIELD (openflowBasic : Bool) (field : OfpOxmOfbField)
  | OFPAT_OTHER
  deriving DecidableEq, Repr

/-- A flow item (`ofp.OfpFlowStats`) as read through the helpers of the flow
library: `flow.GetMetadataFromWriteMetadataAction` (a `uint64`, 0 when the flow
has no write-metadata instruction), `flow.GetOfbFields`, `flow.GetActions`. -/
structure OfpFlowStats where
  writeMetadata : Nat
  ofbFields : List OfpOxmOfbField
  actions : List OfpAction
  deriving DecidableEq, Repr

/-- The library function `flow.GetTechProfileIDFromWriteMetaData`: the two bytes
following the two most significant bytes of the 8-byte metadata (layout quoted in
the comment of `addFlowItemToUniPort`). -/
def GetTechProfileIDFromWriteMetaData (metadata : Nat) : Nat :=
  (metadata / 2 ^ 32) % 2 ^ 16

/-- The constant `of.OfpVlanId_OFPVID_NONE`. -/
def OFPVID_NONE : Nat := 0x0000

/-- The constant `of.OfpVlanId_OFPVID_PRESENT`. -/
def OFPVID_PRESENT : Nat := 0x1000

/-- Go method `getFlowOfbFields`: walks the match fields and updates
`(loMatchVlan, loAddPcp, loIPProto)`; an IP protocol 2 ends the walk. -/
def getFlowOfbFields : List OfpOxmOfbField → Nat × Nat × Nat → Nat × Nat × Nat
  | [], acc => acc
  | field :: rest, (loMatchVlan, loAddPcp, loIPProto) =>
    match field.type with
    | OxmOfbFieldTypes.OFPXMT_OFB_IP_PROTO =>
      if field.IpProto = 2 then (loMatchVlan, loAddPcp, field.IpProto)
      else getFlowOfbFields rest (loMatchVlan, loAddPcp, field.IpProto)
    | OxmOfbFieldTypes.OFPXMT_OFB_VLAN_VID =>
      let vid := field.VlanVid % 2 ^ 16
      let mask := field.VlanVidMask % 2 ^ 16
      let vid2 := if ¬ (vid = OFPVID_PRESENT ∧ mask = OFPVID_PRESENT) then vid % 2 ^ 12 else vid
      getFlowOfbFields rest (vid2, loAddPcp, loIPProto)
    | OxmOfbFieldTypes.OFPXMT_OFB_VLAN_PCP =>
      getFlowOfbFields rest (loMatchVlan, field.VlanPcp % 2 ^ 8, loIPProto)
    | _ => getFlowOfbFields rest (loMatchVlan, loAddPcp, loIPProto)

/-- Go method `getFlowActions`: walks the actions and updates
`(loSetPcp, loSetVlan)`. -/
def getFlowActions : List OfpAction → Nat × Nat → Nat × Nat
  | [], acc => acc
  | action :: rest, (loSetPcp, loSetVlan) =>
    match action with
    | OfpAction.OFPAT_SET_FIELD _ field =>
      if field.type = OxmOfbFieldTypes.OFPXMT_OFB_VLAN_VID then
        getFlowActions rest (loSetPcp, field.VlanVid % 2 ^ 16)
      else if field.type = OxmOfbFieldTypes.OFPXMT_OFB_VLAN_PCP then
        getFlowActions rest (field.VlanPcp % 2 ^ 8, loSetVlan)
      else getFlowActions rest (loSetPcp, loSetVlan)
    | _ => getFlowActions rest (loSetPcp, loSetVlan)

/-- A per-UNI VLAN-filter machine as the device handler sees it: the arguments it
was constructed with and whether its start event was accepted. -/
structure UniVlanConfigFsm where
  techProfileID : Nat
  matchVid : Nat
  setVid : Nat
  setPcp : Nat
  requestEvent : OnuDeviceEvent
  started : Bool
  deriving DecidableEq, Repr

/-- What the constructor `NewUniVlanConfigFsm` and the new machine answer to
`createVlanFilterFsm` (the constructor and the machine's table are declared in
omci_vlan_config.go and enter as a parameter): whether an instance is returned, whether its `pFsm` is set,
whether it is in `vlanStDisabled`, and whether `Event(vlanEvStart)` fails. -/
structure NewVlanFsmOutcome where
  created : Bool
  hasFsm : Bool
  isDisabled : Bool
  startFails : Bool
  deriving DecidableEq, Repr

/-- The errors `addFlowItemToUniPort` and `createVlanFilterFsm` return. -/
inductive FlowError
  | invalidMetadata
  | setMatchVlanInconsistent
  | fsmAlreadyRunning
  | noValidOnuDevice
  | cantStart
  | notInDisabledState
  | fsmInvalid
  | couldNotBeCreated
  deriving DecidableEq, Repr

/-- The part of `deviceHandler` flow handling works on: whether
`getOnuDeviceEntry(true)` yields a device entry, and the table
`UniVlanConfigFsmMap` from UNI index to VLAN-filter machine. -/
structure FlowHandler where
  deviceEntry : Bool
  UniVlanConfigFsmMap : Nat → Option UniVlanConfigFsm

/-- Go method `createVlanFilterFsm`: the returned error (`none` for `nil`) and the
handler afterwards. -/
def createVlanFilterFsm (dh : FlowHandler) (ctor : NewVlanFsmOutcome) (apUniPort : onuUniPort)
    (aTpID aMatchVlan aSetVlan aSetPcp : Nat) (aDevEvent : OnuDeviceEvent) :
    Option FlowError × FlowHandler :=
  if ¬ dh.deviceEntry then (some FlowError.noValidOnuDevice, dh)
  else if ctor.created then
    let store : Bool → FlowHandler := fun started =>
      { dh with UniVlanConfigFsmMap := fun u =>
          if u = apUniPort.uniID then
            some ⟨aTpID, aMatchVlan, aSetVlan, aSetPcp, aDevEvent, started⟩
          else dh.UniVlanConfigFsmMap u }
    if ctor.hasFsm then
      if ctor.isDisabled then
        if ctor.startFails then (some FlowError.cantStart, store false)
        else (none, store true)
      else (some FlowError.notInDisabledState, store false)
    else (some FlowError.fsmInvalid, store false)
  else (some FlowError.couldNotBeCreated, dh)

/-- Go method `addFlowItemToUniPort`: the returned error (`none` for `nil`) and
the handler afterwards. -/
def addFlowItemToUniPort (dh : FlowHandler) (ctor : NewVlanFsmOutcome)
    (apFlowItem : OfpFlowStats) (apUniPort : onuUniPort) : Option FlowError × FlowHandler :=
  let metadata := apFlowItem.writeMetadata
  if metadata = 0 then (some FlowError.invalidMetadata, dh)
  else
    let loTpID := GetTechProfileIDFromWriteMetaData metadata
    let (loMatchVlan, _, loIPProto) :=
      getFlowOfbFields apFlowItem.ofbFields (OFPVID_PRESENT, 0, 0)
    if loIPProto = 2 then (none, dh)
    else
      let (loSetPcp, loSetVlan) := getFlowActions apFlowItem.actions (0, OFPVID_NONE)
      if loSetVlan = OFPVID_NONE ∧ loMatchVlan ≠ OFPVID_PRESENT then
        (some FlowError.setMatchVlanInconsistent, dh)
      else
        let loSetVlan2 :=
          if loSetVlan = OFPVID_NONE ∧ loMatchVlan = OFPVID_PRESENT then loMatchVlan
          else if loSetVlan ≠ OFPVID_PRESENT then loSetVlan % 2 ^ 12
          else loSetVlan
        if (dh.UniVlanConfigFsmMap apUniPort.uniID).isSome then
          (some FlowError.fsmAlreadyRunning, dh)
        else
          createVlanFilterFsm dh ctor apUniPort loTpID loMatchVlan loSetVlan2 loSetPcp
            OnuDeviceEvent.OmciVlanFilterDone

/-- A handler with a device entry and no VLAN-filter machine. -/
def sampleFlowHandler : FlowHandler := ⟨true, fun _ => none⟩

/-- The usual outcome of the constructor: an idle machine that starts. -/
def vlanFsmStarts : NewVlanFsmOutcome := ⟨true, true, true, false⟩

/-- UNI port 0. -/
def sampleUniPort : onuUniPort := ⟨false, "uni-16", 16, 1, "uni-16", 0, 1, 0x101⟩

/-- A flow whose write-metadata is 1: technology-profile id 0, port id 1. -/
def tpZeroFlow : OfpFlowStats := ⟨1, [], []⟩

/-- A flow without write-metadata. -/
def noMetadataFlow : OfpFlowStats := ⟨0, [], []⟩

/-! ### Derived notions for flow items -/

/-- The action is a set-field action on the VLAN id (a "set-VLAN action"). -/
def isSetVlanAction : OfpAction → Bool
  | OfpAction.OFPAT_SET_FIELD _ field =>
    decide (field.type = OxmOfbFieldTypes.OFPXMT_OFB_VLAN_VID)
  | _ => false

/-- The match field is an IP-protocol match on protocol 2 (IGMP). -/
def isIgmpMatch (field : OfpOxmOfbField) : Bool :=
  decide (field.type = OxmOfbFieldTypes.OFPXMT_OFB_IP_PROTO) && decide (field.IpProto = 2)

/-- The matched VLAN id of a flow after masking (`loMatchVlan`). -/
def flowMatchVlan (apFlowItem : OfpFlowStats) : Nat :=
  (getFlowOfbFields apFlowItem.ofbFields (OFPVID_PRESENT, 0, 0)).1

/-- The IP protocol found by `getFlowOfbFields` (`loIPProto`). -/
def flowIPProto (apFlowItem : OfpFlowStats) : Nat :=
  (getFlowOfbFields apFlowItem.ofbFields (OFPVID_PRESENT, 0, 0)).2.2

/-- The target VLAN id of a flow as left by `getFlowActions` (`loSetVlan` before
it is adjusted). -/
def flowSetVlan (apFlowItem : OfpFlowStats) : Nat :=
  (getFlowActions apFlowItem.actions (0, OFPVID_NONE)).2

/-- A VLAN-filter machine already stored for UNI 0. -/
def runningVlanFsm : UniVlanConfigFsm :=
  ⟨64, 100, 200, 0, OnuDeviceEvent.OmciVlanFilterDone, true⟩

/-- A handler with a device entry and a VLAN-filter machine for UNI 0. -/
def busyFlowHandler : FlowHandler :=
  ⟨true, fun u => if u = 0 then some runningVlanFsm else none⟩

/-- A flow with technology-profile id 64 that matches IP protocol 2 (IGMP). -/
def igmpFlow : OfpFlowStats :=
  ⟨64 * 2 ^ 32 + 16, [⟨OxmOfbFieldTypes.OFPXMT_OFB_IP_PROTO, 2, 0, 0, 0⟩,
      ⟨OxmOfbFieldTypes.OFPXMT_OFB_VLAN_VID, 0, 100, 0, 0⟩], []⟩

/-- A flow with technology-profile id 64 that matches VLAN 100 and sets no VLAN. -/
def matchOnlyFlow : OfpFlowStats :=
  ⟨64 * 2 ^ 32 + 16, [⟨OxmOfbFieldTypes.OFPXMT_OFB_VLAN_VID, 0, 4096 + 100, 0, 0⟩], []⟩

/-- A flow with technology-profile id 64 that matches VLAN 100 and sets VLAN 200. -/
def taggingFlow : OfpFlowStats :=
  ⟨64 * 2 ^ 32 + 16, [⟨OxmOfbFieldTypes.OFPXMT_OFB_VLAN_VID, 0, 4096 + 100, 0, 0⟩],
    [OfpAction.OFPAT_PUSH_VLAN 0x8100,
      OfpAction.OFPAT_SET_FIELD true ⟨OxmOfbFieldTypes.OFPXMT_OFB_VLAN_VID, 0, 4096 + 200, 0, 0⟩]⟩

/-! ## Response handlers of the configuration machines
(omci_ani_config.go, uniportadmin.go, mib_download.go) -/

/-- The `omci.MessageType` values the response handlers distinguish. -/
inductive OmciMessageType
  | CreateResponseType
  | SetResponseType
  | OtherType (code : Nat)
  deriving DecidableEq, Repr

/-- Result code `me.Success`. -/
def Success : Nat := 0

/-- The fields of `omci.CreateResponse` and `omci.SetResponse` the handlers read. -/
structure OmciResponse where
  EntityClass : Nat
  EntityInstance : Nat
  Result : Nat
  deriving DecidableEq, Repr

/-- What `(*msg.OmciPacket).Layer(...)` followed by the type assertion yields:
no such layer, a layer of another type, or the decoded response. -/
inductive OmciLayer
  | missing
  | notAssignable
  | decoded (msgObj : OmciResponse)
  deriving DecidableEq, Repr

/-- Go type `OmciMessage` as the handlers see it: the message type of the OMCI
header and the create-response and set-response layers of the packet. -/
structure OmciMessage where
  MessageType : OmciMessageType
  CreateResponseLayer : OmciLayer
  SetResponseLayer : OmciLayer
  deriving DecidableEq, Repr

/-- The getters of `me.ManagedEntity` used on `pLastTxMeInstance`. -/
structure ManagedEntity where
  ClassID : Nat
  EntityID : Nat
  Name : String
  deriving DecidableEq, Repr

/-- What a response handler does besides logging: nothing, one `Event` call on
its machine, `true` sent on the response channel of the multi-instance wait, or a
nil dereference (`pLastTxMeInstance` is nil). -/
inductive HandlerEffect (E : Type)
  | nothing
  | event (e : E)
  | responseReceived
  | nilDereference
  deriving DecidableEq, Repr

/-- MIB-download events (`dlEv...` constants) used in mib_download.go and
device_handler.go. -/
inductive DlEvent
  | dlEvStart
  | dlEvCreateGal
  | dlEvRxGalResp
  | dlEvRxOnu2gResp
  | dlEvRxBridgeResp
  | dlEvReset
  | dlEvRestart
  deriving DecidableEq, Repr

open DlEvent

/-- The test `msgObj.EntityClass == pLastTxMeInstance.GetClassID() &&
msgObj.EntityInstance == pLastTxMeInstance.GetEntityID()`. -/
def correlates (msgObj : OmciResponse) (last : ManagedEntity) : Bool :=
  decide (msgObj.EntityClass = last.ClassID) && decide (msgObj.EntityInstance = last.EntityID)

/-- Go method `handleOmciAniConfigCreateResponseMessage`. -/
def handleOmciAniConfigCreateResponseMessage (pLastTxMeInstance : Option ManagedEntity)
    (msg : OmciMessage) : HandlerEffect AniEvent :=
  match msg.CreateResponseLayer with
  | OmciLayer.missing => HandlerEffect.nothing
  | OmciLayer.notAssignable => HandlerEffect.nothing
  | OmciLayer.decoded msgObj =>
    if msgObj.Result ≠ Success then HandlerEffect.nothing
    else
      match pLastTxMeInstance with
      | none => HandlerEffect.nilDereference
      | some last =>
        if correlates msgObj last then
          if last.Name = "Ieee8021PMapperServiceProfile" then
            HandlerEffect.event aniEvRxDot1pmapCResp
          else if last.Name = "MacBridgePortConfigurationData" then
            HandlerEffect.event aniEvRxMbpcdResp
          else if last.Name = "GemPortNetworkCtp" ∨
              last.Name = "GemInterworkingTerminationPoint" then
            HandlerEffect.responseReceived
          else HandlerEffect.nothing
        else HandlerEffect.nothing

/-- Go method `handleOmciAniConfigSetResponseMessage`. -/
def handleOmciAniConfigSetResponseMessage (pLastTxMeInstance : Option ManagedEntity)
    (msg : OmciMessage) : HandlerEffect AniEvent :=
  match msg.SetResponseLayer with
  | OmciLayer.missing => HandlerEffect.nothing
  | OmciLayer.notAssignable => HandlerEffect.nothing
  | OmciLayer.decoded msgObj =>
    if msgObj.Result ≠ Success then HandlerEffect.nothing
    else
      match pLastTxMeInstance with
      | none => HandlerEffect.nilDereference
      | some last =>
        if correlates msgObj last then
          if last.Name = "TCont" then HandlerEffect.event aniEvRxTcontsResp
          else if last.Name = "PriorityQueue" then HandlerEffect.responseReceived
          else if last.Name = "Ieee8021PMapperServiceProfile" then
            HandlerEffect.event aniEvRxDot1pmapSResp
          else HandlerEffect.nothing
        else HandlerEffect.nothing

/-- Go method `handleOmciAniConfigMessage`. -/
def handleOmciAniConfigMessage (pLastTxMeInstance : Option ManagedEntity)
    (msg : OmciMessage) : HandlerEffect AniEvent :=
  match msg.MessageType with
  | OmciMessageType.CreateResponseType =>
    handleOmciAniConfigCreateResponseMessage pLastTxMeInstance msg
  | OmciMessageType.SetResponseType =>
    handleOmciAniConfigSetResponseMessage pLastTxMeInstance msg
  | OmciMessageType.OtherType _ => HandlerEffect.nothing

/-- Go method `handleOmciLockStateMessage`. -/
def handleOmciLockStateMessage (pLastTxMeInstance : Option ManagedEntity)
    (msg : OmciMessage) : HandlerEffect UniEvent :=
  if msg.MessageType = OmciMessageType.SetResponseType then
    match msg.SetResponseLayer with
    | OmciLayer.missing => HandlerEffect.nothing
    | OmciLayer.notAssignable => HandlerEffect.nothing
    | OmciLayer.decoded msgObj =>
      if msgObj.Result ≠ Success then HandlerEffect.nothing
      else
        match pLastTxMeInstance with
        | none => HandlerEffect.nilDereference
        | some last =>
          if correlates msgObj last then
            if last.Name = "OnuG" then HandlerEffect.event uniEvRxOnugResp
            else if last.Name = "UniG" ∨ last.Name = "VEIP" then
              HandlerEffect.responseReceived
            else HandlerEffect.nothing
          else HandlerEffect.nothing
  else HandlerEffect.nothing

/-- Go method `handleOmciMibDownloadMessage`. -/
def handleOmciMibDownloadMessage (pLastTxMeInstance : Option ManagedEntity)
    (msg : OmciMessage) : HandlerEffect DlEvent :=
  match msg.MessageType with
  | OmciMessageType.CreateResponseType =>
    match msg.CreateResponseLayer with
    | OmciLayer.missing => HandlerEffect.nothing
    | OmciLayer.notAssignable => HandlerEffect.nothing
    | OmciLayer.decoded msgObj =>
      if msgObj.Result ≠ Success then HandlerEffect.nothing
      else
        match pLastTxMeInstance with
        | none => HandlerEffect.nilDereference
        | some last =>
          if correlates msgObj last then
            if last.Name = "GalEthernetProfile" then HandlerEffect.event dlEvRxGalResp
            else if last.Name = "MacBridgeServiceProfile" ∨
                last.Name = "MacBridgePortConfigurationData" ∨
                last.Name = "ExtendedVlanTaggingOperationConfigurationData" then
              HandlerEffect.responseReceived
            else HandlerEffect.nothing
          else HandlerEffect.nothing
  | OmciMessageType.SetResponseType =>
    match msg.SetResponseLayer with
    | OmciLayer.missing => HandlerEffect.nothing
    | OmciLayer.notAssignable => HandlerEffect.nothing
    | OmciLayer.decoded msgObj =>
      if msgObj.Result ≠ Success then HandlerEffect.nothing
      else
        match pLastTxMeInstance with
        | none => HandlerEffect.nilDereference
        | some last =>
          if correlates msgObj last then
            if last.Name = "Onu2G" then HandlerEffect.event dlEvRxOnu2gResp
            else HandlerEffect.nothing
          else HandlerEffect.nothing
  | OmciMessageType.OtherType _ => HandlerEffect.nothing

/-- The decoded response of a message for its own message type. -/
def OmciMessage.response (msg : OmciMessage) : Option OmciResponse :=
  match msg.MessageType with
  | OmciMessageType.CreateResponseType =>
    match msg.CreateResponseLayer with
    | OmciLayer.decoded msgObj => some msgObj
    | _ => none
  | OmciMessageType.SetResponseType =>
    match msg.SetResponseLayer with
    | OmciLayer.decoded msgObj => some msgObj
    | _ => none
  | OmciMessageType.OtherType _ => none

/-- A create response for class `cls`, instance `inst` with result `res`. -/
def createResponse (cls inst res : Nat) : OmciMessage :=
  ⟨OmciMessageType.CreateResponseType, OmciLayer.decoded ⟨cls, inst, res⟩, OmciLayer.missing⟩

/-- A set response for class `cls`, instance `inst` with result `res`. -/
def setResponse (cls inst res : Nat) : OmciMessage :=
  ⟨OmciMessageType.SetResponseType, OmciLayer.missing, OmciLayer.decoded ⟨cls, inst, res⟩⟩

/-- The 802.1p mapper instance 0x8001 as last transmitted instance (class 130). -/
def lastDot1pMapper : ManagedEntity := ⟨130, 0x8001, "Ieee8021PMapperServiceProfile"⟩

/-- The ONU-G instance 0 as last transmitted instance (class 256). -/
def lastOnuG : ManagedEntity := ⟨256, 0, "OnuG"⟩

/-- The GAL Ethernet profile instance 1 as last transmitted instance (class 272). -/
def lastGalEthernetProfile : ManagedEntity := ⟨272, 1, "GalEthernetProfile"⟩

/-! ## Device handler: device entry, indications and device events
(device_handler.go, onu_uni_port.go) -/

/-- The `voltha.OperStatus` values the handler uses. -/
inductive OperStatus_Types
  | UNKNOWN
  | DISCOVERED
  | ACTIVATING
  | ACTIVE
  deriving DecidableEq, Repr

/-- The `voltha.ConnectStatus` values the handler uses. -/
inductive ConnectStatus_Types
  | REACHABLE
  | UNREACHABLE
  deriving DecidableEq, Repr

/-- The `voltha.Port_PortType` values the handler uses. -/
inductive Port_PortType
  | PON_ONU
  | ETHERNET_UNI
  deriving DecidableEq, Repr

/-- The fields of `of.OfpPort` that `createVolthaPort` computes. -/
structure OfpPort where
  Name : String
  HwAddr : List Nat
  deriving DecidableEq, Repr

/-- Go type `voltha.Port`: the fields the handler fills in. -/
structure Port where
  PortNo : Nat
  Label : String
  Type_ : Port_PortType
  OperStatus : OperStatus_Types
  Peers : List (String × Nat)
  OfpPort : Option OfpPort
  deriving DecidableEq, Repr

/-- Go type `voltha.Device`: the fields the handler reads or writes;
`ProxyAddress` holds the device id and device type of the proxy address. -/
structure Device where
  Id : String
  SerialNumber : String
  ParentId : String
  ParentPortNo : Nat
  ProxyAddress : String × String
  Root : Bool
  Vendor : String
  Model : String
  Reason : String
  deriving DecidableEq, Repr

/-- Go type `oop.OnuIndication`. -/
structure OnuIndication where
  IntfId : Nat
  OnuId : Nat
  OperState : String
  AdminState : String
  deriving DecidableEq, Repr

/-- MIB-upload events (`ulEv...` constants) fired from device_handler.go. -/
inductive UlEvent
  | ulEvStart
  | ulEvResetMib
  | ulEvExamineMds
  | ulEvStop
  deriving DecidableEq, Repr

/-- State of the MIB-upload machine: `ulStDisabled` or another state. -/
inductive UlState
  | ulStDisabled
  | ulStOther (n : Nat)
  deriving DecidableEq, Repr

/-- State of the MIB-download machine: `dlStDisabled` or another state. -/
inductive DlState
  | dlStDisabled
  | dlStOther (n : Nat)
  deriving DecidableEq, Repr

/-- Go type `OnuDeviceEntry` as the device handler sees it: `serial` stands for the
identity of the allocated object, `macAddress` holds the bytes of the string,
`pMibUploadFsm` and `pMibDownloadFsm` hold the current state of the `pFsm` of the
two machines (`none`: `pFsm` is nil). -/
structure OnuDeviceEntry where
  deviceID : String
  serial : Nat
  macAddress : List Nat
  pMibUploadFsm : Option UlState
  pMibDownloadFsm : Option DlState
  deriving DecidableEq, Repr

/-- Go type `onuUniTechProf` as the device handler sees it: `serial` stands for the
identity of the allocated object, `pAniConfigFsm` tells whether that pointer is set. -/
structure onuUniTechProf where
  deviceID : String
  serial : Nat
  pAniConfigFsm : Bool
  deriving DecidableEq, Repr

/-- Go type `onuUniPort` with the fields that change after creation. -/
structure onuUniPortEntry extends onuUniPort where
  operState : OperStatus_Types
  pPort : Option Port
  deriving DecidableEq, Repr

/-- Port type constant `uniPPTP`. -/
def uniPPTP : Nat := 1

/-- Port type constant `uniVEIP`. -/
def uniVEIP : Nat := 11

/-- The calls the device handler makes to its collaborators, in the order they are
made: the core proxy, the device entry and its OMCI channel, and `Event` calls on
state machines. `reconcileDeviceOnuInd` stands for the start of that go-routine. -/
inductive DhCall
  | DeviceUpdate (device : Device)
  | PortCreated (port : Port)
  | DeviceStateUpdate (conn : ConnectStatus_Types) (oper : OperStatus_Types)
  | DeviceReasonUpdate (reason : String)
  | PortStateUpdate (portNo : Nat) (oper : OperStatus_Types)
  | deviceStateEvent (e : DevEvent)
  | devEntryStart
  | devEntryStop
  | receiveMessage (message : List Nat)
  | performOmciTest
  | mibUploadEvent (e : UlEvent)
  | mibDownloadEvent (e : DlEvent)
  | lockStateEvent (lock : Bool) (e : UniEvent)
  | aniConfigEvent (e : AniEvent)
  | vlanEvReset (uniID : Nat)
  | setConfigDone (uniID : Nat) (done : Bool)
  | reconcileDeviceOnuInd
  deriving DecidableEq, Repr

/-- The errors the handler methods of this section return. -/
inductive DhError
  | unmarshal
  | noValidOnuDevice
  | invalidOperState
  | devEntryStart
  | receiveMessage
  | cantGoToStateStarting
  | cantGoToStateResettingMib
  | wrongStateOfMibSyncFsm
  | cannotExecutMibSync
  | coreProxy
  deriving DecidableEq, Repr

/-- What is declared outside the available sources and enters as a parameter:
* `callFails`: which calls to a collaborator return an error;
* `mkUniPortNum`: the port-number function;
* `unigInstKeys`, `veipInstKeys`: what `pOnuDB.getSortedInstKeys` returns for the
  UNI-G and the VEIP class (instance ids in ascending order);
* `uniPortStateUpdateActive`: the test
  `(1<<uniID)&activeUniPortStateUpdateMask == (1<<uniID)`;
* `mibUploadTable`, `mibDownloadTable`: the destination of an event in a state of the
  two machines (`none`: `Event` returns an error);
* `newMibUploadFsm`, `newMibDownloadFsm`: the machines of a new device entry;
* `vlanFsmHasStatemachine`: whether the `pFsm` of the VLAN-filter machine of a UNI is
  set. -/
structure DhEnv where
  callFails : DhCall → Bool
  mkUniPortNum : Nat → Nat → Nat → Nat
  unigInstKeys : List Nat
  veipInstKeys : List Nat
  uniPortStateUpdateActive : Nat → Bool
  mibUploadTable : UlState → UlEvent → Option UlState
  mibDownloadTable : DlState → DlEvent → Option DlState
  newMibUploadFsm : Option UlState
  newMibDownloadFsm : Option DlState
  vlanFsmHasStatemachine : Nat → Bool

/-- Go type `deviceHandler`: the fields used by device-entry creation, the
indication handlers and the device-event handlers.
* `pDeviceStateFsm`: current state of the lifecycle machine;
* `deviceEntrySet`: content of the channel (capacity 1);
* `uniEntityMap`, `UniVlanConfigFsmMap`: the maps as lists of key and value, in
  insertion order;
* `calls`: the calls made so far;
* `entriesCreated`, `techProfsCreated`: number of `newOnuDeviceEntry` and
  `newOnuUniTechProf` calls so far;
* `fatal`: `logger.Fatalf` was called (the process ends);
* `blocked`: a send on the full channel `deviceEntrySet` does not return;
* `panicked`: a nil pointer was dereferenced. -/
structure deviceHandler where
  deviceID : String
  device : Device
  logicalDeviceID : String
  ProxyAddressID : String
  ProxyAddressType : String
  parentID : String
  ponPortNumber : Nat
  pDeviceStateFsm : DevState
  deviceEntrySet : List Bool
  pOnuOmciDevice : Option OnuDeviceEntry
  pOnuTP : Option onuUniTechProf
  pOnuIndication : Option OnuIndication
  deviceReason : String
  pLockStateFsm : Option lockStateFsm
  pUnlockStateFsm : Option lockStateFsm
  uniEntityMap : List (Nat × onuUniPortEntry)
  UniVlanConfigFsmMap : List (Nat × UniVlanConfigFsm)
  reconciling : Bool
  calls : List DhCall
  entriesCreated : Nat
  techProfsCreated : Nat
  fatal : Bool
  blocked : Bool
  panicked : Bool
  deriving DecidableEq, Repr

namespace deviceHandler

/-- A call to a collaborator is appended to the call log. -/
def call (dh : deviceHandler) (c : DhCall) : deviceHandler :=
  { dh with calls := dh.calls ++ [c] }

end deviceHandler

/-- Go method `getOnuDeviceEntry`: the returned pointer and the handler afterwards.
With `aWait` and no entry the method waits for the channel `deviceEntrySet`: a
buffered signal is consumed and `dh.pOnuOmciDevice` is returned; with an empty
channel and nobody sending, the 60 s timeout fires and nil is returned. -/
def getOnuDeviceEntry (dh : deviceHandler) (aWait : Bool) :
    Option OnuDeviceEntry × deviceHandler :=
  if aWait ∧ dh.pOnuOmciDevice.isNone then
    match dh.deviceEntrySet with
    | [] => (none, dh)
    | _ :: rest => (dh.pOnuOmciDevice, { dh with deviceEntrySet := rest })
  else (dh.pOnuOmciDevice, dh)

/-- Go method `setOnuDeviceEntry`. -/
def setOnuDeviceEntry (dh : deviceHandler) (apDeviceEntry : Option OnuDeviceEntry)
    (apOnuTp : Option onuUniTechProf) : deviceHandler :=
  { dh with pOnuOmciDevice := apDeviceEntry, pOnuTP := apOnuTp }

/-- Modelled from the spec: `newOnuDeviceEntry` (onu_device_entry.go, whose source is
not available) returns a new device entry for the device id, with its MIB-upload and
MIB-download machines, and no MAC address yet. -/
def newOnuDeviceEntry (env : DhEnv) (deviceID : String) (serial : Nat) : OnuDeviceEntry :=
  ⟨deviceID, serial, [], env.newMibUploadFsm, env.newMibDownloadFsm⟩

/-- Modelled from the spec: `newOnuUniTechProf` (onu_uni_tp.go, whose source is not
available) returns a new technology-profile processor for the device id, without an
ANI-config machine. -/
def newOnuUniTechProf (deviceID : String) (serial : Nat) : onuUniTechProf :=
  ⟨deviceID, serial, false⟩

/-- Go method `addOnuDeviceEntry`: the returned error (`none` for `nil`) and the
handler afterwards. -/
def addOnuDeviceEntry (env : DhEnv) (dh : deviceHandler) : Option DhError × deviceHandler :=
  match (getOnuDeviceEntry dh false).1 with
  | none =>
    let deviceEntry := newOnuDeviceEntry env dh.deviceID dh.entriesCreated
    let onuTechProfProc := newOnuUniTechProf dh.deviceID dh.techProfsCreated
    let dh1 := setOnuDeviceEntry
      { dh with entriesCreated := dh.entriesCreated + 1,
                techProfsCreated := dh.techProfsCreated + 1 }
      (some deviceEntry) (some onuTechProfProc)
    if dh1.deviceEntrySet.length < 1 then
      (none, { dh1 with deviceEntrySet := dh1.deviceEntrySet ++ [true] })
    else (none, { dh1 with blocked := true })
  | some _ => (none, dh)

/-- Go method `doStateInit`: the handler afterwards and whether `e.Cancel` was called. -/
def doStateInit (env : DhEnv) (dh : deviceHandler) : deviceHandler × Bool :=
  let device : Device :=
    { dh.device with Root := false, Vendor := "OpenONU", Model := "go",
                     Reason := "activating-onu" }
  let dh1 : deviceHandler :=
    { dh with device := device, deviceReason := "activating-onu",
              logicalDeviceID := dh.deviceID }
  let dh2 := if ¬ dh1.reconciling then dh1.call (DhCall.DeviceUpdate device) else dh1
  let dh3 : deviceHandler :=
    { dh2 with parentID := device.ParentId, ponPortNumber := device.ParentPortNo % 2 ^ 32,
               ProxyAddressID := device.ProxyAddress.1,
               ProxyAddressType := device.ProxyAddress.2 }
  if ¬ dh3.reconciling then
    let ponPortNo : Nat := if dh3.ponPortNumber ≠ 0 then dh3.ponPortNumber else 1
    let pPonPort : Port :=
      ⟨ponPortNo, "PON port", Port_PortType.PON_ONU, OperStatus_Types.ACTIVE,
        [(dh3.parentID, ponPortNo)], none⟩
    let dh4 := dh3.call (DhCall.PortCreated pPonPort)
    if env.callFails (DhCall.PortCreated pPonPort) then ({ dh4 with fatal := true }, true)
    else (dh4, false)
  else (dh3, false)

/-- Go method `postInit`. -/
def postInit (env : DhEnv) (dh : deviceHandler) : deviceHandler :=
  match addOnuDeviceEntry env dh with
  | (some _, dh1) => { dh1 with fatal := true }
  | (none, dh1) =>
    if dh1.blocked then dh1
    else if dh1.reconciling then dh1.call DhCall.reconcileDeviceOnuInd
    else dh1

/-- The `before_<event>` callback of the lifecycle machine: the handler afterwards
and whether the callback cancels the event (`doStateInit`, `doStateConnected`,
`doStateUp` and `doStateDown`; the last three always cancel). -/
def beforeDeviceStateEvent (env : DhEnv) (dh : deviceHandler) : DevEvent → deviceHandler × Bool
  | devEvDeviceInit => doStateInit env dh
  | devEvGrpcDisconnected => doStateInit env dh
  | devEvGrpcConnected => (dh, true)
  | devEvDeviceUpInd => (dh, true)
  | devEvDeviceDownInd => (dh, true)

/-- The `after_<event>` callback of the lifecycle machine (`postInit`). -/
def afterDeviceStateEvent (env : DhEnv) (dh : deviceHandler) : DevEvent → deviceHandler
  | devEvDeviceInit => postInit env dh
  | devEvGrpcDisconnected => postInit env dh
  | _ => dh

/-- `dh.pDeviceStateFsm.Event(ev)` with the callbacks registered in
`newDeviceHandler`: without a transition no callback runs; otherwise the
`before_<event>` callback runs, the state changes unless it cancelled, and after a
change the `after_<event>` callback runs. -/
def deviceStateEvent (env : DhEnv) (dh : deviceHandler) (ev : DevEvent) :
    deviceHandler × Option FsmError :=
  match transitions deviceStateEvents ev dh.pDeviceStateFsm with
  | none => (dh, (devFsmEvent dh.pDeviceStateFsm ev false).2)
  | some _ =>
    let (dh1, cancel) := beforeDeviceStateEvent env dh ev
    let r := devFsmEvent dh.pDeviceStateFsm ev cancel
    let dh2 : deviceHandler := { dh1 with pDeviceStateFsm := r.1 }
    match r.2 with
    | none => (afterDeviceStateEvent env dh2 ev, none)
    | some err => (dh2, some err)

/-- Go method `adoptOrReconcileDevice`. -/
def adoptOrReconcileDevice (env : DhEnv) (dh : deviceHandler) : deviceHandler :=
  if dh.pDeviceStateFsm = devStNull then
    (deviceStateEvent env (dh.call (DhCall.deviceStateEvent devEvDeviceInit))
      devEvDeviceInit).1
  else dh

/-- Go method `processInterAdapterOMCIReqMessage`; `omciMsg` is the unmarshalled
body (`none`: `UnmarshalAny` fails). -/
def processInterAdapterOMCIReqMessage (env : DhEnv) (dh : deviceHandler)
    (omciMsg : Option (List Nat)) : Option DhError × deviceHandler :=
  match omciMsg with
  | none => (some DhError.unmarshal, dh)
  | some message =>
    match getOnuDeviceEntry dh true with
    | (some _, dh1) =>
      let dh2 := dh1.call (DhCall.receiveMessage message)
      if env.callFails (DhCall.receiveMessage message) then (some DhError.receiveMessage, dh2)
      else (none, dh2)
    | (none, dh1) => (some DhError.noValidOnuDevice, dh1)

/-- `pMibUlFsm.Event(e)` on the machine of the stored device entry: the call is
logged, the state follows the table; the result tells whether an error is returned. -/
def mibUploadEvent (env : DhEnv) (dh : deviceHandler) (e : UlEvent) : deviceHandler × Bool :=
  let dh1 := dh.call (DhCall.mibUploadEvent e)
  match dh1.pOnuOmciDevice with
  | none => (dh1, true)
  | some entry =>
    match entry.pMibUploadFsm with
    | none => (dh1, true)
    | some st =>
      match env.mibUploadTable st e with
      | none => (dh1, true)
      | some st1 =>
        ({ dh1 with pOnuOmciDevice := some { entry with pMibUploadFsm := some st1 } }, false)

/-- `pMibDlFsm.Event(e)` on the machine of the stored device entry, as
`mibUploadEvent`. -/
def mibDownloadEvent (env : DhEnv) (dh : deviceHandler) (e : DlEvent) : deviceHandler × Bool :=
  let dh1 := dh.call (DhCall.mibDownloadEvent e)
  match dh1.pOnuOmciDevice with
  | none => (dh1, true)
  | some entry =>
    match entry.pMibDownloadFsm with
    | none => (dh1, true)
    | some st =>
      match env.mibDownloadTable st e with
      | none => (dh1, true)
      | some st1 =>
        ({ dh1 with pOnuOmciDevice := some { entry with pMibDownloadFsm := some st1 } }, false)

/-- Go method `createInterface`: the returned error (`none` for `nil`) and the
handler afterwards. -/
def createInterface (env : DhEnv) (dh : deviceHandler) (onuind : OnuIndication) :
    Option DhError × deviceHandler :=
  let dh1 : deviceHandler := { dh with pOnuIndication := some onuind }
  let dh2 :=
    if ¬ dh1.reconciling then
      dh1.call (DhCall.DeviceStateUpdate ConnectStatus_Types.REACHABLE
        OperStatus_Types.ACTIVATING)
    else dh1
  match getOnuDeviceEntry dh2 true with
  | (none, dh3) => (some DhError.noValidOnuDevice, dh3)
  | (some pDevEntry, dh3) =>
    let dh4 := dh3.call DhCall.devEntryStart
    if env.callFails DhCall.devEntryStart then (some DhError.devEntryStart, dh4)
    else
      let dh5 :=
        if ¬ dh4.reconciling then dh4.call (DhCall.DeviceReasonUpdate "starting-openomci")
        else dh4
      let dh6 : deviceHandler := { dh5 with deviceReason := "starting-openomci" }
      let dh7 := dh6.call DhCall.performOmciTest
      match pDevEntry.pMibUploadFsm with
      | some st =>
        if st = UlState.ulStDisabled then
          match mibUploadEvent env dh7 UlEvent.ulEvStart with
          | (dh8, true) => (some DhError.cantGoToStateStarting, dh8)
          | (dh8, false) =>
            match mibUploadEvent env dh8 UlEvent.ulEvResetMib with
            | (dh9, true) => (some DhError.cantGoToStateResettingMib, dh9)
            | (dh9, false) => (none, dh9)
        else (some DhError.wrongStateOfMibSyncFsm, dh7)
      | none => (some DhError.cannotExecutMibSync, dh7)

/-- Go method `disableUniPortStateUpdate`: the walk over `uniEntityMap`. -/
def disableUniPortStateUpdate (env : DhEnv) (dh : deviceHandler) : deviceHandler :=
  let ports : List (Nat × onuUniPortEntry) :=
    dh.uniEntityMap.map (fun kv =>
      if env.uniPortStateUpdateActive kv.2.uniID then
        (kv.1, { kv.2 with operState := OperStatus_Types.UNKNOWN })
      else kv)
  let updates : List DhCall :=
    (dh.uniEntityMap.filter (fun kv => env.uniPortStateUpdateActive kv.2.uniID)).map
      (fun kv => DhCall.PortStateUpdate kv.2.portNo OperStatus_Types.UNKNOWN)
  { dh with uniEntityMap := ports, calls := dh.calls ++ updates }

/-- The `default` branch of the switch in `updateInterface`: the reset events to
the lock/unlock, ANI-config and VLAN-filter machines. -/
def resetUniMachines (env : DhEnv) (dh : deviceHandler) : deviceHandler :=
  let dh1 :=
    if dh.pUnlockStateFsm.isSome then dh.call (DhCall.lockStateEvent false uniEvReset) else dh
  let dh2 :=
    if dh1.pLockStateFsm.isSome then dh1.call (DhCall.lockStateEvent true uniEvReset) else dh1
  match dh2.pOnuTP with
  | none => { dh2 with panicked := true }
  | some pOnuTP =>
    let dh3 := if pOnuTP.pAniConfigFsm then dh2.call (DhCall.aniConfigEvent aniEvReset) else dh2
    dh3.uniEntityMap.foldl (fun d kv =>
      let d1 := d.call (DhCall.setConfigDone kv.2.uniID false)
      if (d1.UniVlanConfigFsmMap.lookup kv.2.uniID).isSome ∧
          env.vlanFsmHasStatemachine kv.2.uniID then
        d1.call (DhCall.vlanEvReset kv.2.uniID)
      else d1) dh3

/-- Go method `updateInterface`: the returned error (`none` for `nil`) and the
handler afterwards. -/
def updateInterface (env : DhEnv) (dh : deviceHandler) (_onuind : OnuIndication) :
    Option DhError × deviceHandler :=
  if dh.deviceReason ≠ "stopping-openomci" then
    match getOnuDeviceEntry dh false with
    | (none, dh1) => (some DhError.noValidOnuDevice, dh1)
    | (some pDevEntry, dh1) =>
      let dh2 :=
        if dh1.deviceReason = "starting-openomci" then
          if pDevEntry.pMibUploadFsm.isSome then (mibUploadEvent env dh1 UlEvent.ulEvStop).1
          else dh1
        else if dh1.deviceReason = "discovery-mibsync-complete" then
          if pDevEntry.pMibDownloadFsm.isSome then (mibDownloadEvent env dh1 dlEvReset).1
          else dh1
        else resetUniMachines env dh1
      if dh2.panicked then (none, dh2)
      else
        let dh3 := dh2.call DhCall.devEntryStop
        let dh4 := disableUniPortStateUpdate env dh3
        let dh5 := dh4.call (DhCall.DeviceReasonUpdate "stopping-openomci")
        if env.callFails (DhCall.DeviceReasonUpdate "stopping-openomci") then
          (some DhError.coreProxy, dh5)
        else
          let dh6 : deviceHandler := { dh5 with deviceReason := "stopping-openomci" }
          let c := DhCall.DeviceStateUpdate ConnectStatus_Types.UNREACHABLE
            OperStatus_Types.DISCOVERED
          let dh7 := dh6.call c
          if env.callFails c then (some DhError.coreProxy, dh7) else (none, dh7)
  else (none, dh)

/-- Go method `processInterAdapterONUIndReqMessage`; `onuIndication` is the
unmarshalled body (`none`: `UnmarshalAny` fails). The errors of `createInterface`
and `updateInterface` are assigned to the blank identifier. -/
def processInterAdapterONUIndReqMessage (env : DhEnv) (dh : deviceHandler)
    (onuIndication : Option OnuIndication) : Option DhError × deviceHandler :=
  match onuIndication with
  | none => (some DhError.unmarshal, dh)
  | some ind =>
    let onuOperstate := ind.OperState
    if onuOperstate = "up" then (none, (createInterface env dh ind).2)
    else if onuOperstate = "down" ∨ onuOperstate = "unreachable" then
      (none, (updateInterface env dh ind).2)
    else (some DhError.invalidOperState, dh)

/-- Go method `processOmciAniConfigDoneEvent`. -/
def processOmciAniConfigDoneEvent (dh : deviceHandler) : deviceHandler :=
  if dh.deviceReason ≠ "tech-profile-config-download-success" then
    let dh1 :=
      if ¬ dh.reconciling then
        dh.call (DhCall.DeviceReasonUpdate "tech-profile-config-download-success")
      else dh
    { dh1 with deviceReason := "tech-profile-config-download-success" }
  else dh

/-- Go method `processOmciVlanFilterDoneEvent`. -/
def processOmciVlanFilterDoneEvent (dh : deviceHandler) : deviceHandler :=
  if dh.deviceReason ≠ "omci-flows-pushed" then
    let dh1 := dh.call (DhCall.DeviceReasonUpdate "omci-flows-pushed")
    { dh1 with deviceReason := "omci-flows-pushed" }
  else dh

/-- The number of `DeviceReasonUpdate` calls in a call log. -/
def reasonUpdates (calls : List DhCall) : Nat :=
  (calls.filter (fun c => match c with
    | DhCall.DeviceReasonUpdate _ => true
    | _ => false)).length

/-! ### UNI ports (onu_uni_port.go) -/

/-- The digit value of a byte in `strconv.ParseUint`: `'0'..'9'`, and the letters
in either case (`lower(c) = c | 0x20` lies in `'a'..'z'`) from 10 on. -/
def digitValue (c : Nat) : Option Nat :=
  if 48 ≤ c ∧ c ≤ 57 then some (c - 48)
  else if 65 ≤ c ∧ c ≤ 90 then some (c - 65 + 10)
  else if 97 ≤ c ∧ c ≤ 122 then some (c - 97 + 10)
  else none

/-- The digit loop of `strconv.ParseUint` for an explicit base: a byte that is no
digit of the base is a syntax error. -/
def parseDigits (base : Nat) : List Nat → Nat → Option Nat
  | [], n => some n
  | c :: rest, n =>
    match digitValue c with
    | none => none
    | some d => if d ≥ base then none else parseDigits base rest (n * base + d)

/-- Go function `strconv.ParseInt(s, base, bitSize)` for an explicit base and the
bytes `s`: `none` when an error is returned (empty input, a byte that is no digit,
or a value outside the signed range of `bitSize` bits). -/
def ParseInt (s : List Nat) (base bitSize : Nat) : Option Int :=
  match s with
  | [] => none
  | c :: rest =>
    let neg : Bool := decide (c = 45)
    let s1 := if c = 43 ∨ c = 45 then rest else s
    if s1 = [] then none
    else
      match parseDigits base s1 0 with
      | none => none
      | some un =>
        if neg = false ∧ un ≥ 2 ^ (bitSize - 1) then none
        else if neg = true ∧ un > 2 ^ (bitSize - 1) then none
        else some (if neg then - (un : Int) else (un : Int))

/-- The byte of a lowercase hexadecimal digit. -/
def hexByte (d : Nat) : Nat := if d < 10 then 48 + d else 87 + d

/-- `fmt.Sprintf("%02x", b)` for a `uint8`. -/
def fmt02x (b : Nat) : List Nat := [hexByte (b / 16), hexByte (b % 16)]

/-- Go function `genMacFromOctets`: the bytes of the formatted string. -/
def genMacFromOctets (aOctets : List Nat) : List Nat :=
  fmt02x (aOctets.getD 5 0) ++ [58] ++ fmt02x (aOctets.getD 4 0) ++ [58] ++
  fmt02x (aOctets.getD 3 0) ++ [58] ++ fmt02x (aOctets.getD 2 0) ++ [58] ++
  fmt02x (aOctets.getD 1 0) ++ [58] ++ fmt02x (aOctets.getD 0 0)

/-- `strings.Split(s, sep)` for a one-byte separator; `cur` collects the current
piece. -/
def splitBytes (sep : Nat) : List Nat → List Nat → List (List Nat)
  | [], cur => [cur]
  | c :: rest, cur =>
    if c = sep then cur :: splitBytes sep rest [] else splitBytes sep rest (cur ++ [c])

/-- The loop of `macAddressToUint32Array`: `none` when a piece does not parse. -/
def parsePieces : List (List Nat) → Option (List Nat)
  | [] => some []
  | val :: rest =>
    match ParseInt val 16 32 with
    | none => none
    | some tmp =>
      match parsePieces rest with
      | none => none
      | some result => some ((tmp % 2 ^ 32).toNat :: result)

/-- Go function `macAddressToUint32Array`. -/
def macAddressToUint32Array (mac : List Nat) : List Nat :=
  match parsePieces (splitBytes 58 mac []) with
  | none => [1, 2, 3, 4, 5, 6]
  | some result => result

/-- Go function `newOnuUniPort`. -/
def newOnuUniPort (aUniID aPortNo aInstNo aPortType : Nat) : onuUniPortEntry :=
  { enabled := false,
    name := "uni-" ++ toString aPortNo,
    portNo := aPortNo,
    portType := aPortType,
    ofpPortNo := "uni-" ++ toString aPortNo,
    uniID := aUniID,
    macBpNo := (aUniID + 1) % 2 ^ 8,
    entityID := aInstNo,
    operState := OperStatus_Types.UNKNOWN,
    pPort := none }

/-- The octets `createVolthaPort` computes: the defaults from the port number and
the PON port number, overwritten from a 12-byte MAC address of the device entry for
every pair of bytes that `strconv.ParseInt(..., 16, 8)` accepts. -/
def macOctets (dh : deviceHandler) (oo : onuUniPortEntry) : List Nat :=
  let macOctets0 : List Nat :=
    [oo.portNo % 2 ^ 8, oo.portNo / 2 ^ 8 % 2 ^ 8, oo.portNo / 2 ^ 16 % 2 ^ 8,
      dh.ponPortNumber % 2 ^ 8, dh.ponPortNumber / 2 ^ 8 % 2 ^ 8, 0x08]
  match (getOnuDeviceEntry dh false).1 with
  | none => macOctets0
  | some onuEntry =>
    if onuEntry.macAddress.length = 12 then
      (List.range 6).foldl (fun octets idx =>
        match ParseInt ((onuEntry.macAddress.drop (idx * 2)).take 2) 16 8 with
        | some v => octets.set (5 - idx) (v % 2 ^ 8).toNat
        | none => octets) macOctets0
    else macOctets0

/-- The `voltha.Port` that `createVolthaPort` builds (`pUniPort`). -/
def uniVolthaPort (dh : deviceHandler) (oo : onuUniPortEntry) : Port :=
  let name := dh.device.SerialNumber ++ "-" ++ toString oo.macBpNo
  let hwAddr := genMacFromOctets (macOctets dh oo)
  let ofHwAddr := macAddressToUint32Array hwAddr
  ⟨oo.portNo, oo.name, Port_PortType.ETHERNET_UNI, oo.operState, [], some ⟨name, ofHwAddr⟩⟩

/-- Go method `createVolthaPort`: the returned error (`none` for `nil`), the
handler and the port afterwards. -/
def createVolthaPort (env : DhEnv) (dh : deviceHandler) (oo : onuUniPortEntry) :
    Option DhError × deviceHandler × onuUniPortEntry :=
  let pUniPort : Port := uniVolthaPort dh oo
  let dh1 := dh.call (DhCall.PortCreated pUniPort)
  if env.callFails (DhCall.PortCreated pUniPort) then
    (some DhError.coreProxy, { dh1 with fatal := true }, oo)
  else
    (none, dh1, { oo with pPort := some pUniPort, operState := OperStatus_Types.DISCOVERED })

/-- Go method `addUniPort`. The port is stored under its port number; the port
stored is the one `createVolthaPort` leaves (it works on the stored pointer). -/
def addUniPort (env : DhEnv) (dh : deviceHandler) (aUniInstNo aUniID aPortType : Nat) :
    deviceHandler :=
  let intfId := match dh.pOnuIndication with
    | some ind => ind.IntfId
    | none => 0
  let onuId := match dh.pOnuIndication with
    | some ind => ind.OnuId
    | none => 0
  let uniNo := env.mkUniPortNum intfId onuId aUniID
  if (dh.uniEntityMap.lookup uniNo).isSome then dh
  else
    let pUniPort := newOnuUniPort aUniID uniNo aUniInstNo aPortType
    if ¬ dh.reconciling then
      match createVolthaPort env dh pUniPort with
      | (_, dh1, pUniPort1) =>
        { dh1 with uniEntityMap := dh1.uniEntityMap ++ [(uniNo, pUniPort1)] }
    else { dh with uniEntityMap := dh.uniEntityMap ++ [(uniNo, pUniPort)] }

/-- The loops of `processMibDatabaseSyncEvent` over the instance keys of a class:
`addUniPort(mgmtEntityID, i, aPortType); i++` with the `uint8` counter `i`; nothing
more runs once `logger.Fatalf` was called. -/
def addUniPorts (env : DhEnv) (aPortType : Nat) :
    List Nat → deviceHandler × Nat → deviceHandler × Nat
  | [], acc => acc
  | mgmtEntityID :: rest, (dh, i) =>
    if dh.fatal then (dh, i)
    else addUniPorts env aPortType rest
      (addUniPort env dh mgmtEntityID i aPortType, (i + 1) % 2 ^ 8)

/-- Go method `processMibDatabaseSyncEvent`. -/
def processMibDatabaseSyncEvent (env : DhEnv) (dh : deviceHandler) : deviceHandler :=
  let dh1 :=
    if ¬ dh.reconciling then dh.call (DhCall.DeviceReasonUpdate "discovery-mibsync-complete")
    else dh
  let dh2 : deviceHandler := { dh1 with deviceReason := "discovery-mibsync-complete" }
  match (getOnuDeviceEntry dh2 false).1 with
  | none => { dh2 with panicked := true }
  | some pDevEntry =>
    let r1 := addUniPorts env uniPPTP env.unigInstKeys (dh2, 0)
    let r2 := addUniPorts env uniVEIP env.veipInstKeys r1
    let dh4 := r2.1
    if dh4.fatal then dh4
    else
      match pDevEntry.pMibDownloadFsm with
      | some st =>
        if st = DlState.dlStDisabled then
          match mibDownloadEvent env dh4 dlEvStart with
          | (dh5, true) => dh5
          | (dh5, false) => (mibDownloadEvent env dh5 dlEvCreateGal).1
        else dh4
      | none => dh4

/-- Port number, local UNI index, port type and entity id of a stored port. -/
def portView (kv : Nat × onuUniPortEntry) : Nat × Nat × Nat × Nat :=
  (kv.2.portNo, kv.2.uniID, kv.2.portType, kv.2.entityID)

/-- The UNI table of a handler as the list of port number, local UNI index, port
type and entity id of its ports, in insertion order. -/
def uniTable (dh : deviceHandler) : List (Nat × Nat × Nat × Nat) :=
  dh.uniEntityMap.map portView

/-- The port number `addUniPort` computes for the local UNI index `aUniID`:
`mkUniPortNum` at the interface id and ONU id of the stored indication (0 when no
indication is stored). -/
def uniPortNo (env : DhEnv) (dh : deviceHandler) (aUniID : Nat) : Nat :=
  env.mkUniPortNum
    (match dh.pOnuIndication with
      | some ind => ind.IntfId
      | none => 0)
    (match dh.pOnuIndication with
      | some ind => ind.OnuId
      | none => 0)
    aUniID

/-- The handler with further ports at the end of the UNI table and further calls at
the end of the call log. -/
def withPorts (dh : deviceHandler) (ports : List (Nat × onuUniPortEntry))
    (cs : List DhCall) : deviceHandler :=
  { dh with uniEntityMap := dh.uniEntityMap ++ ports, calls := dh.calls ++ cs }

/-- What the UNI table holds for the instance keys `keys` enumerated from local
index `i` with port type `aPortType`. -/
def expectedPorts (env : DhEnv) (dh : deviceHandler) (aPortType i : Nat) (keys : List Nat) :
    List (Nat × Nat × Nat × Nat) :=
  (keys.enumFrom i).map (fun p => (uniPortNo env dh p.1, p.1, aPortType, p.2))

/-! ### Sample handlers -/

/-- An environment in which no call fails, with port numbers `16 * onu + uni`
on PON interface and two UNI-G instances and one VEIP instance in the mirror. -/
def sampleDhEnv : DhEnv :=
  { callFails := fun _ => false,
    mkUniPortNum := fun intfId onuId uniId => intfId * 2 ^ 12 + onuId * 2 ^ 4 + uniId,
    unigInstKeys := [0x101, 0x102],
    veipInstKeys := [0x401],
    uniPortStateUpdateActive := fun uniID => decide (uniID = 0),
    mibUploadTable := fun _ _ => some (UlState.ulStOther 1),
    mibDownloadTable := fun _ _ => some (DlState.dlStOther 1),
    newMibUploadFsm := some UlState.ulStDisabled,
    newMibDownloadFsm := some DlState.dlStDisabled,
    vlanFsmHasStatemachine := fun _ => true }

/-- The device of the sample handler. -/
def sampleDevice : Device :=
  ⟨"onu-1", "ALPHe3d1cf57", "olt-1", 3, ("olt-1", "openolt"), false, "", "", ""⟩

/-- The handler `newDeviceHandler` returns for `sampleDevice`. -/
def sampleDeviceHandler : deviceHandler :=
  { deviceID := "onu-1", device := sampleDevice, logicalDeviceID := "", ProxyAddressID := "",
    ProxyAddressType := "", parentID := "", ponPortNumber := 0,
    pDeviceStateFsm := devStNull, deviceEntrySet := [], pOnuOmciDevice := none,
    pOnuTP := none, pOnuIndication := none, deviceReason := "",
    pLockStateFsm := none, pUnlockStateFsm := none, uniEntityMap := [],
    UniVlanConfigFsmMap := [], reconciling := false, calls := [], entriesCreated := 0,
    techProfsCreated := 0, fatal := false, blocked := false, panicked := false }

/-- The sample handler in reconciling mode. -/
def reconcilingDeviceHandler : deviceHandler :=
  { sampleDeviceHandler with reconciling := true }

/-- The sample handler after adoption: device entry present, state Init. -/
def adoptedDeviceHandler : deviceHandler :=
  adoptOrReconcileDevice sampleDhEnv sampleDeviceHandler

/-- An ONU indication with operational state "up". -/
def upIndication : OnuIndication := ⟨0, 1, "up", "up"⟩

/-- An ONU indication with operational state "down". -/
def downIndication : OnuIndication := ⟨0, 1, "down", "up"⟩

/-- The adopted sample handler with the "up" indication stored. -/
def indicatedDeviceHandler : deviceHandler :=
  { adoptedDeviceHandler with pOnuIndication := some upIndication }

/-! ## Reconciliation of the technology profiles (device_handler.go) -/

/-- An entry of `sOnuPersistentData.PersUniTpPath`: the persisted UNI id and
technology-profile path. -/
structure uniPersData where
  PersUniID : Nat
  PersTpPath : String
  deriving DecidableEq, Repr

/-- The calls `reconcileDeviceTechProf` makes on the technology-profile processor
`dh.pOnuTP`, in order; `configureUniTp` stands for the start of that go-routine with
its UNI id and path. -/
inductive TpCall
  | lockTpProcMutex
  | unlockTpProcMutex
  | resetProcessingErrorIndication
  | configureUniTp (aUniID : Nat) (aPathString : String)
  | waitForTpCompletion
  deriving DecidableEq, Repr

/-- The loop of `reconcileDeviceTechProf` over the persisted entries: the calls made,
and whether the method returned from inside the loop. The body ends with `return`. -/
def reconcileLoop : List uniPersData → List TpCall × Bool
  | [] => ([], false)
  | uniData :: _ =>
    ([TpCall.resetProcessingErrorIndication,
      TpCall.configureUniTp (uniData.PersUniID % 2 ^ 8) uniData.PersTpPath,
      TpCall.waitForTpCompletion], true)

/-- Go method `reconcileDeviceTechProf`; `PersUniTpPath` is the list
`dh.pOnuTP.sOnuPersistentData.PersUniTpPath`. The result is the handler afterwards
and the calls made on `dh.pOnuTP`. -/
def reconcileDeviceTechProf (dh : deviceHandler) (PersUniTpPath : List uniPersData) :
    deviceHandler × List TpCall :=
  match dh.pOnuTP with
  | none => ({ dh with panicked := true }, [])
  | some _ =>
    match reconcileLoop PersUniTpPath with
    | (calls, true) => (dh, TpCall.lockTpProcMutex :: calls)
    | (calls, false) =>
      ({ dh with reconciling := false },
        TpCall.lockTpProcMutex :: calls ++ [TpCall.unlockTpProcMutex])

/-- The `configureUniTp` starts among the calls, as pairs of UNI id and path. -/
def configuredTps : List TpCall → List (Nat × String)
  | [] => []
  | TpCall.configureUniTp u p :: rest => (u, p) :: configuredTps rest
  | _ :: rest => configuredTps rest

/-- The reconciling sample handler with a device entry and a technology-profile
processor. -/
def reconcilingHandlerWithTp : deviceHandler :=
  (addOnuDeviceEntry sampleDhEnv reconcilingDeviceHandler).2

/-- A persisted mapping with two UNIs. -/
def twoPersistedUnis : List uniPersData :=
  [⟨0, "service/voltha/technology_profiles/EPON/64"⟩,
   ⟨1, "service/voltha/technology_profiles/EPON/65"⟩]

/-! ## The ONU status list (onu_list_access.go) -/

/-- Go type `OnuStatus`. -/
structure OnuStatus where
  ID : String
  AdminState : String
  OpeState : String
  ConnectState : String
  MacAddress : String
  RebootState : String
  deriving DecidableEq, Repr

/-- The loop of `GetOnuFromDeviceID`: the first entry for which `sts.ID != id`. -/
def findOnuFromDeviceID (id : String) : List OnuStatus → Option OnuStatus
  | [] => none
  | sts :: rest => if sts.ID ≠ id then some sts else findOnuFromDeviceID id rest

/-- Go function `GetOnuFromDeviceID`; `read` is what `ReadOnuStatusList` returns: an
error, or the list (`none` for a nil list). The result is the error or the returned
pointer (`none` for `nil`). -/
def GetOnuFromDeviceID (read : Except String (Option (List OnuStatus))) (id : String) :
    Except String (Option OnuStatus) :=
  match read with
  | Except.error err => Except.error err
  | Except.ok none => Except.ok none
  | Except.ok (some list) => Except.ok (findOnuFromDeviceID id list)

/-- The loop of `GetOnuFromMacAddr`: the first entry for which
`sts.MacAddress == addr`. -/
def findOnuFromMacAddr (addr : String) : List OnuStatus → Option OnuStatus
  | [] => none
  | sts :: rest => if sts.MacAddress = addr then some sts else findOnuFromMacAddr addr rest

/-- Go function `GetOnuFromMacAddr`, as `GetOnuFromDeviceID`. -/
def GetOnuFromMacAddr (read : Except String (Option (List OnuStatus))) (addr : String) :
    Except String (Option OnuStatus) :=
  match read with
  | Except.error err => Except.error err
  | Except.ok none => Except.ok none
  | Except.ok (some list) => Except.ok (findOnuFromMacAddr addr list)

/-- Two ONUs of a status list. -/
def onuStatusA : OnuStatus := ⟨"onu-1", "up", "up", "reachable", "0a0000000001", ""⟩

/-- The second ONU of the sample status list. -/
def onuStatusB : OnuStatus := ⟨"onu-2", "up", "up", "reachable", "0a0000000002", ""⟩

/-! ## Runs of the lifecycle machine and of the ANI-config table -/

/-- The handler after a sequence of `Event` calls on the lifecycle machine. -/
def deviceStateRun (env : DhEnv) (dh : deviceHandler) (evs : List DevEvent) : deviceHandler :=
  evs.foldl (fun d ev => (deviceStateEvent env d ev).1) dh

/-- State of a machine with the ANI-config table after a sequence of `Event` calls
(a call that returns an error leaves the state). -/
def aniRun (s : AniState) (evs : List AniEvent) : AniState :=
  evs.foldl (fun st ev => (fsmEvent aniConfigEvents st ev false).1) s

/-- The transitions a sequence of `Event` calls makes on the ANI-config table, in
order, each as source state, event and destination state; calls that return an error
make none. -/
def aniSteps (s : AniState) : List AniEvent → List (AniState × AniEvent × AniState)
  | [] => []
  | ev :: evs =>
    match fsmEvent aniConfigEvents s ev false with
    | (s1, none) => (s, ev, s1) :: aniSteps s1 evs
    | (_, some _) => aniSteps s evs

/-- The eight transitions from Starting to ConfigDone under the success events. -/
def configChain : List (AniState × AniEvent × AniState) :=
  [ (aniStStarting, aniEvStartConfig, aniStCreatingDot1PMapper),
    (aniStCreatingDot1PMapper, aniEvRxDot1pmapCResp, aniStCreatingMBPCD),
    (aniStCreatingMBPCD, aniEvRxMbpcdResp, aniStSettingTconts),
    (aniStSettingTconts, aniEvRxTcontsResp, aniStCreatingGemNCTPs),
    (aniStCreatingGemNCTPs, aniEvRxGemntcpsResp, aniStCreatingGemIWs),
    (aniStCreatingGemIWs, aniEvRxGemiwsResp, aniStSettingPQs),
    (aniStSettingPQs, aniEvRxPrioqsResp, aniStSettingDot1PMapper),
    (aniStSettingDot1PMapper, aniEvRxDot1pmapSResp, aniStConfigDone) ]

/-- The part of `configChain` that ends in the given state (empty for Disabled,
Starting and Resetting). -/
def chainTo : AniState → List (AniState × AniEvent × AniState)
  | aniStDisabled => []
  | aniStStarting => []
  | aniStCreatingDot1PMapper => configChain.take 1
  | aniStCreatingMBPCD => configChain.take 2
  | aniStSettingTconts => configChain.take 3
  | aniStCreatingGemNCTPs => configChain.take 4
  | aniStCreatingGemIWs => configChain.take 5
  | aniStSettingPQs => configChain.take 6
  | aniStSettingDot1PMapper => configChain.take 7
  | aniStConfigDone => configChain
  | aniStResetting => []

/-! ## Sample runs of the ANI-config loops -/

/-- Wait outcomes: the second wait times out, every other wait receives a success
response. -/
def secondWaitFails : Nat → WaitOutcome :=
  fun k => if k = 1 then WaitOutcome.timeout else WaitOutcome.received true

/-- A mirror with T-CONT 0x8001 and two priority queues, the upstream queue 0x8001
(RelatedPort: T-CONT 0x8001, priority 0) and the downstream queue 1 (RelatedPort: UNI
port 1, priority 0), and a technology profile with two GEM entries, of priority
index 0 and 1. -/
def staleQueueEnv : AniEnv :=
  ⟨0x8001, 0x2102, 0x201, 1, [0x8001], [1, 0x8001],
    fun k => if k = 0x8001 then some (0x8001 * 2 ^ 16 + 0)
      else if k = 1 then some (1 * 2 ^ 16 + 0) else none,
    1024,
    [⟨1024, 3, 0, "00000011".toList, "StrictPriority", 0⟩,
     ⟨1025, 3, 1, "00001100".toList, "StrictPriority", 0⟩]⟩

/-- The GEM ports `prepareAndEnterConfigState` collects on the sample machine for
`staleQueueEnv`, as GEM port id, upstream queue id and downstream queue id. -/
def staleQueueRun : List (Nat × Nat × Nat) :=
  (Ani.prepareAndEnterConfigState staleQueueEnv
    (sampleAniWorld aniStStarting [])).oFsm.gemPortAttribsSlice.map
      (fun p => (p.gemPortID, p.upQueueID, p.downQueueID))

/-! ## Delivery of the ANI-config-done event -/

/-- Reading a log of entered states from the left: whether ConfigDone was entered
since the last entry into Disabled (or since the start), and the number of entries
into Disabled before which ConfigDone was entered since the previous entry into
Disabled (or since the start). -/
def completedRuns (log : List AniState) : Bool × Nat :=
  log.foldl (fun acc s =>
    match s with
    | aniStConfigDone => (true, acc.2)
    | aniStDisabled => (false, if acc.1 then acc.2 + 1 else acc.2)
    | _ => acc) (false, 0)

namespace Ani

/-- Runs work units one after the other, each with the outcomes of its waits. -/
def runTasks (env : AniEnv) (w : AniWorld) (tasks : List (AniTask × (Nat → WaitOutcome))) :
    AniWorld :=
  tasks.foldl (fun v t => runTask env t.2 v t.1) w

/-- The events delivered to the device handler are one request event for every
completed run of the state log, and the flag `aniConfigCompleted` tells whether
ConfigDone was entered since the last entry into Disabled. -/
def DeliveryInv (w : AniWorld) : Prop :=
  w.dhEvents = List.replicate (completedRuns w.stateLog).2 w.oFsm.requestEvent ∧
  w.oFsm.aniConfigCompleted = (completedRuns w.stateLog).1

end Ani

/-- A complete run of the machine from Disabled: start, preparation, the eight
success events, the reset started in ConfigDone and the restart started in
Resetting. -/
def completeRunTasks : List (AniTask × (Nat → WaitOutcome)) :=
  [AniTask.event aniEvStart, AniTask.event aniEvStartConfig,
    AniTask.event aniEvRxDot1pmapCResp, AniTask.event aniEvRxMbpcdResp,
    AniTask.event aniEvRxTcontsResp, AniTask.event aniEvRxGemntcpsResp,
    AniTask.event aniEvRxGemiwsResp, AniTask.event aniEvRxPrioqsResp,
    AniTask.event aniEvRxDot1pmapSResp, AniTask.event aniEvReset,
    AniTask.event aniEvRestart].map (fun t => (t, allReceived))

/-- A run that is reset in SettingTconts, before ConfigDone. -/
def abortedRunTasks : List (AniTask × (Nat → WaitOutcome)) :=
  [AniTask.event aniEvStart, AniTask.event aniEvStartConfig,
    AniTask.event aniEvRxDot1pmapCResp, AniTask.event aniEvRxMbpcdResp,
    AniTask.event aniEvReset, AniTask.event aniEvRestart].map (fun t => (t, allReceived))

/-! ## Dispatch of the device events (device_handler.go) -/

/-- Work started with `go` by the device-event handlers. -/
inductive DhTask
  | enableUniPortStateUpdate
  | sendOnuOperStateEvent (aOperState : OperStatus_Types)
  | reconcileDeviceTechProf
  deriving DecidableEq, Repr

/-- Go function `newLockStateFsm`: the new machine is in Disabled (`NewAdapterFsm`
and `fsm.NewFSM`, declared outside the available sources, are taken to return an
instance). -/
def newLockStateFsm (aAdminState : Bool) (aRequestEvent : OnuDeviceEvent) : lockStateFsm :=
  ⟨aAdminState, aRequestEvent, uniStDisabled⟩

namespace deviceHandler

/-- Go method `runUniLockFsm` on the device handler: the lock/unlock procedure of
`Onu.runUniLockFsm` on the two machines of the handler; the `Event` calls it makes are
appended to the call log (the work the machines start with `go` is followed in the
section on the lock/unlock machines). -/
def runUniLockFsm (dh : deviceHandler) (aAdminState : Bool) : deviceHandler :=
  match Onu.runUniLockFsm ⟨dh.pLockStateFsm, dh.pUnlockStateFsm, [], [], [], [], [], []⟩
      aAdminState with
  | none => { dh with panicked := true }
  | some w =>
    { dh with pLockStateFsm := w.pLockStateFsm, pUnlockStateFsm := w.pUnlockStateFsm,
              calls := dh.calls ++ w.issued.map (fun p => DhCall.lockStateEvent p.1 p.2) }

/-- Go method `createUniLockFsm`. -/
def createUniLockFsm (dh : deviceHandler) (aAdminState : Bool) (devEvent : OnuDeviceEvent) :
    deviceHandler :=
  match getOnuDeviceEntry dh true with
  | (none, dh1) => dh1
  | (some _, dh1) =>
    let pLSFsm := newLockStateFsm aAdminState devEvent
    let dh2 : deviceHandler :=
      if aAdminState then { dh1 with pLockStateFsm := some pLSFsm }
      else { dh1 with pUnlockStateFsm := some pLSFsm }
    dh2.runUniLockFsm aAdminState

end deviceHandler

/-- Go method `processMibDownloadDoneEvent`. -/
def processMibDownloadDoneEvent (dh : deviceHandler) : deviceHandler :=
  let dh1 :=
    if ¬ dh.reconciling then
      dh.call (DhCall.DeviceStateUpdate ConnectStatus_Types.REACHABLE OperStatus_Types.ACTIVE)
    else dh
  let dh2 :=
    if ¬ dh1.reconciling then dh1.call (DhCall.DeviceReasonUpdate "initial-mib-downloaded")
    else dh1
  let dh3 : deviceHandler := { dh2 with deviceReason := "initial-mib-downloaded" }
  match dh3.pUnlockStateFsm with
  | none => dh3.createUniLockFsm false OnuDeviceEvent.UniUnlockStateDone
  | some f =>
    let f1 : lockStateFsm := { f with requestEvent := OnuDeviceEvent.UniUnlockStateDone }
    let dh4 : deviceHandler := { dh3 with pUnlockStateFsm := some f1 }
    dh4.runUniLockFsm false

/-- Go method `processUniUnlockStateDoneEvent`: the go-routines it starts. -/
def processUniUnlockStateDoneEvent (dh : deviceHandler) : List DhTask :=
  if ¬ dh.reconciling then
    [DhTask.enableUniPortStateUpdate, DhTask.sendOnuOperStateEvent OperStatus_Types.ACTIVE]
  else [DhTask.enableUniPortStateUpdate, DhTask.reconcileDeviceTechProf]

/-- Go method `deviceProcStatusUpdate`: the handler afterwards and the go-routines
started. -/
def deviceProcStatusUpdate (env : DhEnv) (dh : deviceHandler) :
    OnuDeviceEvent → deviceHandler × List DhTask
  | OnuDeviceEvent.MibDatabaseSync => (processMibDatabaseSyncEvent env dh, [])
  | OnuDeviceEvent.MibDownloadDone => (processMibDownloadDoneEvent dh, [])
  | OnuDeviceEvent.UniUnlockStateDone => (dh, processUniUnlockStateDoneEvent dh)
  | OnuDeviceEvent.OmciAniConfigDone => (processOmciAniConfigDoneEvent dh, [])
  | OnuDeviceEvent.OmciVlanFilterDone => (processOmciVlanFilterDoneEvent dh, [])
  | _ => (dh, [])

/-! ## The hardware address of a UNI port (onu_uni_port.go) -/

/-- The value of the hexadecimal digits `2k` and `2k+1` of a MAC address string
(digit values as `strconv` reads them, `digitValue`). -/
def hexPairValue (mac : List Nat) (k : Nat) : Nat :=
  16 * (digitValue (mac.getD (2 * k) 0)).getD 0 + (digitValue (mac.getD (2 * k + 1) 0)).getD 0

/-- Whether a byte is a hexadecimal digit, in either case. -/
def isHexDigit (c : Nat) : Bool :=
  match digitValue c with
  | some d => decide (d < 16)
  | none => false

/-- The octets `createVolthaPort` starts from, in the order `genMacFromOctets` prints
them (`macOctets[5]` down to `macOctets[0]`). -/
def defaultHwAddr (dh : deviceHandler) (oo : onuUniPortEntry) : List Nat :=
  [0x08, dh.ponPortNumber / 2 ^ 8 % 2 ^ 8, dh.ponPortNumber % 2 ^ 8,
    oo.portNo / 2 ^ 16 % 2 ^ 8, oo.portNo / 2 ^ 8 % 2 ^ 8, oo.portNo % 2 ^ 8]

/-- The `OfpPort.HwAddr` of the port `createVolthaPort` hands to `PortCreated`. -/
def announcedHwAddr (dh : deviceHandler) (oo : onuUniPortEntry) : List Nat :=
  match (uniVolthaPort dh oo).OfpPort with
  | some p => p.HwAddr
  | none => []

/-- A device entry holding the MAC address "0011227f80ff". -/
def macDeviceEntry : OnuDeviceEntry :=
  { newOnuDeviceEntry sampleDhEnv "onu-1" 0 with
    macAddress := [48, 48, 49, 49, 50, 50, 55, 102, 56, 48, 102, 102] }

/-- The indicated sample handler with `macDeviceEntry` as its device entry. -/
def macDeviceHandler : deviceHandler :=
  { indicatedDeviceHandler with pOnuOmciDevice := some macDeviceEntry }

/-- The UNI port 16 of the sample handler: UNI id 0, instance 0x101, type PPTP. -/
def macUniPort : onuUniPortEntry := newOnuUniPort 0 16 0x101 uniPPTP

/-! # Theorems -/

/-! ## Lifecycle machine: proofs -/

theorem InitConnectedBeforeUp.snoc {tr : List DevState} (h : InitConnectedBeforeUp tr)
    (s : DevState) : InitConnectedBeforeUp (tr ++ [s]) := by
  obtain ⟨a, b, c, d, rfl, ha, hb, hc⟩ := h
  exact ⟨a, b, c, d ++ [s], by simp, ha, hb, hc⟩

theorem lifecycleInv_step (pre : List DevState) (s : DevState) (x : DevEvent × Bool)
    (h : LifecycleInv pre s) : LifecycleInv (pre ++ [s]) (devStep s x) := by
  rcases h with h | ⟨hup, h⟩
  · exact Or.inl (h.snoc _)
  · obtain ⟨ev, c⟩ := x
    rcases h with rfl | rfl | ⟨rfl, a, b, rfl⟩
    · right
      refine ⟨by simpa using hup, ?_⟩
      cases ev <;> cases c <;> simp [devStep, devFsmEvent, fsmEvent, transitions, deviceStateEvents]
    · right
      refine ⟨by simpa using hup, ?_⟩
      cases ev <;> cases c <;>
        simp [devStep, devFsmEvent, fsmEvent, transitions, deviceStateEvents]
      all_goals exact ⟨pre, [], by simp⟩
    · have hup' : devStUp ∉ a ∧ devStUp ∉ b := by simpa using hup
      by_cases hs : devStep devStConnected (ev, c) = devStUp
      · left
        rw [hs]
        exact ⟨a, b, [], [], by simp, hup'.1, hup'.2, by simp⟩
      · right
        refine ⟨by simpa using hup, ?_⟩
        revert hs
        cases ev <;> cases c <;>
          simp [devStep, devFsmEvent, fsmEvent, transitions, deviceStateEvents] <;>
          exact ⟨a, b ++ [devStConnected], by simp⟩

theorem lifecycle_run_inv (xs : List (DevEvent × Bool)) :
    ∀ (pre : List DevState) (s : DevState), LifecycleInv pre s →
      devRun s xs = devStUp → InitConnectedBeforeUp (pre ++ devTrace s xs) := by
  induction xs with
  | nil =>
    intro pre s h hrun
    simp only [devRun, List.foldl_nil] at hrun
    subst hrun
    rcases h with h | ⟨_, h⟩
    · simpa [devTrace] using h
    · rcases h with h | h | ⟨h, _⟩ <;> cases h
  | cons x xs ih =>
    intro pre s h hrun
    have := ih (pre ++ [s]) (devStep s x) (lifecycleInv_step pre s x h)
      (by simpa [devRun] using hrun)
    simpa [devTrace] using this

/-- C1: over the lifecycle transition table, started in Null, every finite event
sequence (each event with or without a cancelling handler) that leaves the
machine in Up has a run of the form ... Init ... Connected ... Up ..., where Up
does not occur before the displayed Up: the machine was in Init, after that in
Connected, and only then entered Up for the first time. -/
theorem lifecycle_up_after_init_connected (xs : List (DevEvent × Bool))
    (h : devRun deviceStateInitial xs = devStUp) :
    InitConnectedBeforeUp (devTrace deviceStateInitial xs) := by
  have := lifecycle_run_inv xs [] deviceStateInitial
    (Or.inr ⟨by simp, Or.inl rfl⟩) h
  simpa using this

theorem lifecycle_up_after_init_connected_witness :
    devRun deviceStateInitial
        [(devEvDeviceInit, false), (devEvGrpcConnected, false), (devEvDeviceUpInd, false)]
      = devStUp ∧
    InitConnectedBeforeUp (devTrace deviceStateInitial
        [(devEvDeviceInit, false), (devEvGrpcConnected, false), (devEvDeviceUpInd, false)]) :=
  ⟨by decide, lifecycle_up_after_init_connected _ (by decide)⟩

/-- C2: a device-init event is accepted in Null and in Down (the machine moves
to Init without error) and in no other state: fired in Init, Connected or Up it
returns an error and leaves the state unchanged, whatever the handlers do;
likewise a device-up indication fired in Null returns an error and leaves the
state Null. -/
theorem device_init_only_from_null_or_down :
    devFsmEvent devStNull devEvDeviceInit false = (devStInit, none) ∧
    devFsmEvent devStDown devEvDeviceInit false = (devStInit, none) ∧
    (∀ c, devFsmEvent devStInit devEvDeviceInit c
        = (devStInit, some FsmError.InvalidEventError)) ∧
    (∀ c, devFsmEvent devStConnected devEvDeviceInit c
        = (devStConnected, some FsmError.InvalidEventError)) ∧
    (∀ c, devFsmEvent devStUp devEvDeviceInit c
        = (devStUp, some FsmError.InvalidEventError)) ∧
    (∀ c, devFsmEvent devStNull devEvDeviceUpInd c
        = (devStNull, some FsmError.InvalidEventError)) := by
  decide

/-! ## ANI configuration: the priority-bit table -/

theorem atoiByte_eq_one (c : Char) : atoiByte c = some 1 ↔ c = '1' := by
  constructor
  · intro h
    unfold atoiByte at h
    split at h
    · simp at h
      have h1 : c.toNat = 49 := by
        have : '0'.toNat = 48 := by decide
        rename_i hd
        simp [Char.isDigit] at hd
        omega
      have := Char.ofNat_toNat c
      rw [h1] at this
      exact this.symm
    · simp at h
  · rintro rfl
    decide

theorem setPrioGemPort_eq (arr : List Nat) (p : ponAniGemPortAttribs) (i : Nat)
    (hp : 8 ≤ p.pbitString.length) :
    setPrioGemPort arr p i =
      some (if claimsPbit i p = true ∧ arr.getD i 0 = 0 then arr.set i p.gemPortID else arr) := by
  have hlt : 7 - i < p.pbitString.length := by omega
  obtain ⟨c, hget⟩ : ∃ c, p.pbitString.get? (7 - i) = some c :=
    ⟨_, List.get?_eq_get hlt⟩
  simp only [setPrioGemPort, claimsPbit, hget]
  by_cases hc : c = '1'
  · subst hc
    simp only [(atoiByte_eq_one '1').2 rfl]
    by_cases h0 : arr.getD i 0 = 0 <;> simp only [h0] <;> simp
  · have hne : atoiByte c ≠ some 1 := fun h => hc ((atoiByte_eq_one _).1 h)
    cases hat : atoiByte c with
    | none => simp [hc]
    | some prio =>
      have : prio ≠ 1 := by
        rintro rfl
        exact hne hat
      simp [hc, this]

theorem getD_set_nat (arr : List Nat) (i j v : Nat) :
    (arr.set i v).getD j 0 = if i = j ∧ i < arr.length then v else arr.getD j 0 := by
  simp only [List.getD_eq_getElem?_getD, List.getElem?_set]
  by_cases hij : i = j
  · subst hij
    by_cases hl : i < arr.length
    · simp [hl]
    · simp [hl, List.getElem?_eq_none (Nat.le_of_not_lt hl)]
  · simp [hij]

theorem foldlM_setPrioGemPort (p : ponAniGemPortAttribs) (hp : 8 ≤ p.pbitString.length) :
    ∀ (is : List Nat) (arr : List Nat), arr.length = 8 → (∀ i ∈ is, i < 8) → is.Nodup →
      ∃ arr2, is.foldlM (fun a i => setPrioGemPort a p i) arr = some arr2 ∧ arr2.length = 8 ∧
        ∀ j, arr2.getD j 0 =
          if j ∈ is ∧ claimsPbit j p = true ∧ arr.getD j 0 = 0 then p.gemPortID
          else arr.getD j 0 := by
  intro is
  induction is with
  | nil => intro arr h _ _; exact ⟨arr, by simp, h, by simp⟩
  | cons i is ih =>
    intro arr hlen hlt hnd
    have hi : i < arr.length := by rw [hlen]; exact hlt i (by simp)
    have hnotin : i ∉ is := (List.nodup_cons.1 hnd).1
    obtain ⟨arr2, h2, hl2, hget⟩ := ih
      (if claimsPbit i p = true ∧ arr.getD i 0 = 0 then arr.set i p.gemPortID else arr)
      (by split <;> simp [hlen]) (fun j hj => hlt j (by simp [hj])) (List.nodup_cons.1 hnd).2
    refine ⟨arr2, ?_, hl2, ?_⟩
    · simp only [List.foldlM_cons, setPrioGemPort_eq arr p i hp]
      simpa using h2
    · intro j
      rw [hget j]
      by_cases hc : claimsPbit i p = true ∧ arr.getD i 0 = 0
      · rw [if_pos hc, getD_set_nat]
        by_cases hji : j = i
        · subst hji
          simp [-List.getD_eq_getElem?_getD, hnotin, hc, hi]
        · simp [-List.getD_eq_getElem?_getD, hji, Ne.symm hji]
      · rw [if_neg hc]
        by_cases hji : j = i
        · subst hji
          simp [-List.getD_eq_getElem?_getD, hnotin, hc]
        · simp [-List.getD_eq_getElem?_getD, hji]

theorem scanGemPort_eq (p : ponAniGemPortAttribs) (hp : 8 ≤ p.pbitString.length)
    (arr : List Nat) (hlen : arr.length = 8) :
    ∃ arr2, scanGemPort arr p = some arr2 ∧ arr2.length = 8 ∧
      ∀ j < 8, arr2.getD j 0 =
        if claimsPbit j p = true ∧ arr.getD j 0 = 0 then p.gemPortID else arr.getD j 0 := by
  obtain ⟨arr2, h, hl, hg⟩ := foldlM_setPrioGemPort p hp (List.range 8) arr hlen
    (fun i hi => List.mem_range.1 hi) (List.nodup_range 8)
  refine ⟨arr2, h, hl, fun j hj => ?_⟩
  rw [hg j]
  simp [-List.getD_eq_getElem?_getD, List.mem_range, hj]

theorem firstNonZeroClaimantID_cons (i : Nat) (p : ponAniGemPortAttribs)
    (ps : List ponAniGemPortAttribs) :
    firstNonZeroClaimantID i (p :: ps) =
      if claimsPbit i p = true ∧ p.gemPortID ≠ 0 then p.gemPortID
      else firstNonZeroClaimantID i ps := by
  unfold firstNonZeroClaimantID
  by_cases h : claimsPbit i p = true ∧ p.gemPortID ≠ 0
  · simp [List.find?_cons, h]
  · rw [if_neg h]
    have : (claimsPbit i p && decide (p.gemPortID ≠ 0)) = false := by
      rw [Bool.eq_false_iff]
      intro hh
      simp only [Bool.and_eq_true, decide_eq_true_eq] at hh
      exact h hh
    simp only [List.find?_cons, this]

theorem foldlM_scanGemPort (ports : List ponAniGemPortAttribs) :
    ∀ (arr : List Nat), arr.length = 8 → (∀ p ∈ ports, 8 ≤ p.pbitString.length) →
      ∃ arr2, ports.foldlM scanGemPort arr = some arr2 ∧ arr2.length = 8 ∧
        ∀ j < 8, arr2.getD j 0 =
          if arr.getD j 0 ≠ 0 then arr.getD j 0 else firstNonZeroClaimantID j ports := by
  induction ports with
  | nil =>
    intro arr h _
    refine ⟨arr, by simp, h, fun j _ => ?_⟩
    by_cases h0 : arr.getD j 0 = 0
    · simp [-List.getD_eq_getElem?_getD, h0, firstNonZeroClaimantID]
    · simp [-List.getD_eq_getElem?_getD, h0]
  | cons p ps ih =>
    intro arr hlen hstr
    obtain ⟨arr1, h1, hl1, hg1⟩ := scanGemPort_eq p (hstr p (by simp)) arr hlen
    obtain ⟨arr2, h2, hl2, hg2⟩ := ih arr1 hl1 (fun q hq => hstr q (by simp [hq]))
    refine ⟨arr2, by simp [List.foldlM_cons, h1, h2], hl2, fun j hj => ?_⟩
    rw [hg2 j hj, hg1 j hj, firstNonZeroClaimantID_cons]
    by_cases h0 : arr.getD j 0 = 0
    · by_cases hc : claimsPbit j p = true
      · by_cases hid : p.gemPortID = 0
        · simp [-List.getD_eq_getElem?_getD, h0, hc, hid]
        · simp [-List.getD_eq_getElem?_getD, h0, hc, hid]
      · simp [-List.getD_eq_getElem?_getD, h0, hc]
    · simp [-List.getD_eq_getElem?_getD, h0]

theorem loPrioGemPortArray_eq (ports : List ponAniGemPortAttribs)
    (hstr : ∀ p ∈ ports, 8 ≤ p.pbitString.length) :
    ∃ arr, loPrioGemPortArray ports = some arr ∧ arr.length = 8 ∧
      ∀ i < 8, arr.getD i 0 = firstNonZeroClaimantID i ports := by
  obtain ⟨arr, h, hl, hg⟩ := foldlM_scanGemPort ports (List.replicate 8 0) (by simp) hstr
  refine ⟨arr, h, hl, fun i hi => ?_⟩
  rw [hg i hi]
  have : (List.replicate 8 0).getD i 0 = 0 := by
    interval_cases i <;> rfl
  rw [this]
  simp

theorem firstNonZeroClaimantID_of_nonzero (i : Nat) (ports : List ponAniGemPortAttribs)
    (hnz : ∀ p ∈ ports, p.gemPortID ≠ 0) :
    firstNonZeroClaimantID i ports =
      match ports.find? (claimsPbit i) with
      | some p => p.gemPortID
      | none => 0 := by
  induction ports with
  | nil => rfl
  | cons p ps ih =>
    rw [firstNonZeroClaimantID_cons, ih (fun q hq => hnz q (by simp [hq]))]
    by_cases hc : claimsPbit i p = true
    · simp [List.find?_cons, hc, hnz p (by simp)]
    · simp [List.find?_cons, hc]

/-- C4 (amended): for every list of GEM ports whose priority strings have at
least 8 bytes the scan ends without panic with an 8-slot table in which slot
`i` holds the id of the first port in list order that claims bit `i` and has a
non-zero id (0 when there is none); when all ids are non-zero this is the id of
the first claimant, so a later claim of the same bit is ignored. -/
theorem first_nonzero_writer_wins (ports : List ponAniGemPortAttribs)
    (hstr : ∀ p ∈ ports, 8 ≤ p.pbitString.length) :
    ∃ arr, loPrioGemPortArray ports = some arr ∧ arr.length = 8 ∧
      (∀ i < 8, arr.getD i 0 = firstNonZeroClaimantID i ports) ∧
      ((∀ p ∈ ports, p.gemPortID ≠ 0) → ∀ i < 8, ∀ p,
        ports.find? (claimsPbit i) = some p → arr.getD i 0 = p.gemPortID) := by
  obtain ⟨arr, h, hl, hg⟩ := loPrioGemPortArray_eq ports hstr
  refine ⟨arr, h, hl, hg, fun hnz i hi p hp => ?_⟩
  rw [hg i hi, firstNonZeroClaimantID_of_nonzero i ports hnz, hp]

theorem first_nonzero_writer_wins_witness :
    (∀ p ∈ collidingPorts, 8 ≤ p.pbitString.length) ∧
    ∃ arr, loPrioGemPortArray collidingPorts = some arr ∧ arr.length = 8 ∧
      (∀ i < 8, arr.getD i 0 = firstNonZeroClaimantID i collidingPorts) ∧
      ((∀ p ∈ collidingPorts, p.gemPortID ≠ 0) → ∀ i < 8, ∀ p,
        collidingPorts.find? (claimsPbit i) = some p → arr.getD i 0 = p.gemPortID) :=
  ⟨by decide, first_nonzero_writer_wins collidingPorts (by decide)⟩

/-- C4 (counterexample): with two claimants of bit 0 of which the first has id
0, slot 0 ends up holding 5, the id of the second claimant, although the first
claimant in list order has id 0. -/
theorem first_writer_wins_fails_for_zero_id :
    (loPrioGemPortArray zeroIdFirstPorts).map (fun arr => arr.getD 0 0) = some 5 ∧
    (zeroIdFirstPorts.find? (claimsPbit 0)).map (fun p => p.gemPortID) = some 0 := by
  decide


theorem iwTpPointerName_inj : ∀ i < 8, ∀ j < 8, iwTpPointerName i = iwTpPointerName j → i = j := by
  decide

theorem setIwTpPointers_apply (l : List Nat) :
    ∀ (acc : AttributeValueMap × Bool) (idx i : Nat), i < 8 → idx + l.length ≤ 8 →
      (setIwTpPointers acc idx l).1 (iwTpPointerName i) =
        if idx ≤ i ∧ i < idx + l.length ∧ l.getD (i - idx) 0 ≠ 0 then some (l.getD (i - idx) 0)
        else acc.1 (iwTpPointerName i) := by
  induction l with
  | nil => intro acc idx i _ _; simp [setIwTpPointers]
  | cons v rest ih =>
    intro acc idx i hi hlen
    simp only [List.length_cons] at hlen
    rw [setIwTpPointers, ih _ (idx + 1) i hi (by omega)]
    by_cases h1 : idx + 1 ≤ i
    · have e : i - idx = (i - (idx + 1)) + 1 := by omega
      have hne : iwTpPointerName i ≠ iwTpPointerName idx := fun h =>
        absurd (iwTpPointerName_inj i hi idx (by omega) h) (by omega)
      have hle : idx ≤ i := by omega
      have e2 : idx + 1 + rest.length = idx + (rest.length + 1) := by omega
      rw [e, List.getD_cons_succ]
      by_cases hv : v = 0
      · simp [-List.getD_eq_getElem?_getD, h1, hle, hv, e2]
      · simp [-List.getD_eq_getElem?_getD, h1, hle, hv, AttributeValueMap.set, hne, e2]
    · by_cases h2 : i = idx
      · subst h2
        by_cases hv : v = 0
        · simp [-List.getD_eq_getElem?_getD, hv]
        · simp [-List.getD_eq_getElem?_getD, hv, AttributeValueMap.set]
      · have hne : iwTpPointerName i ≠ iwTpPointerName idx := fun h =>
          absurd (iwTpPointerName_inj i hi idx (by omega) h) h2
        have hlt : ¬ idx ≤ i := by omega
        by_cases hv : v = 0
        · simp [-List.getD_eq_getElem?_getD, h1, hlt, hv]
        · simp [-List.getD_eq_getElem?_getD, h1, hlt, hv, AttributeValueMap.set, hne]

theorem setIwTpPointers_other (l : List Nat) :
    ∀ (acc : AttributeValueMap × Bool) (idx : Nat) (k : String),
      (∀ i, idx ≤ i → i < idx + l.length → k ≠ iwTpPointerName i) →
      (setIwTpPointers acc idx l).1 k = acc.1 k := by
  induction l with
  | nil => intro acc idx k _; rfl
  | cons v rest ih =>
    intro acc idx k hk
    simp only [List.length_cons] at hk
    rw [setIwTpPointers, ih _ (idx + 1) k (fun i h1 h2 => hk i (by omega) (by omega))]
    by_cases hv : v = 0
    · simp [hv]
    · simp [hv, AttributeValueMap.set, hk idx (by omega) (by omega)]

theorem setIwTpPointers_found (l : List Nat) :
    ∀ (acc : AttributeValueMap × Bool) (idx : Nat),
      (setIwTpPointers acc idx l).2 = (acc.2 || l.any (fun v => decide (v ≠ 0))) := by
  induction l with
  | nil => intro acc idx; simp [setIwTpPointers]
  | cons v rest ih =>
    intro acc idx
    rw [setIwTpPointers, ih]
    by_cases hv : v = 0 <;> simp [hv]

/-- What `enterSettingDot1PMapper` computes: it does not panic on strings of at
least 8 bytes, attribute `i` is present exactly for the non-zero slots and holds
the slot value, no other attribute is set, and `foundIwPtr` tells whether some
slot is non-zero. -/
theorem dot1PMapperAttributes_eq (ports : List ponAniGemPortAttribs)
    (hstr : ∀ p ∈ ports, 8 ≤ p.pbitString.length) :
    ∃ attrs found, dot1PMapperAttributes ports = some (attrs, found) ∧
      (∀ i < 8, attrs (iwTpPointerName i) =
        if firstNonZeroClaimantID i ports ≠ 0 then some (firstNonZeroClaimantID i ports)
        else none) ∧
      (∀ k, (∀ i < 8, k ≠ iwTpPointerName i) → attrs k = none) ∧
      (found = true ↔ ∃ i < 8, firstNonZeroClaimantID i ports ≠ 0) := by
  obtain ⟨arr, h, hl, hg⟩ := loPrioGemPortArray_eq ports hstr
  refine ⟨_, _, by simp only [dot1PMapperAttributes, h, Option.map_some']; rfl, ?_, ?_, ?_⟩
  · intro i hi
    rw [setIwTpPointers_apply arr _ 0 i hi (by omega)]
    simp only [Nat.zero_le, Nat.sub_zero, true_and, Nat.zero_add, hl, hi, hg i hi]
    rfl
  · intro k hk
    rw [setIwTpPointers_other arr _ 0 k (fun i _ h2 => hk i (by omega))]
    rfl
  · rw [setIwTpPointers_found]
    simp only [Bool.false_or, List.any_eq_true, decide_eq_true_eq]
    constructor
    · rintro ⟨v, hv, hne⟩
      obtain ⟨i, hi, rfl⟩ := List.getElem_of_mem hv
      refine ⟨i, by omega, ?_⟩
      rw [← hg i (by omega), List.getD_eq_getElem _ _ hi]
      exact hne
    · rintro ⟨i, hi, hne⟩
      rw [← hg i hi] at hne
      have hi2 : i < arr.length := by omega
      rw [List.getD_eq_getElem _ _ hi2] at hne
      exact ⟨arr[i], List.getElem_mem _, hne⟩


theorem eq_of_gemPortID_eq {ports : List ponAniGemPortAttribs}
    (hdist : ports.Pairwise (fun p q => p.gemPortID ≠ q.gemPortID))
    {p q : ponAniGemPortAttribs} (hp : p ∈ ports) (hq : q ∈ ports)
    (h : p.gemPortID = q.gemPortID) : p = q := by
  by_contra hne
  exact List.Pairwise.forall (fun _ _ h => Ne.symm h) hdist hp hq hne h

/-- C3: for every list of GEM ports with pairwise distinct non-zero ids and
priority strings of (at least) 8 bytes, `enterSettingDot1PMapper` builds its
attribute map without panic and, for every bit position `i` in 0..7 (read from
byte `7 - i`), the attribute `InterworkTpPointerForPBitPriority<i>` is set to
the id of port `p` exactly when `p` is the first port in list order whose string
has '1' at that position; no attribute is set for a position that no port
claims, and no attribute of another name is set. -/
theorem dot1p_mapper_table_correct (ports : List ponAniGemPortAttribs)
    (hdist : ports.Pairwise (fun p q => p.gemPortID ≠ q.gemPortID))
    (hnz : ∀ p ∈ ports, p.gemPortID ≠ 0)
    (hstr : ∀ p ∈ ports, 8 ≤ p.pbitString.length) :
    ∃ attrs found, dot1PMapperAttributes ports = some (attrs, found) ∧
      (∀ i < 8,
        (∀ p ∈ ports, (attrs (iwTpPointerName i) = some p.gemPortID ↔
          ports.find? (claimsPbit i) = some p)) ∧
        ((∀ p ∈ ports, claimsPbit i p = false) → attrs (iwTpPointerName i) = none)) ∧
      (∀ k, (∀ i < 8, k ≠ iwTpPointerName i) → attrs k = none) := by
  obtain ⟨attrs, found, h, hat, hother, _⟩ := dot1PMapperAttributes_eq ports hstr
  refine ⟨attrs, found, h, fun i hi => ?_, hother⟩
  rw [hat i hi, firstNonZeroClaimantID_of_nonzero i ports hnz]
  cases hf : ports.find? (claimsPbit i) with
  | none => simp
  | some q =>
    have hq : q ∈ ports := List.mem_of_find?_eq_some hf
    have hqc : claimsPbit i q = true := List.find?_some hf
    simp only [hnz q hq, ne_eq, not_false_eq_true, if_true, Option.some.injEq]
    refine ⟨fun p hp => ⟨fun h => ?_, fun h => by rw [h]⟩, fun hall => ?_⟩
    · exact eq_of_gemPortID_eq hdist hq hp h
    · rw [hall q hq] at hqc
      cases hqc

theorem dot1p_mapper_table_correct_witness :
    collidingPorts.Pairwise (fun p q => p.gemPortID ≠ q.gemPortID) ∧
    (∀ p ∈ collidingPorts, p.gemPortID ≠ 0) ∧
    (∀ p ∈ collidingPorts, 8 ≤ p.pbitString.length) ∧
    ∃ attrs found, dot1PMapperAttributes collidingPorts = some (attrs, found) ∧
      (∀ i < 8,
        (∀ p ∈ collidingPorts, (attrs (iwTpPointerName i) = some p.gemPortID ↔
          collidingPorts.find? (claimsPbit i) = some p)) ∧
        ((∀ p ∈ collidingPorts, claimsPbit i p = false) →
          attrs (iwTpPointerName i) = none)) ∧
      (∀ k, (∀ i < 8, k ≠ iwTpPointerName i) → attrs k = none) :=
  ⟨by decide, by decide, by decide,
    dot1p_mapper_table_correct collidingPorts (by decide) (by decide) (by decide)⟩

/-! ## ANI configuration: timeout and abort paths -/

theorem Ani.multiInstanceLoop_fails (env : AniEnv) (done : AniEvent)
    (waits : Nat → WaitOutcome) (reqs : List OmciRequest) :
    ∀ (idx : Nat) (w : AniWorld),
      (∃ k, idx ≤ k ∧ k < idx + reqs.length ∧ waitforOmciResponse (waits k) ≠ none) →
      ∃ tx last, Ani.multiInstanceLoop env done waits reqs idx w =
        Ani.fire env { w with txRequests := tx, pLastTxMeInstance := last } aniEvReset := by
  induction reqs with
  | nil =>
    rintro idx w ⟨k, h1, h2, _⟩
    simp at h2
    omega
  | cons req rest ih =>
    rintro idx w ⟨k, h1, h2, h3⟩
    simp only [List.length_cons] at h2
    cases hw : waitforOmciResponse (waits idx) with
    | some e =>
      exact ⟨_, _, by simp only [Ani.multiInstanceLoop, hw]; rfl⟩
    | none =>
      have hk : idx + 1 ≤ k := by
        rcases Nat.lt_or_ge idx k with h | h
        · exact h
        · have : k = idx := by omega
          subst this
          exact absurd hw h3
      obtain ⟨tx, last, h⟩ := ih (idx + 1) (Ani.send w req) ⟨k, hk, by omega, h3⟩
      exact ⟨tx, last, by simp only [Ani.multiInstanceLoop, hw]; exact h⟩

theorem Ani.reset_then_restart (env : AniEnv) (waits : Nat → WaitOutcome) (w : AniWorld)
    (hst : w.oFsm.current ≠ aniStDisabled ∧ w.oFsm.current ≠ aniStResetting)
    (hnp : w.panicked = false) (hstarted : w.started = []) :
    (Ani.fire env w aniEvReset).oFsm.current = aniStResetting ∧
    (Ani.fire env w aniEvReset).started = [AniTask.event aniEvRestart] ∧
    (Ani.fire env w aniEvReset).stateLog = w.stateLog ++ [aniStResetting] ∧
    (Ani.drain env waits 2 (Ani.fire env w aniEvReset)).oFsm.current = aniStDisabled ∧
    (Ani.drain env waits 2 (Ani.fire env w aniEvReset)).stateLog
      = w.stateLog ++ [aniStResetting, aniStDisabled] ∧
    (Ani.drain env waits 2 (Ani.fire env w aniEvReset)).tpConfigDone w.oFsm.uniID = true ∧
    (Ani.drain env waits 2 (Ani.fire env w aniEvReset)).dhEvents
      = (if w.oFsm.aniConfigCompleted then w.dhEvents ++ [w.oFsm.requestEvent]
         else w.dhEvents) ∧
    (Ani.drain env waits 2 (Ani.fire env w aniEvReset)).started = [] ∧
    (Ani.drain env waits 2 (Ani.fire env w aniEvReset)).panicked = false := by
  obtain ⟨f, tp, dh, tx, last, cc, cs, st, pr, vv, sl, pn⟩ := w
  obtain ⟨cur, uni, mb, eid, tpid, re, acc, chs, ps, m1, m2, t0, a0, gp⟩ := f
  simp only at hst hnp hstarted
  subst hnp hstarted
  cases cur <;> simp at hst <;> cases acc <;> cases chs <;>
    simp [Ani.fire, Ani.drain, Ani.runTask, Ani.enterState, Ani.enterResettingState,
      Ani.enterDisabledState, fsmEvent, transitions, aniConfigEvents, setConfigDone]

/-- C5 (amended): if a wait of `performCreatingGemNCTPs` times out, the loop
fires the reset event, the machine enters Resetting and, once the restart event
started there has run, Disabled; no event is delivered to the device handler
(when no completed run is pending), and the entry into Disabled sets the
"configuration done" marker of the UNI to true. -/
theorem gem_nctp_timeout_resets_and_sets_marker (env : AniEnv) (w : AniWorld)
    (waits : Nat → WaitOutcome)
    (hst : w.oFsm.current = aniStCreatingGemNCTPs) (hnp : w.panicked = false)
    (hstarted : w.started = []) (hcompl : w.oFsm.aniConfigCompleted = false)
    (hto : ∃ k < w.oFsm.gemPortAttribsSlice.length, waits k = WaitOutcome.timeout) :
    (Ani.performCreatingGemNCTPs env w waits).oFsm.current = aniStResetting ∧
    (Ani.performCreatingGemNCTPs env w waits).started = [AniTask.event aniEvRestart] ∧
    (Ani.drain env waits 2 (Ani.performCreatingGemNCTPs env w waits)).oFsm.current
      = aniStDisabled ∧
    (Ani.drain env waits 2 (Ani.performCreatingGemNCTPs env w waits)).stateLog
      = w.stateLog ++ [aniStResetting, aniStDisabled] ∧
    (Ani.drain env waits 2 (Ani.performCreatingGemNCTPs env w waits)).dhEvents = w.dhEvents ∧
    (Ani.drain env waits 2 (Ani.performCreatingGemNCTPs env w waits)).tpConfigDone w.oFsm.uniID
      = true := by
  obtain ⟨k, hk, hwk⟩ := hto
  obtain ⟨tx, last, h⟩ := Ani.multiInstanceLoop_fails env aniEvRxGemntcpsResp waits
    (w.oFsm.gemPortAttribsSlice.map (gemNCTPRequest w.oFsm.tcont0ID)) 0 w
    ⟨k, Nat.zero_le _, by simpa using hk, by rw [hwk]; simp [waitforOmciResponse]⟩
  have hr := Ani.reset_then_restart env waits
    { w with txRequests := tx, pLastTxMeInstance := last }
    (by simp [hst]) hnp hstarted
  simp only [Ani.performCreatingGemNCTPs, h]
  simp only [hcompl] at hr
  exact ⟨hr.1, hr.2.1, hr.2.2.2.1, hr.2.2.2.2.1, hr.2.2.2.2.2.2.1, hr.2.2.2.2.2.1⟩

theorem gem_nctp_timeout_resets_and_sets_marker_witness :
    (Ani.performCreatingGemNCTPs sampleAniEnv
      (sampleAniWorld aniStCreatingGemNCTPs collidingPorts) allTimeout).oFsm.current
      = aniStResetting ∧
    (Ani.performCreatingGemNCTPs sampleAniEnv
      (sampleAniWorld aniStCreatingGemNCTPs collidingPorts) allTimeout).started
      = [AniTask.event aniEvRestart] ∧
    (Ani.drain sampleAniEnv allTimeout 2 (Ani.performCreatingGemNCTPs sampleAniEnv
      (sampleAniWorld aniStCreatingGemNCTPs collidingPorts) allTimeout)).oFsm.current
      = aniStDisabled ∧
    (Ani.drain sampleAniEnv allTimeout 2 (Ani.performCreatingGemNCTPs sampleAniEnv
      (sampleAniWorld aniStCreatingGemNCTPs collidingPorts) allTimeout)).stateLog
      = (sampleAniWorld aniStCreatingGemNCTPs collidingPorts).stateLog
        ++ [aniStResetting, aniStDisabled] ∧
    (Ani.drain sampleAniEnv allTimeout 2 (Ani.performCreatingGemNCTPs sampleAniEnv
      (sampleAniWorld aniStCreatingGemNCTPs collidingPorts) allTimeout)).dhEvents
      = (sampleAniWorld aniStCreatingGemNCTPs collidingPorts).dhEvents ∧
    (Ani.drain sampleAniEnv allTimeout 2 (Ani.performCreatingGemNCTPs sampleAniEnv
      (sampleAniWorld aniStCreatingGemNCTPs collidingPorts) allTimeout)).tpConfigDone
        (sampleAniWorld aniStCreatingGemNCTPs collidingPorts).oFsm.uniID
      = true :=
  gem_nctp_timeout_resets_and_sets_marker sampleAniEnv
    (sampleAniWorld aniStCreatingGemNCTPs collidingPorts) allTimeout rfl rfl rfl rfl
    ⟨0, by decide, rfl⟩

/-- C5 (counterexample): on the sample machine, whose marker for UNI 0 is false
before, a timeout of the first GEM-NCTP wait leads through Resetting to Disabled
and the marker of UNI 0 is true afterwards, not false. -/
theorem gem_nctp_timeout_marker_not_kept_false :
    (sampleAniWorld aniStCreatingGemNCTPs collidingPorts).tpConfigDone 0 = false ∧
    gemNctpTimeoutRun.stateLog = [aniStResetting, aniStDisabled] ∧
    gemNctpTimeoutRun.oFsm.current = aniStDisabled ∧
    gemNctpTimeoutRun.tpConfigDone 0 = true := by
  decide

theorem firstNonZeroClaimantID_of_unclaimed (ports : List ponAniGemPortAttribs)
    (hno : ∀ p ∈ ports, ∀ i < 8, claimsPbit i p = false) (i : Nat) (hi : i < 8) :
    firstNonZeroClaimantID i ports = 0 := by
  induction ports with
  | nil => rfl
  | cons p ps ih =>
    rw [firstNonZeroClaimantID_cons, ih (fun q hq => hno q (by simp [hq]))]
    simp [hno p (by simp) i hi]

theorem dot1PMapperAttributes_of_unclaimed (ports : List ponAniGemPortAttribs)
    (hstr : ∀ p ∈ ports, 8 ≤ p.pbitString.length)
    (hno : ∀ p ∈ ports, ∀ i < 8, claimsPbit i p = false) :
    ∃ attrs, dot1PMapperAttributes ports = some (attrs, false) ∧ ∀ k, attrs k = none := by
  obtain ⟨attrs, found, h, hat, hother, hfound⟩ := dot1PMapperAttributes_eq ports hstr
  have hf : found = false := by
    cases found
    · rfl
    · obtain ⟨i, hi, hne⟩ := hfound.1 rfl
      exact absurd (firstNonZeroClaimantID_of_unclaimed ports hno i hi) hne
  subst hf
  refine ⟨attrs, h, fun k => ?_⟩
  by_cases hk : ∃ i < 8, k = iwTpPointerName i
  · obtain ⟨i, hi, rfl⟩ := hk
    rw [hat i hi, firstNonZeroClaimantID_of_unclaimed ports hno i hi]
    simp
  · exact hother k (fun i hi h => hk ⟨i, hi, h⟩)

/-- C6 (amended): if no GEM port claims any of the 8 priority bits,
`enterSettingDot1PMapper` starts the reset event (and still sends the Set
request, with no attribute); the machine then goes through Resetting to
Disabled, no event is delivered to the device handler, and the entry into
Disabled sets the "configuration done" marker of the UNI to true. -/
theorem no_pbit_claimed_aborts_config (env : AniEnv) (w : AniWorld) (waits : Nat → WaitOutcome)
    (hst : w.oFsm.current = aniStSettingDot1PMapper) (hnp : w.panicked = false)
    (hstarted : w.started = []) (hcompl : w.oFsm.aniConfigCompleted = false)
    (hstr : ∀ p ∈ w.oFsm.gemPortAttribsSlice, 8 ≤ p.pbitString.length)
    (hno : ∀ p ∈ w.oFsm.gemPortAttribsSlice, ∀ i < 8, claimsPbit i p = false) :
    (Ani.enterSettingDot1PMapper w).started = [AniTask.event aniEvReset] ∧
    (∃ req, (Ani.enterSettingDot1PMapper w).txRequests = w.txRequests ++ [req] ∧
      req.msgType = "Set" ∧ req.meName = "Ieee8021PMapperServiceProfile" ∧
      ∀ k, req.Attributes k = none) ∧
    (Ani.drain env waits 3 (Ani.enterSettingDot1PMapper w)).oFsm.current = aniStDisabled ∧
    (Ani.drain env waits 3 (Ani.enterSettingDot1PMapper w)).stateLog
      = w.stateLog ++ [aniStResetting, aniStDisabled] ∧
    (Ani.drain env waits 3 (Ani.enterSettingDot1PMapper w)).dhEvents = w.dhEvents ∧
    (Ani.drain env waits 3 (Ani.enterSettingDot1PMapper w)).tpConfigDone w.oFsm.uniID
      = true := by
  obtain ⟨attrs, hattrs, hnone⟩ :=
    dot1PMapperAttributes_of_unclaimed w.oFsm.gemPortAttribsSlice hstr hno
  have hr := Ani.reset_then_restart env waits
    { w with
      txRequests := w.txRequests ++
        [⟨"Set", "Ieee8021PMapperServiceProfile", w.oFsm.mapperSP0ID, attrs⟩],
      pLastTxMeInstance := some ("Ieee8021PMapperServiceProfile", w.oFsm.mapperSP0ID) }
    (by simp [hst]) hnp hstarted
  simp only [hcompl] at hr
  have he : Ani.enterSettingDot1PMapper w =
      { w with
        txRequests := w.txRequests ++
          [⟨"Set", "Ieee8021PMapperServiceProfile", w.oFsm.mapperSP0ID, attrs⟩],
        pLastTxMeInstance := some ("Ieee8021PMapperServiceProfile", w.oFsm.mapperSP0ID),
        started := [AniTask.event aniEvReset] } := by
    simp [Ani.enterSettingDot1PMapper, hattrs, Ani.send, hstarted]
  have hd : Ani.drain env waits 3 (Ani.enterSettingDot1PMapper w) =
      Ani.drain env waits 2 (Ani.fire env
        { w with
          txRequests := w.txRequests ++
            [⟨"Set", "Ieee8021PMapperServiceProfile", w.oFsm.mapperSP0ID, attrs⟩],
          pLastTxMeInstance := some ("Ieee8021PMapperServiceProfile", w.oFsm.mapperSP0ID) }
        aniEvReset) := by
    rw [he]
    simp [Ani.drain, Ani.runTask, hstarted]
  rw [hd]
  refine ⟨by rw [he], ⟨_, by rw [he], rfl, rfl, hnone⟩, hr.2.2.2.1, hr.2.2.2.2.1,
    hr.2.2.2.2.2.2.1, hr.2.2.2.2.2.1⟩

theorem no_pbit_claimed_aborts_config_witness :
    (Ani.enterSettingDot1PMapper (sampleAniWorld aniStSettingDot1PMapper unclaimedPorts)).started
      = [AniTask.event aniEvReset] ∧
    (∃ req, (Ani.enterSettingDot1PMapper
        (sampleAniWorld aniStSettingDot1PMapper unclaimedPorts)).txRequests
        = (sampleAniWorld aniStSettingDot1PMapper unclaimedPorts).txRequests ++ [req] ∧
      req.msgType = "Set" ∧ req.meName = "Ieee8021PMapperServiceProfile" ∧
      ∀ k, req.Attributes k = none) ∧
    (Ani.drain sampleAniEnv allReceived 3 (Ani.enterSettingDot1PMapper
      (sampleAniWorld aniStSettingDot1PMapper unclaimedPorts))).oFsm.current = aniStDisabled ∧
    (Ani.drain sampleAniEnv allReceived 3 (Ani.enterSettingDot1PMapper
      (sampleAniWorld aniStSettingDot1PMapper unclaimedPorts))).stateLog
      = (sampleAniWorld aniStSettingDot1PMapper unclaimedPorts).stateLog
        ++ [aniStResetting, aniStDisabled] ∧
    (Ani.drain sampleAniEnv allReceived 3 (Ani.enterSettingDot1PMapper
      (sampleAniWorld aniStSettingDot1PMapper unclaimedPorts))).dhEvents
      = (sampleAniWorld aniStSettingDot1PMapper unclaimedPorts).dhEvents ∧
    (Ani.drain sampleAniEnv allReceived 3 (Ani.enterSettingDot1PMapper
      (sampleAniWorld aniStSettingDot1PMapper unclaimedPorts))).tpConfigDone
        (sampleAniWorld aniStSettingDot1PMapper unclaimedPorts).oFsm.uniID = true :=
  no_pbit_claimed_aborts_config sampleAniEnv
    (sampleAniWorld aniStSettingDot1PMapper unclaimedPorts) allReceived rfl rfl rfl rfl
    (by decide) (by decide)

/-- C6 (counterexample): on the sample machine with one GEM port that claims no
bit, whose marker for UNI 0 is false before, `enterSettingDot1PMapper` starts the
reset, the machine returns to Disabled without an event to the device handler,
and the marker of UNI 0 is true afterwards. -/
theorem no_pbit_claimed_marker_set_anyway :
    (sampleAniWorld aniStSettingDot1PMapper unclaimedPorts).tpConfigDone 0 = false ∧
    noClaimRun.oFsm.current = aniStDisabled ∧
    noClaimRun.stateLog = [aniStResetting, aniStDisabled] ∧
    noClaimRun.dhEvents = [] ∧
    noClaimRun.tpConfigDone 0 = true := by
  decide

/-! ## ANI configuration: priority-queue scheduling -/

theorem OrderedMap.Get_Set (m : OrderedMap) (key value q : Nat) :
    (m.Set key value).Get q = if q = key then some value else m.Get q := by
  induction m with
  | nil =>
    by_cases h : q = key
    · simp [OrderedMap.Set, OrderedMap.Get, List.lookup, h]
    · have : (q == key) = false := by simpa using h
      simp [OrderedMap.Set, OrderedMap.Get, List.lookup, h, this]
  | cons kv rest ih =>
    obtain ⟨k, v⟩ := kv
    unfold OrderedMap.Get at ih ⊢
    by_cases hk : k = key
    · subst hk
      by_cases h : q = k
      · simp [OrderedMap.Set, List.lookup, h]
      · have : (q == k) = false := by simpa using h
        simp [OrderedMap.Set, List.lookup, h, this]
    · by_cases h : q = k
      · subst h
        simp [OrderedMap.Set, List.lookup, hk]
      · have : (q == k) = false := by simpa using h
        simp [OrderedMap.Set, List.lookup, hk, this, ih]

theorem OrderedMap.keys_Set (m : OrderedMap) (key value : Nat) :
    (m.Set key value).map Prod.fst =
      if key ∈ m.map Prod.fst then m.map Prod.fst else m.map Prod.fst ++ [key] := by
  induction m with
  | nil => simp [OrderedMap.Set]
  | cons kv rest ih =>
    obtain ⟨k, v⟩ := kv
    by_cases hk : k = key
    · subst hk
      simp [OrderedMap.Set]
    · have hk2 : ¬ key = k := fun h => hk h.symm
      simp only [OrderedMap.Set, hk, if_false, List.map_cons, ih, List.mem_cons, hk2, false_or]
      split <;> simp

theorem OrderedMap.Get_isSome (m : OrderedMap) (q : Nat) :
    (m.Get q).isSome = true ↔ q ∈ m.map Prod.fst := by
  induction m with
  | nil => simp [OrderedMap.Get, List.lookup]
  | cons kv rest ih =>
    obtain ⟨k, v⟩ := kv
    unfold OrderedMap.Get at ih ⊢
    by_cases h : q = k
    · simp [List.lookup, h]
    · have : (q == k) = false := by simpa using h
      simp [List.lookup, h, this, ih]

theorem queueMapStep_Get (m : OrderedMap) (p : ponAniGemPortAttribs) (q : Nat) :
    (queueMapStep m p).Get q =
      if p.upQueueID = q then
        (if p.qosPolicy = "WRR" then
          (match m.Get q with
            | some v => some v
            | none => some (p.weight % 2 ^ 8))
         else some cu16StrictPrioWeight)
      else m.Get q := by
  unfold queueMapStep
  by_cases hq : p.upQueueID = q
  · subst hq
    by_cases hw : p.qosPolicy = "WRR"
    · cases hg : m.Get p.upQueueID with
      | none => simp [hw, hg, OrderedMap.Get_Set]
      | some v => simp [hw, hg]
    · simp [hw, OrderedMap.Get_Set]
  · have hq2 : ¬ q = p.upQueueID := fun h => hq h.symm
    by_cases hw : p.qosPolicy = "WRR"
    · cases hg : m.Get p.upQueueID with
      | none => simp [hw, hg, hq, hq2, OrderedMap.Get_Set]
      | some v => simp [hw, hg, hq]
    · simp [hw, hq, hq2, OrderedMap.Get_Set]

theorem foldl_queueMapStep_Get (ports : List ponAniGemPortAttribs) (q : Nat) :
    ∀ m : OrderedMap, (ports.foldl queueMapStep m).Get q =
      if hasNonWrrPort q ports = true then some cu16StrictPrioWeight
      else match m.Get q with
        | some v => some v
        | none => firstWeightOf q ports := by
  induction ports with
  | nil =>
    intro m
    cases hg : m.Get q <;> simp [hasNonWrrPort, firstWeightOf, hg]
  | cons p ps ih =>
    intro m
    rw [List.foldl_cons, ih, queueMapStep_Get]
    by_cases hq : p.upQueueID = q
    · by_cases hw : p.qosPolicy = "WRR"
      · cases hg : m.Get q <;>
          simp [hasNonWrrPort, firstWeightOf, hq, hw, hg, List.find?_cons]
      · simp [hasNonWrrPort, hq, hw]
    · simp [hasNonWrrPort, firstWeightOf, hq, List.find?_cons]

theorem foldl_queueMapStep_keys (ports : List ponAniGemPortAttribs) :
    ∀ m : OrderedMap, (m.map Prod.fst).Nodup →
      ((ports.foldl queueMapStep m).map Prod.fst).Nodup ∧
      ∀ q, q ∈ (ports.foldl queueMapStep m).map Prod.fst ↔
        q ∈ m.map Prod.fst ∨ q ∈ ports.map (fun p => p.upQueueID) := by
  induction ports with
  | nil => intro m h; simp [h]
  | cons p ps ih =>
    intro m h
    have hstep : ((queueMapStep m p).map Prod.fst).Nodup ∧
        ∀ q, q ∈ (queueMapStep m p).map Prod.fst ↔ q ∈ m.map Prod.fst ∨ q = p.upQueueID := by
      have hset : ∀ v, ((m.Set p.upQueueID v).map Prod.fst).Nodup ∧
          ∀ q, q ∈ (m.Set p.upQueueID v).map Prod.fst ↔
            q ∈ m.map Prod.fst ∨ q = p.upQueueID := by
        intro v
        rw [OrderedMap.keys_Set]
        by_cases hin : p.upQueueID ∈ m.map Prod.fst
        · rw [if_pos hin]
          refine ⟨h, fun q => ⟨Or.inl, fun hq => ?_⟩⟩
          rcases hq with hq | hq
          · exact hq
          · rw [hq]; exact hin
        · rw [if_neg hin]
          refine ⟨?_, fun q => by simp⟩
          rw [List.nodup_append]
          exact ⟨h, List.nodup_singleton _, by
            intro a ha hb
            rw [List.mem_singleton] at hb
            exact hin (hb ▸ ha)⟩
      unfold queueMapStep
      by_cases hw : p.qosPolicy = "WRR"
      · rw [if_pos hw]
        cases hg : m.Get p.upQueueID with
        | none => exact hset _
        | some v =>
          have hin : p.upQueueID ∈ m.map Prod.fst :=
            (OrderedMap.Get_isSome m p.upQueueID).1 (by rw [hg]; rfl)
          refine ⟨h, fun q => ⟨Or.inl, fun hq => ?_⟩⟩
          rcases hq with hq | hq
          · exact hq
          · rw [hq]; exact hin
      · rw [if_neg hw]
        exact hset _
    obtain ⟨h1, h2⟩ := ih (queueMapStep m p) hstep.1
    refine ⟨h1, fun q => ?_⟩
    rw [List.foldl_cons, h2 q, hstep.2 q]
    simp [or_assoc]

theorem Ani.multiInstanceLoop_succeeds (env : AniEnv) (done : AniEvent)
    (waits : Nat → WaitOutcome) (reqs : List OmciRequest) :
    ∀ (idx : Nat) (w : AniWorld),
      (∀ k, idx ≤ k → k < idx + reqs.length → waitforOmciResponse (waits k) = none) →
      Ani.multiInstanceLoop env done waits reqs idx w =
        Ani.fire env (reqs.foldl Ani.send w) done := by
  induction reqs with
  | nil => intro idx w _; rfl
  | cons req rest ih =>
    intro idx w h
    have h0 := h idx (Nat.le_refl _) (by simp)
    simp only [Ani.multiInstanceLoop, h0, List.foldl_cons]
    exact ih (idx + 1) (Ani.send w req) (fun k h1 h2 => h k (by omega) (by
      simp only [List.length_cons]; omega))

theorem Ani.foldl_send_txRequests (reqs : List OmciRequest) :
    ∀ w : AniWorld, (reqs.foldl Ani.send w).txRequests = w.txRequests ++ reqs := by
  induction reqs with
  | nil => intro w; simp
  | cons req rest ih => intro w; simp [ih, Ani.send]

/-- C7 (amended): for every list of GEM ports and every upstream queue id `q`
occurring in it, `performSettingPQs` holds exactly one map entry for `q` and
builds its Set request as follows: if every GEM port mapped to `q` has policy
"WRR", the request carries TrafficSchedulerPointer 0x8000 and the Weight of the
first GEM port of `q` in list order; if at least one GEM port mapped to `q` has
another policy, it carries TrafficSchedulerPointer 0 and no Weight.  When every
wait succeeds the loop sends exactly these requests, in map order, and then
fires the priority-queue response event. -/
theorem prio_queue_strict_priority_wins (ports : List ponAniGemPortAttribs) (q : Nat)
    (hq : q ∈ ports.map (fun p => p.upQueueID)) :
    ∃ v, (loQueueMap ports).Get q = some v ∧
      ((loQueueMap ports).map Prod.fst).count q = 1 ∧
      (prioQueueRequest (q, v)).EntityID = q ∧
      (hasNonWrrPort q ports = false →
        ∃ p0, ports.find? (fun p => decide (p.upQueueID = q)) = some p0 ∧
          p0.qosPolicy = "WRR" ∧
          (prioQueueRequest (q, v)).Attributes "TrafficSchedulerPointer" = some 0x8000 ∧
          (prioQueueRequest (q, v)).Attributes "Weight" = some (p0.weight % 2 ^ 8)) ∧
      (hasNonWrrPort q ports = true →
        (prioQueueRequest (q, v)).Attributes "TrafficSchedulerPointer" = some 0 ∧
        (prioQueueRequest (q, v)).Attributes "Weight" = none) ∧
      (∀ (env : AniEnv) (w : AniWorld) (waits : Nat → WaitOutcome),
        w.oFsm.gemPortAttribsSlice = ports →
        (∀ k, waitforOmciResponse (waits k) = none) →
        Ani.performSettingPQs env w waits =
          Ani.fire env (((loQueueMap ports).map prioQueueRequest).foldl Ani.send w)
            aniEvRxPrioqsResp ∧
        (((loQueueMap ports).map prioQueueRequest).foldl Ani.send w).txRequests =
          w.txRequests ++ (loQueueMap ports).map prioQueueRequest) := by
  obtain ⟨hnd, hmem⟩ := foldl_queueMapStep_keys ports [] (by simp)
  have hget := foldl_queueMapStep_Get ports q []
  have hfind : ∃ p0, ports.find? (fun p => decide (p.upQueueID = q)) = some p0 := by
    obtain ⟨p, hp, hpq⟩ := List.mem_map.1 hq
    cases hf : ports.find? (fun p => decide (p.upQueueID = q)) with
    | some p0 => exact ⟨p0, rfl⟩
    | none =>
      have := List.find?_eq_none.1 hf p hp
      simp [hpq] at this
  obtain ⟨p0, hp0⟩ := hfind
  have hloop : ∀ (env : AniEnv) (w : AniWorld) (waits : Nat → WaitOutcome),
      w.oFsm.gemPortAttribsSlice = ports →
      (∀ k, waitforOmciResponse (waits k) = none) →
      Ani.performSettingPQs env w waits =
        Ani.fire env (((loQueueMap ports).map prioQueueRequest).foldl Ani.send w)
          aniEvRxPrioqsResp ∧
      (((loQueueMap ports).map prioQueueRequest).foldl Ani.send w).txRequests =
        w.txRequests ++ (loQueueMap ports).map prioQueueRequest := by
    intro env w waits hw hall
    refine ⟨?_, Ani.foldl_send_txRequests _ w⟩
    unfold Ani.performSettingPQs
    rw [hw]
    exact Ani.multiInstanceLoop_succeeds env _ waits _ 0 w (fun k _ _ => hall k)
  have hcount : ((loQueueMap ports).map Prod.fst).count q = 1 :=
    List.count_eq_one_of_mem hnd ((hmem q).2 (Or.inr hq))
  by_cases hsp : hasNonWrrPort q ports = true
  · refine ⟨cu16StrictPrioWeight, ?_, hcount, ?_, ?_, ?_, hloop⟩
    · simpa [loQueueMap, hsp] using hget
    · simp [prioQueueRequest]
    · intro h; rw [h] at hsp; cases hsp
    · intro _
      simp [prioQueueRequest, AttributeValueMap.set, AttributeValueMap.empty]
  · have hsp2 : hasNonWrrPort q ports = false := by simpa using hsp
    have hlt : p0.weight % 2 ^ 8 ≠ cu16StrictPrioWeight := by
      have : p0.weight % 2 ^ 8 < 2 ^ 8 := Nat.mod_lt _ (by norm_num)
      unfold cu16StrictPrioWeight
      omega
    have hp0q : p0.upQueueID = q := by simpa using List.find?_some hp0
    have hp0mem : p0 ∈ ports := List.mem_of_find?_eq_some hp0
    have hwrr : p0.qosPolicy = "WRR" := by
      by_contra hne
      have : hasNonWrrPort q ports = true := by
        unfold hasNonWrrPort
        rw [List.any_eq_true]
        exact ⟨p0, hp0mem, by simp [hp0q, hne]⟩
      rw [hsp2] at this
      cases this
    refine ⟨p0.weight % 2 ^ 8, ?_, hcount, ?_, ?_, ?_, hloop⟩
    · have : (loQueueMap ports).Get q = firstWeightOf q ports := by
        simpa [loQueueMap, hsp2, OrderedMap.Get, List.lookup] using hget
      rw [this, firstWeightOf, hp0]
      rfl
    · simp only [prioQueueRequest, hlt, if_false]
    · intro _
      have hne : ("TrafficSchedulerPointer" = "Weight") = False := by decide
      refine ⟨p0, hp0, hwrr, ?_, ?_⟩
      · simp only [prioQueueRequest, hlt, if_false, AttributeValueMap.set,
          AttributeValueMap.empty, loTrafficSchedulerEID, hne, if_true]
      · simp only [prioQueueRequest, hlt, if_false, AttributeValueMap.set]
        simp
    · intro h; rw [h] at hsp2; cases hsp2

theorem prio_queue_strict_priority_wins_witness :
    0x8001 ∈ wrrPorts.map (fun p => p.upQueueID) ∧
    ∃ v, (loQueueMap wrrPorts).Get 0x8001 = some v ∧
      ((loQueueMap wrrPorts).map Prod.fst).count 0x8001 = 1 ∧
      (prioQueueRequest (0x8001, v)).EntityID = 0x8001 ∧
      (hasNonWrrPort 0x8001 wrrPorts = false →
        ∃ p0, wrrPorts.find? (fun p => decide (p.upQueueID = 0x8001)) = some p0 ∧
          p0.qosPolicy = "WRR" ∧
          (prioQueueRequest (0x8001, v)).Attributes "TrafficSchedulerPointer" = some 0x8000 ∧
          (prioQueueRequest (0x8001, v)).Attributes "Weight" = some (p0.weight % 2 ^ 8)) ∧
      (hasNonWrrPort 0x8001 wrrPorts = true →
        (prioQueueRequest (0x8001, v)).Attributes "TrafficSchedulerPointer" = some 0 ∧
        (prioQueueRequest (0x8001, v)).Attributes "Weight" = none) ∧
      (∀ (env : AniEnv) (w : AniWorld) (waits : Nat → WaitOutcome),
        w.oFsm.gemPortAttribsSlice = wrrPorts →
        (∀ k, waitforOmciResponse (waits k) = none) →
        Ani.performSettingPQs env w waits =
          Ani.fire env (((loQueueMap wrrPorts).map prioQueueRequest).foldl Ani.send w)
            aniEvRxPrioqsResp ∧
        (((loQueueMap wrrPorts).map prioQueueRequest).foldl Ani.send w).txRequests =
          w.txRequests ++ (loQueueMap wrrPorts).map prioQueueRequest) :=
  ⟨by decide, prio_queue_strict_priority_wins wrrPorts 0x8001 (by decide)⟩

/-- C7 (counterexample): with a "WRR" GEM port and a strict-priority GEM port
mapped to the same upstream queue 0x8001, a GEM port of that queue has policy
"WRR", yet the one request `performSettingPQs` sends for the queue sets
TrafficSchedulerPointer 0 and carries no Weight: strict priority, not WRR. -/
theorem prio_queue_wrr_overridden_by_strict_priority :
    hasWrrPort 0x8001 mixedPolicyPorts = true ∧
    ((Ani.performSettingPQs sampleAniEnv (sampleAniWorld aniStSettingPQs mixedPolicyPorts)
        allReceived).txRequests.filter (fun r => decide (r.meName = "PriorityQueue"))).map
      (fun r => (r.EntityID, r.Attributes "TrafficSchedulerPointer", r.Attributes "Weight"))
      = [(0x8001, some 0, none)] := by
  decide

/-! ## Lock / unlock machine -/

/-- C8 (amended): the two machines run their two phases in opposite orders, the
lock machine with the UNIs first: the lock machine (adminState true) goes
Starting -> SettingUnis -> SettingOnuG -> AdminDone under start-admin, UNIs
response, ONU-G response; the unlock machine (adminState false) goes Starting ->
SettingOnuG -> SettingUnis -> AdminDone under start-admin, ONU-G response, UNIs
response; no event of either sequence returns an error. -/
theorem lock_unis_first_unlock_onug_first :
    lockStateTrace true uniStStarting [uniEvStartAdmin, uniEvRxUnisResp, uniEvRxOnugResp]
      = [uniStStarting, uniStSettingUnis, uniStSettingOnuG, uniStAdminDone] ∧
    lockStateErrors true uniStStarting [uniEvStartAdmin, uniEvRxUnisResp, uniEvRxOnugResp]
      = [none, none, none] ∧
    lockStateTrace false uniStStarting [uniEvStartAdmin, uniEvRxOnugResp, uniEvRxUnisResp]
      = [uniStStarting, uniStSettingOnuG, uniStSettingUnis, uniStAdminDone] ∧
    lockStateErrors false uniStStarting [uniEvStartAdmin, uniEvRxOnugResp, uniEvRxUnisResp]
      = [none, none, none] := by
  decide

/-- C8 (counterexample): in the lock machine the start-admin event leads from
Starting to SettingUnis, not to SettingOnuG, and in the unlock machine to
SettingOnuG, not to SettingUnis; under the event order of the claim (ONU-G
response before UNIs response) the lock machine rejects the ONU-G response and
does not reach AdminDone. -/
theorem lock_does_not_set_onug_first :
    fsmEvent (lockStateEvents true) uniStStarting uniEvStartAdmin false
      = (uniStSettingUnis, none) ∧
    fsmEvent (lockStateEvents false) uniStStarting uniEvStartAdmin false
      = (uniStSettingOnuG, none) ∧
    lockStateTrace true uniStStarting [uniEvStartAdmin, uniEvRxOnugResp, uniEvRxUnisResp]
      = [uniStStarting, uniStSettingUnis, uniStSettingUnis, uniStSettingOnuG] ∧
    lockStateErrors true uniStStarting [uniEvStartAdmin, uniEvRxOnugResp, uniEvRxUnisResp]
      = [none, some FsmError.InvalidEventError, none] := by
  decide

theorem lockStateEvents_reset (adm : Bool) (s : UniState) (h : s ≠ uniStDisabled) :
    fsmEvent (lockStateEvents adm) s uniEvReset false =
      (uniStResetting,
        if s = uniStResetting then some FsmError.InvalidEventError else none) := by
  cases adm <;> cases s <;> first | exact absurd rfl h | decide

theorem lockStateEvents_start (adm : Bool) :
    fsmEvent (lockStateEvents adm) uniStDisabled uniEvStart false = (uniStStarting, none) := by
  cases adm <;> decide

theorem Lock.fire_reset (w : LockWorld) (lock : Bool) (f : lockStateFsm)
    (h : f.current ≠ uniStDisabled) :
    Lock.fire w lock f uniEvReset =
      if f.current = uniStResetting then { w with issued := w.issued ++ [(lock, uniEvReset)] }
      else
        { Lock.setFsm { w with issued := w.issued ++ [(lock, uniEvReset)] } lock
            { f with current := uniStResetting } with
          entered := w.entered ++ [(lock, uniStResetting)],
          commChan := w.commChan ++ [(lock, TestMessageType.AbortMessageProcessing)],
          started := w.started ++ [LockTask.event lock uniEvRestart] } := by
  unfold Lock.fire
  rw [lockStateEvents_reset f.adminState f.current h]
  by_cases hr : f.current = uniStResetting
  · simp [hr]
  · cases lock <;> simp [hr, Lock.enterState, Lock.setFsm]

theorem Lock.fire_start (w : LockWorld) (lock : Bool) (f : lockStateFsm)
    (h : f.current = uniStDisabled) :
    Lock.fire w lock f uniEvStart =
      { Lock.setFsm { w with issued := w.issued ++ [(lock, uniEvStart)] } lock
          { f with current := uniStStarting } with
        entered := w.entered ++ [(lock, uniStStarting)],
        started := w.started ++
          [LockTask.processOmciLockMessages lock, LockTask.event lock uniEvStartAdmin] } := by
  unfold Lock.fire
  rw [h, lockStateEvents_start f.adminState]
  cases lock <;> simp [Lock.enterState, Lock.setFsm]

/-- C9: `runUniLockFsm(a)` called while both machines exist and the opposite
machine (the lock machine for `a = false`, the unlock machine for `a = true`)
is in a state other than Disabled first issues the reset event to the opposite
machine, which is in Resetting afterwards, and only after that issues the start
event to the own machine; the start event is issued when the own machine is
Disabled (it then enters Starting) and no other event is issued. -/
theorem run_uni_lock_resets_opposite_first (a : Bool) (w : LockWorld)
    (own opp : lockStateFsm)
    (hown : Lock.fsmOf w a = some own) (hopp : Lock.fsmOf w (!a) = some opp)
    (hactive : opp.current ≠ uniStDisabled) :
    ∃ w2, runUniLockFsm w a = some w2 ∧
      (∃ o, Lock.fsmOf w2 (!a) = some o ∧ o.current = uniStResetting) ∧
      w2.issued = w.issued ++ (!a, uniEvReset) ::
        (if own.current = uniStDisabled then [(a, uniEvStart)] else []) ∧
      (opp.current ≠ uniStResetting →
        w2.entered = w.entered ++ (!a, uniStResetting) ::
          (if own.current = uniStDisabled then [(a, uniStStarting)] else [])) ∧
      (own.current = uniStDisabled →
        ∃ o, Lock.fsmOf w2 a = some o ∧ o.current = uniStStarting) := by
  unfold runUniLockFsm
  simp only [hown, hopp, hactive, ne_eq, not_false_eq_true, if_true]
  rw [Lock.fire_reset w (!a) opp hactive]
  by_cases hd : own.current = uniStDisabled
  · simp only [hd, if_true]
    rw [Lock.fire_start _ a own hd]
    by_cases hr : opp.current = uniStResetting
    · refine ⟨_, rfl, ?_⟩
      obtain ⟨l, u, iss, ent, tx, dh, cc, st⟩ := w
      cases a <;> simp only [Lock.fsmOf, Bool.not_false, Bool.not_true, if_true, if_false]
        at hown hopp <;> subst hown hopp <;>
        simp [hr, Lock.fsmOf, Lock.setFsm]
    · refine ⟨_, rfl, ?_⟩
      obtain ⟨l, u, iss, ent, tx, dh, cc, st⟩ := w
      cases a <;> simp only [Lock.fsmOf, Bool.not_false, Bool.not_true, if_true, if_false]
        at hown hopp <;> subst hown hopp <;>
        simp [hr, Lock.fsmOf, Lock.setFsm]
  · simp only [hd, if_false]
    by_cases hr : opp.current = uniStResetting
    · refine ⟨_, rfl, ?_⟩
      obtain ⟨l, u, iss, ent, tx, dh, cc, st⟩ := w
      cases a <;> simp only [Lock.fsmOf, Bool.not_false, Bool.not_true, if_true, if_false]
        at hown hopp <;> subst hown hopp <;>
        simp [hr, Lock.fsmOf, Lock.setFsm]
    · refine ⟨_, rfl, ?_⟩
      obtain ⟨l, u, iss, ent, tx, dh, cc, st⟩ := w
      cases a <;> simp only [Lock.fsmOf, Bool.not_false, Bool.not_true, if_true, if_false]
        at hown hopp <;> subst hown hopp <;>
        simp [hr, Lock.fsmOf, Lock.setFsm]

theorem run_uni_lock_resets_opposite_first_witness :
    Lock.fsmOf sampleLockWorld false = some sampleUnlockFsm ∧
    Lock.fsmOf sampleLockWorld (!false) = some sampleLockFsm ∧
    sampleLockFsm.current ≠ uniStDisabled ∧
    ∃ w2, runUniLockFsm sampleLockWorld false = some w2 ∧
      (∃ o, Lock.fsmOf w2 (!false) = some o ∧ o.current = uniStResetting) ∧
      w2.issued = sampleLockWorld.issued ++ (!false, uniEvReset) ::
        (if sampleUnlockFsm.current = uniStDisabled then [(false, uniEvStart)] else []) ∧
      (sampleLockFsm.current ≠ uniStResetting →
        w2.entered = sampleLockWorld.entered ++ (!false, uniStResetting) ::
          (if sampleUnlockFsm.current = uniStDisabled then [(false, uniStStarting)] else [])) ∧
      (sampleUnlockFsm.current = uniStDisabled →
        ∃ o, Lock.fsmOf w2 false = some o ∧ o.current = uniStStarting) :=
  ⟨rfl, rfl, by decide,
    run_uni_lock_resets_opposite_first false sampleLockWorld sampleUnlockFsm sampleLockFsm
      rfl rfl (by decide)⟩

/-! ## Flow handling -/

/-- C10 (amended): `addFlowItemToUniPort` rejects every flow whose write-metadata
is 0 as a whole, which is the only case of technology-profile id 0 it detects:
it returns the invalid-metadata error and leaves the handler, in particular the
table of VLAN-filter machines, as it was; no machine is created or started. -/
theorem add_flow_rejects_zero_metadata (dh : FlowHandler) (ctor : NewVlanFsmOutcome)
    (apFlowItem : OfpFlowStats) (apUniPort : onuUniPort)
    (h : apFlowItem.writeMetadata = 0) :
    GetTechProfileIDFromWriteMetaData apFlowItem.writeMetadata = 0 ∧
    addFlowItemToUniPort dh ctor apFlowItem apUniPort = (some FlowError.invalidMetadata, dh) := by
  refine ⟨by rw [h]; rfl, ?_⟩
  unfold addFlowItemToUniPort
  simp [h]

theorem add_flow_rejects_zero_metadata_witness :
    noMetadataFlow.writeMetadata = 0 ∧
    GetTechProfileIDFromWriteMetaData noMetadataFlow.writeMetadata = 0 ∧
    addFlowItemToUniPort sampleFlowHandler vlanFsmStarts noMetadataFlow sampleUniPort
      = (some FlowError.invalidMetadata, sampleFlowHandler) :=
  ⟨rfl, add_flow_rejects_zero_metadata sampleFlowHandler vlanFsmStarts noMetadataFlow
    sampleUniPort rfl⟩

/-- C10 (counterexample): a flow whose write-metadata is 1 carries
technology-profile id 0, yet `addFlowItemToUniPort` returns no error and a
VLAN-filter machine with technology-profile id 0 is created for the UNI and
started. -/
theorem add_flow_accepts_tp_id_zero :
    GetTechProfileIDFromWriteMetaData tpZeroFlow.writeMetadata = 0 ∧
    (addFlowItemToUniPort sampleFlowHandler vlanFsmStarts tpZeroFlow sampleUniPort).1 = none ∧
    (addFlowItemToUniPort sampleFlowHandler vlanFsmStarts tpZeroFlow
        sampleUniPort).2.UniVlanConfigFsmMap sampleUniPort.uniID
      = some ⟨0, 0x1000, 0x1000, 0, OnuDeviceEvent.OmciVlanFilterDone, true⟩ := by
  decide

theorem getFlowOfbFields_proto_ne_two (fields : List OfpOxmOfbField)
    (h : ∀ f ∈ fields, isIgmpMatch f = false) :
    ∀ acc : Nat × Nat × Nat, acc.2.2 ≠ 2 → (getFlowOfbFields fields acc).2.2 ≠ 2 := by
  induction fields with
  | nil => intro acc hacc; simpa [getFlowOfbFields] using hacc
  | cons f rest ih =>
    rintro ⟨mv, pcp, ipp⟩ hacc
    have hf := h f (by simp)
    have ih2 := ih (fun g hg => h g (by simp [hg]))
    unfold getFlowOfbFields
    cases hty : f.type <;> simp only [] <;> try exact ih2 _ hacc
    · have hne : f.IpProto ≠ 2 := by
        simpa [isIgmpMatch, hty] using hf
      rw [if_neg hne]
      exact ih2 _ hne

theorem getFlowOfbFields_proto_two (fields : List OfpOxmOfbField)
    (h : ∃ f ∈ fields, isIgmpMatch f = true) :
    ∀ acc : Nat × Nat × Nat, (getFlowOfbFields fields acc).2.2 = 2 := by
  induction fields with
  | nil => simp at h
  | cons f rest ih =>
    rintro ⟨mv, pcp, ipp⟩
    by_cases hf : isIgmpMatch f = true
    · simp only [isIgmpMatch, Bool.and_eq_true, decide_eq_true_eq] at hf
      unfold getFlowOfbFields
      simp [hf.1, hf.2]
    · have hrest : ∃ g ∈ rest, isIgmpMatch g = true := by
        obtain ⟨g, hg, hgi⟩ := h
        rcases List.mem_cons.1 hg with rfl | hg
        · exact absurd hgi hf
        · exact ⟨g, hg, hgi⟩
      have ih2 := ih hrest
      unfold getFlowOfbFields
      cases hty : f.type <;> simp only [] <;> try exact ih2 _
      · have hne : f.IpProto ≠ 2 := by
          intro h2
          exact hf (by simp [isIgmpMatch, hty, h2])
        rw [if_neg hne]
        exact ih2 _

theorem getFlowActions_no_setVlan (actions : List OfpAction)
    (h : ∀ a ∈ actions, isSetVlanAction a = false) :
    ∀ acc : Nat × Nat, (getFlowActions actions acc).2 = acc.2 := by
  induction actions with
  | nil => intro acc; rfl
  | cons a rest ih =>
    rintro ⟨pcp, vlan⟩
    have ha := h a (by simp)
    have ih2 := ih (fun b hb => h b (by simp [hb]))
    cases a with
    | OFPAT_PUSH_VLAN e => simpa [getFlowActions] using ih2 (pcp, vlan)
    | OFPAT_OTHER => simpa [getFlowActions] using ih2 (pcp, vlan)
    | OFPAT_SET_FIELD b field =>
      have hty : field.type ≠ OxmOfbFieldTypes.OFPXMT_OFB_VLAN_VID := by
        simpa [isSetVlanAction] using ha
      unfold getFlowActions
      simp only [hty, if_false]
      split
      · exact ih2 _
      · exact ih2 _

theorem getFlowActions_setVlan_nonzero (actions : List OfpAction)
    (h : ∀ b field, OfpAction.OFPAT_SET_FIELD b field ∈ actions →
      field.type = OxmOfbFieldTypes.OFPXMT_OFB_VLAN_VID → field.VlanVid % 2 ^ 16 ≠ 0) :
    ∀ acc : Nat × Nat, (acc.2 ≠ 0 ∨ ∃ a ∈ actions, isSetVlanAction a = true) →
      (getFlowActions actions acc).2 ≠ 0 := by
  induction actions with
  | nil =>
    rintro acc (hacc | ⟨a, ha, _⟩)
    · simpa [getFlowActions] using hacc
    · simp at ha
  | cons a rest ih =>
    rintro ⟨pcp, vlan⟩ hacc
    have ih2 := ih (fun b field hb hty => h b field (by simp [hb]) hty)
    have hrest : ∀ (p v : Nat), isSetVlanAction a = false →
        (v ≠ 0 ∨ ∃ a2 ∈ rest, isSetVlanAction a2 = true) ∨ (vlan = v → False) := by
      intro p v hna
      rcases hacc with hacc | ⟨a2, ha2, hs⟩
      · by_cases hv : vlan = v
        · left; left; rw [← hv]; exact hacc
        · right; exact hv
      · rcases List.mem_cons.1 ha2 with rfl | ha2
        · rw [hna] at hs; cases hs
        · left; right; exact ⟨a2, ha2, hs⟩
    cases a with
    | OFPAT_PUSH_VLAN e =>
      unfold getFlowActions
      rcases hrest pcp vlan rfl with h1 | h1
      · exact ih2 _ h1
      · exact absurd rfl h1
    | OFPAT_OTHER =>
      unfold getFlowActions
      rcases hrest pcp vlan rfl with h1 | h1
      · exact ih2 _ h1
      · exact absurd rfl h1
    | OFPAT_SET_FIELD b field =>
      unfold getFlowActions
      by_cases hty : field.type = OxmOfbFieldTypes.OFPXMT_OFB_VLAN_VID
      · simp only [hty, if_true]
        exact ih2 _ (Or.inl (h b field (by simp) hty))
      · have hna : isSetVlanAction (OfpAction.OFPAT_SET_FIELD b field) = false := by
          simp [isSetVlanAction, hty]
        simp only [hty, if_false]
        split
        · rcases hrest (field.VlanPcp % 2 ^ 8) vlan hna with h1 | h1
          · exact ih2 _ h1
          · exact absurd rfl h1
        · rcases hrest pcp vlan hna with h1 | h1
          · exact ih2 _ h1
          · exact absurd rfl h1

theorem addFlowItemToUniPort_unfold (dh : FlowHandler) (ctor : NewVlanFsmOutcome)
    (apFlowItem : OfpFlowStats) (apUniPort : onuUniPort) :
    addFlowItemToUniPort dh ctor apFlowItem apUniPort =
      if apFlowItem.writeMetadata = 0 then (some FlowError.invalidMetadata, dh)
      else if flowIPProto apFlowItem = 2 then (none, dh)
      else if flowSetVlan apFlowItem = OFPVID_NONE ∧ flowMatchVlan apFlowItem ≠ OFPVID_PRESENT then
        (some FlowError.setMatchVlanInconsistent, dh)
      else if (dh.UniVlanConfigFsmMap apUniPort.uniID).isSome then
        (some FlowError.fsmAlreadyRunning, dh)
      else
        createVlanFilterFsm dh ctor apUniPort
          (GetTechProfileIDFromWriteMetaData apFlowItem.writeMetadata)
          (flowMatchVlan apFlowItem)
          (if flowSetVlan apFlowItem = OFPVID_NONE ∧ flowMatchVlan apFlowItem = OFPVID_PRESENT
            then flowMatchVlan apFlowItem
           else if flowSetVlan apFlowItem ≠ OFPVID_PRESENT then flowSetVlan apFlowItem % 2 ^ 12
           else flowSetVlan apFlowItem)
          (getFlowActions apFlowItem.actions (0, OFPVID_NONE)).1
          OnuDeviceEvent.OmciVlanFilterDone := by
  unfold addFlowItemToUniPort flowIPProto flowSetVlan flowMatchVlan
  rfl

theorem createVlanFilterFsm_error_ne (dh : FlowHandler) (ctor : NewVlanFsmOutcome)
    (apUniPort : onuUniPort) (a b c d : Nat) (ev : OnuDeviceEvent) :
    (createVlanFilterFsm dh ctor apUniPort a b c d ev).1 ≠
      some FlowError.setMatchVlanInconsistent := by
  unfold createVlanFilterFsm
  split
  · simp
  · split
    · split
      · split
        · split <;> simp
        · simp
      · simp
    · simp

/-! ## C11: set/match inconsistency -/

/-- C11: for every flow with non-zero write-metadata and no match field with IP protocol 2,
`addFlowItemToUniPort` returns the set/match inconsistency error if and only if the target
VLAN id is 'none' (0x0000) while the matched VLAN id, after masking, differs from
'any/transparent' (0x1000); in that case the handler, with its table of VLAN-filter
machines, is unchanged, so no machine is created. The target VLAN id is 'none' whenever
the flow has no set-VLAN action, and, when every set-VLAN action carries a non-zero VLAN
id, only then. -/
theorem add_flow_set_match_inconsistency (dh : FlowHandler) (ctor : NewVlanFsmOutcome)
    (apFlowItem : OfpFlowStats) (apUniPort : onuUniPort)
    (hmeta : apFlowItem.writeMetadata ≠ 0)
    (hproto : ∀ f ∈ apFlowItem.ofbFields, isIgmpMatch f = false) :
    ((addFlowItemToUniPort dh ctor apFlowItem apUniPort).1 =
        some FlowError.setMatchVlanInconsistent ↔
      flowSetVlan apFlowItem = OFPVID_NONE ∧ flowMatchVlan apFlowItem ≠ OFPVID_PRESENT) ∧
    ((addFlowItemToUniPort dh ctor apFlowItem apUniPort).1 =
        some FlowError.setMatchVlanInconsistent →
      (addFlowItemToUniPort dh ctor apFlowItem apUniPort).2 = dh) ∧
    ((∀ a ∈ apFlowItem.actions, isSetVlanAction a = false) →
      flowSetVlan apFlowItem = OFPVID_NONE) ∧
    ((∀ b field, OfpAction.OFPAT_SET_FIELD b field ∈ apFlowItem.actions →
        field.type = OxmOfbFieldTypes.OFPXMT_OFB_VLAN_VID → field.VlanVid % 2 ^ 16 ≠ 0) →
      (flowSetVlan apFlowItem = OFPVID_NONE ↔
        ∀ a ∈ apFlowItem.actions, isSetVlanAction a = false)) := by
  have hp : flowIPProto apFlowItem ≠ 2 :=
    getFlowOfbFields_proto_ne_two apFlowItem.ofbFields hproto _ (by decide)
  have hiff : (addFlowItemToUniPort dh ctor apFlowItem apUniPort).1 =
        some FlowError.setMatchVlanInconsistent ↔
      flowSetVlan apFlowItem = OFPVID_NONE ∧ flowMatchVlan apFlowItem ≠ OFPVID_PRESENT := by
    rw [addFlowItemToUniPort_unfold]
    simp only [hmeta, hp, if_false]
    by_cases hc : flowSetVlan apFlowItem = OFPVID_NONE ∧ flowMatchVlan apFlowItem ≠ OFPVID_PRESENT
    · simp only [hc, and_self, if_true, not_false_eq_true, ne_eq]
    · rw [if_neg hc]
      constructor
      · intro h
        exfalso
        split at h
        · simp at h
        · exact createVlanFilterFsm_error_ne _ _ _ _ _ _ _ _ h
      · intro h; exact absurd h hc
  have hnone : (∀ a ∈ apFlowItem.actions, isSetVlanAction a = false) →
      flowSetVlan apFlowItem = OFPVID_NONE := by
    intro h
    unfold flowSetVlan
    rw [getFlowActions_no_setVlan _ h]
  refine ⟨hiff, ?_, hnone, ?_⟩
  · intro h
    have hc := hiff.1 h
    rw [addFlowItemToUniPort_unfold]
    simp only [hmeta, hp, if_false]
    rw [if_pos hc]
  · intro hnz
    refine ⟨?_, hnone⟩
    intro hz
    by_contra hex
    have hex2 : ∃ a ∈ apFlowItem.actions, isSetVlanAction a = true := by
      by_contra hno
      apply hex
      intro a ha
      cases hs : isSetVlanAction a
      · rfl
      · exact absurd ⟨a, ha, hs⟩ hno
    exact getFlowActions_setVlan_nonzero _ hnz _ (Or.inr hex2) hz

/-- C11 at a flow that matches VLAN 100 and has no action: the inconsistency error. -/
theorem add_flow_set_match_inconsistency_witness :
    (addFlowItemToUniPort sampleFlowHandler vlanFsmStarts matchOnlyFlow sampleUniPort).1 =
      some FlowError.setMatchVlanInconsistent :=
  (add_flow_set_match_inconsistency sampleFlowHandler vlanFsmStarts matchOnlyFlow
    sampleUniPort (by decide) (by decide)).1.2 (by decide)

/-! ## C12: IGMP trap flows are ignored -/

/-- C12: for every flow with non-zero write-metadata whose match fields contain IP
protocol 2, `addFlowItemToUniPort` returns nil and leaves the handler as it was: no
VLAN-filter machine is created and the per-UNI table is unchanged, whatever the VLAN
fields, the actions, the constructor outcome and the table are. -/
theorem add_flow_igmp_ignored (dh : FlowHandler) (ctor : NewVlanFsmOutcome)
    (apFlowItem : OfpFlowStats) (apUniPort : onuUniPort)
    (hmeta : apFlowItem.writeMetadata ≠ 0)
    (hproto : ∃ f ∈ apFlowItem.ofbFields, isIgmpMatch f = true) :
    addFlowItemToUniPort dh ctor apFlowItem apUniPort = (none, dh) := by
  have hp : flowIPProto apFlowItem = 2 :=
    getFlowOfbFields_proto_two apFlowItem.ofbFields hproto _
  rw [addFlowItemToUniPort_unfold]
  simp only [hmeta, hp, if_false, if_true]

/-- C12 at a flow with IP protocol 2 and a VLAN match. -/
theorem add_flow_igmp_ignored_witness :
    addFlowItemToUniPort sampleFlowHandler vlanFsmStarts igmpFlow sampleUniPort =
      (none, sampleFlowHandler) :=
  add_flow_igmp_ignored sampleFlowHandler vlanFsmStarts igmpFlow sampleUniPort
    (by decide) (by decide)

/-! ## C13: one VLAN-filter machine per UNI -/

/-- C13, counterexample: UNI 0 already has a VLAN-filter machine, and a flow-add with IP
protocol 2 for that UNI returns nil, not an error. -/
theorem add_flow_on_busy_uni_may_return_nil :
    busyFlowHandler.UniVlanConfigFsmMap sampleUniPort.uniID = some runningVlanFsm ∧
    (addFlowItemToUniPort busyFlowHandler vlanFsmStarts igmpFlow sampleUniPort).1 = none := by
  constructor
  · rfl
  · rw [addFlowItemToUniPort_unfold]
    decide

/-- C13, amended: a flow-add for a UNI index that already has an entry has no side
effect, whatever the flow is: the handler is unchanged (the existing entry is kept,
nothing is created or started, the other entries are as before). It returns nil exactly
when the flow has non-zero write-metadata and IP protocol 2 (the ignored IGMP trap), and
an error otherwise; a flow that passes the metadata and set/match checks gets the
already-running error. -/
theorem add_flow_on_busy_uni_no_side_effect (dh : FlowHandler) (ctor : NewVlanFsmOutcome)
    (apFlowItem : OfpFlowStats) (apUniPort : onuUniPort) (e : UniVlanConfigFsm)
    (hbusy : dh.UniVlanConfigFsmMap apUniPort.uniID = some e) :
    (addFlowItemToUniPort dh ctor apFlowItem apUniPort).2 = dh ∧
    ((addFlowItemToUniPort dh ctor apFlowItem apUniPort).1 = none ↔
      apFlowItem.writeMetadata ≠ 0 ∧ flowIPProto apFlowItem = 2) ∧
    (apFlowItem.writeMetadata ≠ 0 → flowIPProto apFlowItem ≠ 2 →
      ¬ (flowSetVlan apFlowItem = OFPVID_NONE ∧ flowMatchVlan apFlowItem ≠ OFPVID_PRESENT) →
      (addFlowItemToUniPort dh ctor apFlowItem apUniPort).1 =
        some FlowError.fsmAlreadyRunning) := by
  rw [addFlowItemToUniPort_unfold]
  simp only [hbusy, Option.isSome_some, if_true]
  by_cases hm : apFlowItem.writeMetadata = 0
  · simp [hm]
  · by_cases hp : flowIPProto apFlowItem = 2
    · simp [hm, hp]
    · by_cases hc : flowSetVlan apFlowItem = OFPVID_NONE ∧
          flowMatchVlan apFlowItem ≠ OFPVID_PRESENT
      · simp only [hm, hp, if_false, if_pos hc]
        simp [hc]
      · simp only [hm, hp, if_false, if_neg hc]
        simp

/-- C13 amended, at UNI 0 with a running machine and a tagging flow: the already-running
error, and the handler is unchanged. -/
theorem add_flow_on_busy_uni_no_side_effect_witness :
    (addFlowItemToUniPort busyFlowHandler vlanFsmStarts taggingFlow sampleUniPort).2 =
      busyFlowHandler ∧
    (addFlowItemToUniPort busyFlowHandler vlanFsmStarts taggingFlow sampleUniPort).1 =
      some FlowError.fsmAlreadyRunning :=
  ⟨(add_flow_on_busy_uni_no_side_effect busyFlowHandler vlanFsmStarts taggingFlow
      sampleUniPort runningVlanFsm rfl).1,
   (add_flow_on_busy_uni_no_side_effect busyFlowHandler vlanFsmStarts taggingFlow
      sampleUniPort runningVlanFsm rfl).2.2 (by decide) (by decide) (by decide)⟩

/-! ## C14: responses with a non-success result -/

/-- C14, counterexample: a create response with result code 1 (not `me.Success`) for the
802.1p mapper that was transmitted last is handled by the ANI-config handler without any
effect: it is not the reset event, and the same holds for a failed set response in the
lock/unlock handler and a failed create response in the MIB-download handler. -/
theorem non_success_response_issues_no_reset :
    handleOmciAniConfigMessage (some lastDot1pMapper) (createResponse 130 0x8001 1) =
      HandlerEffect.nothing ∧
    handleOmciAniConfigMessage (some lastDot1pMapper) (createResponse 130 0x8001 1) ≠
      HandlerEffect.event aniEvReset ∧
    handleOmciLockStateMessage (some lastOnuG) (setResponse 256 0 1) ≠
      HandlerEffect.event uniEvReset ∧
    handleOmciMibDownloadMessage (some lastGalEthernetProfile) (createResponse 272 1 1) ≠
      HandlerEffect.event dlEvReset := by
  decide

/-- C14, amended: a create or set response that carries a non-success result code is only
logged: for every last transmitted instance and every message whose response has a result
other than `me.Success`, the ANI-config, lock/unlock and MIB-download handlers issue no
event on their machine (so no reset event) and send nothing on the response channel. -/
theorem non_success_response_only_logged (last : Option ManagedEntity) (msg : OmciMessage)
    (msgObj : OmciResponse) (hresp : msg.response = some msgObj)
    (hres : msgObj.Result ≠ Success) :
    handleOmciAniConfigMessage last msg = HandlerEffect.nothing ∧
    handleOmciLockStateMessage last msg = HandlerEffect.nothing ∧
    handleOmciMibDownloadMessage last msg = HandlerEffect.nothing := by
  obtain ⟨ty, cl, sl⟩ := msg
  cases ty with
  | CreateResponseType =>
    cases cl with
    | missing => simp [OmciMessage.response] at hresp
    | notAssignable => simp [OmciMessage.response] at hresp
    | decoded r =>
      have hr : r = msgObj := by simpa [OmciMessage.response] using hresp
      subst hr
      simp [handleOmciAniConfigMessage, handleOmciAniConfigCreateResponseMessage,
        handleOmciLockStateMessage, handleOmciMibDownloadMessage, hres]
  | SetResponseType =>
    cases sl with
    | missing => simp [OmciMessage.response] at hresp
    | notAssignable => simp [OmciMessage.response] at hresp
    | decoded r =>
      have hr : r = msgObj := by simpa [OmciMessage.response] using hresp
      subst hr
      simp [handleOmciAniConfigMessage, handleOmciAniConfigSetResponseMessage,
        handleOmciLockStateMessage, handleOmciMibDownloadMessage, hres]
  | OtherType c => simp [OmciMessage.response] at hresp

/-- C14 amended, at a failed create response for the 802.1p mapper. -/
theorem non_success_response_only_logged_witness :
    handleOmciAniConfigMessage (some lastDot1pMapper) (createResponse 130 0x8001 1) =
      HandlerEffect.nothing ∧
    handleOmciLockStateMessage (some lastDot1pMapper) (createResponse 130 0x8001 1) =
      HandlerEffect.nothing ∧
    handleOmciMibDownloadMessage (some lastDot1pMapper) (createResponse 130 0x8001 1) =
      HandlerEffect.nothing :=
  non_success_response_only_logged (some lastDot1pMapper) (createResponse 130 0x8001 1)
    ⟨130, 0x8001, 1⟩ rfl (by decide)

/-! ## C15: correlation on class and instance -/

/-- C15: for every successful create or set response whose entity class or entity
instance differs from the class or instance of the last transmitted instance, the
ANI-config, lock/unlock and MIB-download handlers issue no event on their machine and
send nothing on the response channel. -/
theorem uncorrelated_response_has_no_effect (last : ManagedEntity) (msg : OmciMessage)
    (msgObj : OmciResponse) (hresp : msg.response = some msgObj)
    (hres : msgObj.Result = Success)
    (hdiff : msgObj.EntityClass ≠ last.ClassID ∨ msgObj.EntityInstance ≠ last.EntityID) :
    handleOmciAniConfigMessage (some last) msg = HandlerEffect.nothing ∧
    handleOmciLockStateMessage (some last) msg = HandlerEffect.nothing ∧
    handleOmciMibDownloadMessage (some last) msg = HandlerEffect.nothing := by
  have hc : correlates msgObj last = false := by
    unfold correlates
    rcases hdiff with h | h
    · simp [h]
    · simp [h]
  obtain ⟨ty, cl, sl⟩ := msg
  cases ty with
  | CreateResponseType =>
    cases cl with
    | missing => simp [OmciMessage.response] at hresp
    | notAssignable => simp [OmciMessage.response] at hresp
    | decoded r =>
      have hr : r = msgObj := by simpa [OmciMessage.response] using hresp
      subst hr
      simp [handleOmciAniConfigMessage, handleOmciAniConfigCreateResponseMessage,
        handleOmciLockStateMessage, handleOmciMibDownloadMessage, hres, hc]
  | SetResponseType =>
    cases sl with
    | missing => simp [OmciMessage.response] at hresp
    | notAssignable => simp [OmciMessage.response] at hresp
    | decoded r =>
      have hr : r = msgObj := by simpa [OmciMessage.response] using hresp
      subst hr
      simp [handleOmciAniConfigMessage, handleOmciAniConfigSetResponseMessage,
        handleOmciLockStateMessage, handleOmciMibDownloadMessage, hres, hc]
  | OtherType c => simp [OmciMessage.response] at hresp

/-- C15 at a successful create response for instance 0x8002 while instance 0x8001 of the
same class was transmitted last. -/
theorem uncorrelated_response_has_no_effect_witness :
    handleOmciAniConfigMessage (some lastDot1pMapper) (createResponse 130 0x8002 0) =
      HandlerEffect.nothing ∧
    handleOmciLockStateMessage (some lastDot1pMapper) (createResponse 130 0x8002 0) =
      HandlerEffect.nothing ∧
    handleOmciMibDownloadMessage (some lastDot1pMapper) (createResponse 130 0x8002 0) =
      HandlerEffect.nothing :=
  uncorrelated_response_has_no_effect lastDot1pMapper (createResponse 130 0x8002 0)
    ⟨130, 0x8002, 0⟩ rfl rfl (by decide)

/-! ## C16: inter-adapter handlers without a device entry -/

/-- C16: on a handler without a device entry (and no ready signal in the channel) the
OMCI-request handler returns the "no valid OnuDevice" error, but the ONU-indication
handler returns nil for the operational states "up", "down" and "unreachable":
`createInterface` (for "up") and `updateInterface` (for "down" and "unreachable",
unless the reason already is "stopping-openomci") return the "no valid OnuDevice" error,
and the handler discards it. -/
theorem onu_indication_discards_missing_entry_error (env : DhEnv) (dh : deviceHandler)
    (ind : OnuIndication) (message : List Nat)
    (hentry : dh.pOnuOmciDevice = none) (hchan : dh.deviceEntrySet = [])
    (hstate : ind.OperState = "up" ∨ ind.OperState = "down" ∨ ind.OperState = "unreachable") :
    (processInterAdapterOMCIReqMessage env dh (some message)).1 =
      some DhError.noValidOnuDevice ∧
    (processInterAdapterONUIndReqMessage env dh (some ind)).1 = none ∧
    (createInterface env dh ind).1 = some DhError.noValidOnuDevice ∧
    (dh.deviceReason ≠ "stopping-openomci" →
      (updateInterface env dh ind).1 = some DhError.noValidOnuDevice) := by
  refine ⟨?_, ?_, ?_, ?_⟩
  · simp [processInterAdapterOMCIReqMessage, getOnuDeviceEntry, hentry, hchan]
  · unfold processInterAdapterONUIndReqMessage
    rcases hstate with h | h | h
    · simp [h]
    · simp [h]
    · simp [h]
  · unfold createInterface
    by_cases hr : dh.reconciling = true
    · simp [getOnuDeviceEntry, hentry, hchan, hr]
    · simp [getOnuDeviceEntry, hentry, hchan, hr, deviceHandler.call]
  · intro hreason
    simp [updateInterface, getOnuDeviceEntry, hentry, hreason]

/-- C16 at the handler `newDeviceHandler` returns, before adoption, with an "up"
indication: the OMCI-request handler returns the error, the ONU-indication handler
returns nil although `createInterface` returned the error. -/
theorem onu_indication_discards_missing_entry_error_witness :
    (processInterAdapterOMCIReqMessage sampleDhEnv sampleDeviceHandler (some [])).1 =
      some DhError.noValidOnuDevice ∧
    (processInterAdapterONUIndReqMessage sampleDhEnv sampleDeviceHandler
      (some upIndication)).1 = none ∧
    (createInterface sampleDhEnv sampleDeviceHandler upIndication).1 =
      some DhError.noValidOnuDevice :=
  ⟨(onu_indication_discards_missing_entry_error sampleDhEnv sampleDeviceHandler
      upIndication [] rfl rfl (Or.inl rfl)).1,
   (onu_indication_discards_missing_entry_error sampleDhEnv sampleDeviceHandler
      upIndication [] rfl rfl (Or.inl rfl)).2.1,
   (onu_indication_discards_missing_entry_error sampleDhEnv sampleDeviceHandler
      upIndication [] rfl rfl (Or.inl rfl)).2.2.1⟩

theorem getOnuDeviceEntry_nowait (dh : deviceHandler) :
    getOnuDeviceEntry dh false = (dh.pOnuOmciDevice, dh) := by
  simp [getOnuDeviceEntry]

theorem addOnuDeviceEntry_some (env : DhEnv) (dh : deviceHandler) (e : OnuDeviceEntry)
    (h : dh.pOnuOmciDevice = some e) : addOnuDeviceEntry env dh = (none, dh) := by
  simp [addOnuDeviceEntry, getOnuDeviceEntry_nowait, h]

theorem addOnuDeviceEntry_none (env : DhEnv) (dh : deviceHandler)
    (h : dh.pOnuOmciDevice = none) :
    addOnuDeviceEntry env dh =
      (none,
        if dh.deviceEntrySet.length < 1 then
          { dh with entriesCreated := dh.entriesCreated + 1,
                    techProfsCreated := dh.techProfsCreated + 1,
                    pOnuOmciDevice := some (newOnuDeviceEntry env dh.deviceID dh.entriesCreated),
                    pOnuTP := some (newOnuUniTechProf dh.deviceID dh.techProfsCreated),
                    deviceEntrySet := dh.deviceEntrySet ++ [true] }
        else
          { dh with entriesCreated := dh.entriesCreated + 1,
                    techProfsCreated := dh.techProfsCreated + 1,
                    pOnuOmciDevice := some (newOnuDeviceEntry env dh.deviceID dh.entriesCreated),
                    pOnuTP := some (newOnuUniTechProf dh.deviceID dh.techProfsCreated),
                    blocked := true }) := by
  simp only [addOnuDeviceEntry, getOnuDeviceEntry_nowait, h, setOnuDeviceEntry]
  split <;> rfl

/-! ## C17: device-entry creation is idempotent -/

/-- C17: after a call of `addOnuDeviceEntry` the handler holds a device entry, and a
call on a handler that holds a device entry returns nil and leaves the handler as it
is: the stored entry and technology-profile processor are the same objects, none is
created (the creation counters are unchanged) and no ready signal is sent (the channel
is unchanged). In particular a second call after a first one changes nothing. -/
theorem add_onu_device_entry_idempotent (env : DhEnv) (dh : deviceHandler) :
    (addOnuDeviceEntry env dh).2.pOnuOmciDevice.isSome = true ∧
    addOnuDeviceEntry env (addOnuDeviceEntry env dh).2 =
      (none, (addOnuDeviceEntry env dh).2) ∧
    (∀ e, dh.pOnuOmciDevice = some e → addOnuDeviceEntry env dh = (none, dh)) := by
  have h3 : ∀ d : deviceHandler, d.pOnuOmciDevice.isSome = true →
      addOnuDeviceEntry env d = (none, d) := by
    intro d hd
    obtain ⟨e, he⟩ := Option.isSome_iff_exists.1 hd
    exact addOnuDeviceEntry_some env d e he
  have h1 : (addOnuDeviceEntry env dh).2.pOnuOmciDevice.isSome = true := by
    cases he : dh.pOnuOmciDevice with
    | some e => rw [addOnuDeviceEntry_some env dh e he]; simp [he]
    | none =>
      rw [addOnuDeviceEntry_none env dh he]
      simp only
      split <;> rfl
  exact ⟨h1, h3 _ h1, fun e he => h3 dh (by simp [he])⟩

/-- C17 at the new sample handler: the first call creates entry number 0 and sends the
ready signal, the second call returns nil and changes nothing. -/
theorem add_onu_device_entry_idempotent_witness :
    (addOnuDeviceEntry sampleDhEnv sampleDeviceHandler).2.entriesCreated = 1 ∧
    (addOnuDeviceEntry sampleDhEnv sampleDeviceHandler).2.deviceEntrySet = [true] ∧
    addOnuDeviceEntry sampleDhEnv (addOnuDeviceEntry sampleDhEnv sampleDeviceHandler).2 =
      (none, (addOnuDeviceEntry sampleDhEnv sampleDeviceHandler).2) :=
  ⟨by decide, by decide,
   (add_onu_device_entry_idempotent sampleDhEnv sampleDeviceHandler).2.1⟩

/-! ## C18: adoption is idempotent -/

theorem doStateInit_not_cancelled (env : DhEnv) (dh : deviceHandler)
    (hok : ∀ p, env.callFails (DhCall.PortCreated p) = false) :
    (doStateInit env dh).2 = false := by
  by_cases hr : dh.reconciling = true
  · simp [doStateInit, deviceHandler.call, hr]
  · simp [doStateInit, deviceHandler.call, hr, hok]

theorem deviceStateEvent_init_from_null (env : DhEnv) (dh : deviceHandler)
    (hnull : dh.pDeviceStateFsm = devStNull) (hok : (doStateInit env dh).2 = false) :
    (deviceStateEvent env dh devEvDeviceInit).1.pDeviceStateFsm = devStInit := by
  have ht : transitions deviceStateEvents devEvDeviceInit devStNull = some devStInit := by
    decide
  have hr : devFsmEvent devStNull devEvDeviceInit false = (devStInit, none) := by decide
  unfold deviceStateEvent
  simp only [hnull, ht, beforeDeviceStateEvent, hok, hr, afterDeviceStateEvent, postInit]
  have hadd : ∀ d : deviceHandler,
      (addOnuDeviceEntry env d).2.pDeviceStateFsm = d.pDeviceStateFsm ∧
      (addOnuDeviceEntry env d).1 = none := by
    intro d
    cases he : d.pOnuOmciDevice with
    | some e => rw [addOnuDeviceEntry_some env d e he]; exact ⟨rfl, rfl⟩
    | none =>
      rw [addOnuDeviceEntry_none env d he]
      refine ⟨?_, rfl⟩
      simp only
      split <;> rfl
  generalize hd : ({ (doStateInit env dh).1 with pDeviceStateFsm := devStInit } :
    deviceHandler) = d
  have hdst : d.pDeviceStateFsm = devStInit := by rw [← hd]
  have h1 := (hadd d).1
  have h2 := (hadd d).2
  rcases hres : addOnuDeviceEntry env d with ⟨err, d1⟩
  rw [hres] at h1 h2
  simp only at h1 h2
  subst h2
  simp only
  split
  · rw [h1, hdst]
  · split
    · simp [deviceHandler.call, h1, hdst]
    · rw [h1, hdst]

/-- C18: a call of `adoptOrReconcileDevice` on a handler whose lifecycle machine is not
in Null fires no event, makes no call to the core (no DeviceUpdate, no PortCreated) and
leaves the handler unchanged; so once a first call has moved the machine to Init, any
number of further calls leaves the handler as the first call left it. The first call
from Null does move the machine to Init when the core accepts the PON port. -/
theorem adopt_is_idempotent (env : DhEnv) (dh : deviceHandler) :
    (dh.pDeviceStateFsm ≠ devStNull → adoptOrReconcileDevice env dh = dh) ∧
    ((adoptOrReconcileDevice env dh).pDeviceStateFsm = devStInit →
      ∀ n : Nat, Nat.iterate (adoptOrReconcileDevice env) n (adoptOrReconcileDevice env dh) =
        adoptOrReconcileDevice env dh) ∧
    (dh.pDeviceStateFsm = devStNull →
      (∀ p, env.callFails (DhCall.PortCreated p) = false) →
      (adoptOrReconcileDevice env dh).pDeviceStateFsm = devStInit) := by
  have hfix : ∀ d : deviceHandler, d.pDeviceStateFsm ≠ devStNull →
      adoptOrReconcileDevice env d = d := by
    intro d hd
    simp [adoptOrReconcileDevice, hd]
  refine ⟨hfix dh, ?_, ?_⟩
  · intro hinit n
    have hne : (adoptOrReconcileDevice env dh).pDeviceStateFsm ≠ devStNull := by
      rw [hinit]; decide
    induction n with
    | zero => rfl
    | succ n ih =>
      rw [Function.iterate_succ_apply, hfix _ hne]
      exact ih
  · intro hnull hok
    unfold adoptOrReconcileDevice
    rw [if_pos hnull]
    apply deviceStateEvent_init_from_null
    · simpa [deviceHandler.call] using hnull
    · exact doStateInit_not_cancelled env _ hok

/-- C18 at the new sample handler: the first call reaches Init with one DeviceUpdate and
one PortCreated call, and five further calls change nothing. -/
theorem adopt_is_idempotent_witness :
    adoptedDeviceHandler.pDeviceStateFsm = devStInit ∧
    adoptedDeviceHandler.calls.length = 3 ∧
    Nat.iterate (adoptOrReconcileDevice sampleDhEnv) 5 adoptedDeviceHandler =
      adoptedDeviceHandler :=
  ⟨by decide, by decide,
   (adopt_is_idempotent sampleDhEnv sampleDeviceHandler).2.1 (by decide) 5⟩

/-! ## C19: duplicate completion events -/

theorem reasonUpdates_append (a b : List DhCall) :
    reasonUpdates (a ++ b) = reasonUpdates a + reasonUpdates b := by
  simp [reasonUpdates, List.filter_append]

theorem processOmciAniConfigDoneEvent_fix (dh : deviceHandler)
    (h : dh.deviceReason = "tech-profile-config-download-success") :
    processOmciAniConfigDoneEvent dh = dh := by
  simp [processOmciAniConfigDoneEvent, h]

theorem processOmciVlanFilterDoneEvent_fix (dh : deviceHandler)
    (h : dh.deviceReason = "omci-flows-pushed") :
    processOmciVlanFilterDoneEvent dh = dh := by
  simp [processOmciVlanFilterDoneEvent, h]

theorem iterate_fix {α : Type} (f : α → α) (x : α) (h : f x = x) (n : Nat) :
    Nat.iterate f n x = x := by
  induction n with
  | zero => rfl
  | succ n ih => rw [Function.iterate_succ_apply, h, ih]

/-- C19, counterexample: in reconciling mode two ANI-config-done events in a row, the
first of them processed with another reason, set the reason but send no
DeviceReasonUpdate at all (not exactly one). -/
theorem ani_config_done_sends_no_update_when_reconciling :
    reconcilingDeviceHandler.deviceReason ≠ "tech-profile-config-download-success" ∧
    (processOmciAniConfigDoneEvent
      (processOmciAniConfigDoneEvent reconcilingDeviceHandler)).deviceReason =
        "tech-profile-config-download-success" ∧
    reasonUpdates (processOmciAniConfigDoneEvent
      (processOmciAniConfigDoneEvent reconcilingDeviceHandler)).calls = 0 := by
  decide

/-- C19, amended: an ANI-config-done (VLAN-filter-done) event processed while the reason
already is "tech-profile-config-download-success" ("omci-flows-pushed") leaves the
handler unchanged, so no DeviceReasonUpdate is sent; and n+1 such events in a row,
starting with another reason, send exactly one DeviceReasonUpdate for VLAN-filter-done,
and for ANI-config-done exactly one when the handler is not reconciling and none when
it is. -/
theorem duplicate_done_events_send_no_update (dh : deviceHandler) (n : Nat) :
    (dh.deviceReason = "tech-profile-config-download-success" →
      processOmciAniConfigDoneEvent dh = dh) ∧
    (dh.deviceReason = "omci-flows-pushed" → processOmciVlanFilterDoneEvent dh = dh) ∧
    (dh.deviceReason ≠ "tech-profile-config-download-success" →
      reasonUpdates (Nat.iterate processOmciAniConfigDoneEvent (n + 1) dh).calls =
        reasonUpdates dh.calls + (if dh.reconciling then 0 else 1)) ∧
    (dh.deviceReason ≠ "omci-flows-pushed" →
      reasonUpdates (Nat.iterate processOmciVlanFilterDoneEvent (n + 1) dh).calls =
        reasonUpdates dh.calls + 1) := by
  refine ⟨processOmciAniConfigDoneEvent_fix dh, processOmciVlanFilterDoneEvent_fix dh, ?_, ?_⟩
  · intro h
    rw [Function.iterate_succ_apply]
    have hr : (processOmciAniConfigDoneEvent dh).deviceReason =
        "tech-profile-config-download-success" := by
      simp [processOmciAniConfigDoneEvent, h]
    rw [iterate_fix _ _ (processOmciAniConfigDoneEvent_fix _ hr)]
    by_cases hrec : dh.reconciling = true
    · simp [processOmciAniConfigDoneEvent, h, hrec]
    · simp [processOmciAniConfigDoneEvent, h, hrec, deviceHandler.call,
        reasonUpdates_append, reasonUpdates]
  · intro h
    rw [Function.iterate_succ_apply]
    have hr : (processOmciVlanFilterDoneEvent dh).deviceReason = "omci-flows-pushed" := by
      simp [processOmciVlanFilterDoneEvent, h]
    rw [iterate_fix _ _ (processOmciVlanFilterDoneEvent_fix _ hr)]
    simp [processOmciVlanFilterDoneEvent, h, deviceHandler.call, reasonUpdates_append,
      reasonUpdates]

/-- C19 amended, at the sample handler: four ANI-config-done events send one update, and
a further event leaves the handler unchanged. -/
theorem duplicate_done_events_send_no_update_witness :
    reasonUpdates (Nat.iterate processOmciAniConfigDoneEvent 4 sampleDeviceHandler).calls =
      1 ∧
    processOmciAniConfigDoneEvent (processOmciAniConfigDoneEvent sampleDeviceHandler) =
      processOmciAniConfigDoneEvent sampleDeviceHandler :=
  ⟨(duplicate_done_events_send_no_update sampleDeviceHandler 3).2.2.1 (by decide),
   (duplicate_done_events_send_no_update
      (processOmciAniConfigDoneEvent sampleDeviceHandler) 0).1 (by decide)⟩

/-! ## C20: UNI ports created after MIB synchronisation -/

theorem lookup_none_of_not_mem {β : Type} (k : Nat) (l : List (Nat × β))
    (h : k ∉ l.map Prod.fst) : l.lookup k = none := by
  induction l with
  | nil => rfl
  | cons a rest ih =>
    have h1 : k ≠ a.1 := fun e => h (by simp [e])
    have h2 : k ∉ rest.map Prod.fst := fun e => h (by simp at e ⊢; exact Or.inr e)
    obtain ⟨a1, a2⟩ := a
    have hb : (k == a1) = false := by simpa using h1
    simp only [List.lookup, hb]
    exact ih h2

theorem withPorts_withPorts (dh : deviceHandler) (l1 l2 : List (Nat × onuUniPortEntry))
    (c1 c2 : List DhCall) :
    withPorts (withPorts dh l1 c1) l2 c2 = withPorts dh (l1 ++ l2) (c1 ++ c2) := by
  simp [withPorts, List.append_assoc]

theorem withPorts_nil (dh : deviceHandler) : withPorts dh [] [] = dh := by
  simp [withPorts]

theorem addUniPort_fresh (env : DhEnv) (dh : deviceHandler) (aUniInstNo aUniID aPortType : Nat)
    (hok : dh.reconciling = false → ∀ p, env.callFails (DhCall.PortCreated p) = false)
    (hnew : dh.uniEntityMap.lookup (uniPortNo env dh aUniID) = none) :
    ∃ P cs, addUniPort env dh aUniInstNo aUniID aPortType =
        withPorts dh [(uniPortNo env dh aUniID, P)] cs ∧
      portView (uniPortNo env dh aUniID, P) =
        (uniPortNo env dh aUniID, aUniID, aPortType, aUniInstNo) := by
  have hunf : addUniPort env dh aUniInstNo aUniID aPortType =
      if (dh.uniEntityMap.lookup (uniPortNo env dh aUniID)).isSome then dh
      else if ¬ dh.reconciling then
        { (createVolthaPort env dh
            (newOnuUniPort aUniID (uniPortNo env dh aUniID) aUniInstNo aPortType)).2.1 with
          uniEntityMap := (createVolthaPort env dh
              (newOnuUniPort aUniID (uniPortNo env dh aUniID) aUniInstNo aPortType)).2.1.uniEntityMap ++
            [(uniPortNo env dh aUniID, (createVolthaPort env dh
              (newOnuUniPort aUniID (uniPortNo env dh aUniID) aUniInstNo aPortType)).2.2)] }
      else
        { dh with uniEntityMap := dh.uniEntityMap ++
            [(uniPortNo env dh aUniID,
              newOnuUniPort aUniID (uniPortNo env dh aUniID) aUniInstNo aPortType)] } := rfl
  rw [hunf, hnew]
  simp only [Option.isSome_none, Bool.false_eq_true, if_false]
  by_cases hr : dh.reconciling = true
  · refine ⟨newOnuUniPort aUniID (uniPortNo env dh aUniID) aUniInstNo aPortType, [], ?_, rfl⟩
    simp [hr, withPorts]
  · have hr2 : dh.reconciling = false := by simpa using hr
    refine ⟨{ newOnuUniPort aUniID (uniPortNo env dh aUniID) aUniInstNo aPortType with
        pPort := some (uniVolthaPort dh
          (newOnuUniPort aUniID (uniPortNo env dh aUniID) aUniInstNo aPortType)),
        operState := OperStatus_Types.DISCOVERED },
      [DhCall.PortCreated (uniVolthaPort dh
          (newOnuUniPort aUniID (uniPortNo env dh aUniID) aUniInstNo aPortType))], ?_, rfl⟩
    simp [hr2, createVolthaPort, hok hr2, withPorts, deviceHandler.call]

theorem enumFrom_map_index {α : Type} (f : Nat → α) (keys : List Nat) (i : Nat) :
    (keys.enumFrom i).map (fun p => f p.1) = (List.range' i keys.length).map f := by
  induction keys generalizing i with
  | nil => simp
  | cons a rest ih => simp [List.enumFrom_cons, List.range'_succ, ih]

theorem expectedPorts_portNos (env : DhEnv) (dh : deviceHandler) (aPortType i : Nat)
    (keys : List Nat) :
    (expectedPorts env dh aPortType i keys).map (fun v => v.1) =
      (List.range' i keys.length).map (uniPortNo env dh) := by
  unfold expectedPorts
  rw [List.map_map]
  exact enumFrom_map_index (uniPortNo env dh) keys i

theorem expectedPorts_getElem (env : DhEnv) (dh : deviceHandler) (aPortType i : Nat)
    (keys : List Nat) (k id : Nat) (h : keys[k]? = some id) :
    (expectedPorts env dh aPortType i keys)[k]? =
      some (uniPortNo env dh (i + k), i + k, aPortType, id) := by
  unfold expectedPorts
  rw [List.getElem?_map, List.getElem?_enumFrom, h]
  rfl

theorem expectedPorts_congr (env : DhEnv) (d1 d2 : deviceHandler) (aPortType i : Nat)
    (keys : List Nat) (h : uniPortNo env d1 = uniPortNo env d2) :
    expectedPorts env d1 aPortType i keys = expectedPorts env d2 aPortType i keys := by
  unfold expectedPorts
  rw [h]

theorem expectedPorts_length (env : DhEnv) (dh : deviceHandler) (aPortType i : Nat)
    (keys : List Nat) : (expectedPorts env dh aPortType i keys).length = keys.length := by
  simp [expectedPorts, List.enumFrom_length]

theorem addUniPorts_spec (env : DhEnv) (aPortType : Nat) (keys : List Nat) :
    ∀ (dh : deviceHandler) (i : Nat), dh.fatal = false →
      (dh.reconciling = false → ∀ p, env.callFails (DhCall.PortCreated p) = false) →
      dh.uniEntityMap.map Prod.fst = (List.range' 0 i).map (uniPortNo env dh) →
      i + keys.length ≤ 255 →
      (∀ a b, a < 256 → b < 256 → uniPortNo env dh a = uniPortNo env dh b → a = b) →
      ∃ L cs, addUniPorts env aPortType keys (dh, i) = (withPorts dh L cs, i + keys.length) ∧
        L.map portView = expectedPorts env dh aPortType i keys ∧
        L.map Prod.fst = (List.range' i keys.length).map (uniPortNo env dh) := by
  induction keys with
  | nil =>
    intro dh i _ _ _ _ _
    exact ⟨[], [], by simp [addUniPorts, withPorts_nil], by simp [expectedPorts], by simp⟩
  | cons id rest ih =>
    intro dh i hfatal hok hkeys hlen hinj
    simp only [List.length_cons] at hlen
    have hnew : dh.uniEntityMap.lookup (uniPortNo env dh i) = none := by
      apply lookup_none_of_not_mem
      rw [hkeys]
      intro hmem
      obtain ⟨j, hj, hje⟩ := List.mem_map.1 hmem
      have hjlt : j < 0 + i := (List.mem_range'_1.1 hj).2
      have := hinj j i (by omega) (by omega) hje
      omega
    obtain ⟨P, cs, hadd, hview⟩ := addUniPort_fresh env dh id i aPortType hok hnew
    have hstep : addUniPorts env aPortType (id :: rest) (dh, i) =
        addUniPorts env aPortType rest (withPorts dh [(uniPortNo env dh i, P)] cs, i + 1) := by
      have hmod : (i + 1) % 2 ^ 8 = i + 1 := Nat.mod_eq_of_lt (by omega)
      simp only [addUniPorts, hfatal, Bool.false_eq_true, if_false, hadd, hmod]
    have hu : uniPortNo env (withPorts dh [(uniPortNo env dh i, P)] cs) =
        uniPortNo env dh := rfl
    have hkeys2 : (withPorts dh [(uniPortNo env dh i, P)] cs).uniEntityMap.map Prod.fst =
        (List.range' 0 (i + 1)).map
          (uniPortNo env (withPorts dh [(uniPortNo env dh i, P)] cs)) := by
      rw [hu]
      have hr : List.range' 0 (i + 1) = List.range' 0 i ++ [i] := by
        rw [List.range'_concat]; simp
      simp [withPorts, hkeys, hr]
    obtain ⟨L, cs2, hrest, hview2, hfst2⟩ :=
      ih (withPorts dh [(uniPortNo env dh i, P)] cs) (i + 1) hfatal hok hkeys2 (by omega)
        (by rw [hu]; exact hinj)
    refine ⟨(uniPortNo env dh i, P) :: L, cs ++ cs2, ?_, ?_, ?_⟩
    · rw [hstep, hrest, withPorts_withPorts]
      simp only [List.singleton_append, List.length_cons]
      congr 1
      omega
    · simp only [List.map_cons, hview, hview2, expectedPorts, List.enumFrom_cons]
      rfl
    · simp only [List.map_cons, hfst2, hu, List.length_cons, List.range'_succ]

theorem mibDownloadEvent_frame (env : DhEnv) (dh : deviceHandler) (e : DlEvent) :
    (mibDownloadEvent env dh e).1.uniEntityMap = dh.uniEntityMap ∧
    (mibDownloadEvent env dh e).1.deviceReason = dh.deviceReason ∧
    (mibDownloadEvent env dh e).1.fatal = dh.fatal := by
  unfold mibDownloadEvent
  simp only [deviceHandler.call]
  split
  · exact ⟨rfl, rfl, rfl⟩
  · split
    · exact ⟨rfl, rfl, rfl⟩
    · split
      · exact ⟨rfl, rfl, rfl⟩
      · exact ⟨rfl, rfl, rfl⟩

theorem startMibDownload_frame (env : DhEnv) (d : deviceHandler) (pDevEntry : OnuDeviceEntry) :
    (match pDevEntry.pMibDownloadFsm with
      | some st =>
        if st = DlState.dlStDisabled then
          match mibDownloadEvent env d dlEvStart with
          | (dh5, true) => dh5
          | (dh5, false) => (mibDownloadEvent env dh5 dlEvCreateGal).1
        else d
      | none => d).uniEntityMap = d.uniEntityMap ∧
    (match pDevEntry.pMibDownloadFsm with
      | some st =>
        if st = DlState.dlStDisabled then
          match mibDownloadEvent env d dlEvStart with
          | (dh5, true) => dh5
          | (dh5, false) => (mibDownloadEvent env dh5 dlEvCreateGal).1
        else d
      | none => d).deviceReason = d.deviceReason ∧
    (match pDevEntry.pMibDownloadFsm with
      | some st =>
        if st = DlState.dlStDisabled then
          match mibDownloadEvent env d dlEvStart with
          | (dh5, true) => dh5
          | (dh5, false) => (mibDownloadEvent env dh5 dlEvCreateGal).1
        else d
      | none => d).fatal = d.fatal := by
  cases pDevEntry.pMibDownloadFsm with
  | none => exact ⟨rfl, rfl, rfl⟩
  | some st =>
    simp only
    split
    · have h1 := mibDownloadEvent_frame env d dlEvStart
      rcases hres : mibDownloadEvent env d dlEvStart with ⟨d5, b⟩
      rw [hres] at h1
      simp only at h1
      cases b with
      | true => exact h1
      | false =>
        have h2 := mibDownloadEvent_frame env d5 dlEvCreateGal
        simp only
        exact ⟨h2.1.trans h1.1, h2.2.1.trans h1.2.1, h2.2.2.trans h1.2.2⟩
    · exact ⟨rfl, rfl, rfl⟩

theorem processMibDatabaseSyncEvent_table (env : DhEnv) (dh : deviceHandler)
    (pDevEntry : OnuDeviceEntry)
    (hempty : dh.uniEntityMap = []) (hentry : dh.pOnuOmciDevice = some pDevEntry)
    (hfatal : dh.fatal = false)
    (hok : dh.reconciling = false → ∀ p, env.callFails (DhCall.PortCreated p) = false)
    (hlen : env.unigInstKeys.length + env.veipInstKeys.length ≤ 255)
    (hinj : ∀ a b, a < 256 → b < 256 → uniPortNo env dh a = uniPortNo env dh b → a = b) :
    uniTable (processMibDatabaseSyncEvent env dh) =
      expectedPorts env dh uniPPTP 0 env.unigInstKeys ++
      expectedPorts env dh uniVEIP env.unigInstKeys.length env.veipInstKeys ∧
    (processMibDatabaseSyncEvent env dh).uniEntityMap.map Prod.fst =
      (uniTable (processMibDatabaseSyncEvent env dh)).map (fun v => v.1) ∧
    (processMibDatabaseSyncEvent env dh).deviceReason = "discovery-mibsync-complete" ∧
    (processMibDatabaseSyncEvent env dh).fatal = false := by
  have hunf : processMibDatabaseSyncEvent env dh =
      (fun d0 : deviceHandler =>
        match (getOnuDeviceEntry d0 false).1 with
        | none => { d0 with panicked := true }
        | some pDevEntry =>
          if (addUniPorts env uniVEIP env.veipInstKeys
              (addUniPorts env uniPPTP env.unigInstKeys (d0, 0))).1.fatal then
            (addUniPorts env uniVEIP env.veipInstKeys
              (addUniPorts env uniPPTP env.unigInstKeys (d0, 0))).1
          else
            match pDevEntry.pMibDownloadFsm with
            | some st =>
              if st = DlState.dlStDisabled then
                match mibDownloadEvent env (addUniPorts env uniVEIP env.veipInstKeys
                  (addUniPorts env uniPPTP env.unigInstKeys (d0, 0))).1 dlEvStart with
                | (dh5, true) => dh5
                | (dh5, false) => (mibDownloadEvent env dh5 dlEvCreateGal).1
              else (addUniPorts env uniVEIP env.veipInstKeys
                (addUniPorts env uniPPTP env.unigInstKeys (d0, 0))).1
            | none => (addUniPorts env uniVEIP env.veipInstKeys
                (addUniPorts env uniPPTP env.unigInstKeys (d0, 0))).1)
      ({ (if ¬ dh.reconciling = true then
            dh.call (DhCall.DeviceReasonUpdate "discovery-mibsync-complete") else dh) with
          deviceReason := "discovery-mibsync-complete" } : deviceHandler) := rfl
  rw [hunf]
  generalize hd0 : ({ (if ¬ dh.reconciling = true then
      dh.call (DhCall.DeviceReasonUpdate "discovery-mibsync-complete") else dh) with
      deviceReason := "discovery-mibsync-complete" } : deviceHandler) = d0
  have hd0map : d0.uniEntityMap = [] := by
    rw [← hd0]; split <;> simpa [deviceHandler.call] using hempty
  have hd0fatal : d0.fatal = false := by
    rw [← hd0]; split <;> simpa [deviceHandler.call] using hfatal
  have hd0entry : d0.pOnuOmciDevice = some pDevEntry := by
    rw [← hd0]; split <;> simpa [deviceHandler.call] using hentry
  have hd0rec : d0.reconciling = dh.reconciling := by
    rw [← hd0]; split <;> rfl
  have hd0reason : d0.deviceReason = "discovery-mibsync-complete" := by
    rw [← hd0]
  have hd0no : uniPortNo env d0 = uniPortNo env dh := by
    rw [← hd0]; split <;> rfl
  have hok0 : d0.reconciling = false → ∀ p, env.callFails (DhCall.PortCreated p) = false := by
    rw [hd0rec]; exact hok
  have hinj0 : ∀ a b, a < 256 → b < 256 → uniPortNo env d0 a = uniPortNo env d0 b → a = b := by
    rw [hd0no]; exact hinj
  obtain ⟨L1, cs1, h1, hv1, hk1⟩ :=
    addUniPorts_spec env uniPPTP env.unigInstKeys d0 0 hd0fatal hok0
      (by simp [hd0map]) (by omega) hinj0
  have hu1 : uniPortNo env (withPorts d0 L1 cs1) = uniPortNo env d0 := rfl
  obtain ⟨L2, cs2, h2, hv2, hk2⟩ :=
    addUniPorts_spec env uniVEIP env.veipInstKeys (withPorts d0 L1 cs1)
      env.unigInstKeys.length hd0fatal hok0
      (by rw [hu1]; simp [withPorts, hd0map, hk1]) (by omega) (by rw [hu1]; exact hinj0)
  simp only [Nat.zero_add] at h1
  have hall : (addUniPorts env uniVEIP env.veipInstKeys
      (addUniPorts env uniPPTP env.unigInstKeys (d0, 0))).1 =
      withPorts d0 (L1 ++ L2) (cs1 ++ cs2) := by
    rw [h1, h2, withPorts_withPorts]
  simp only [getOnuDeviceEntry_nowait, hd0entry, hall]
  have hwfatal : (withPorts d0 (L1 ++ L2) (cs1 ++ cs2)).fatal = false := hd0fatal
  simp only [hwfatal, Bool.false_eq_true, if_false]
  obtain ⟨f1, f2, f3⟩ := startMibDownload_frame env (withPorts d0 (L1 ++ L2) (cs1 ++ cs2))
    pDevEntry
  have hmap : (withPorts d0 (L1 ++ L2) (cs1 ++ cs2)).uniEntityMap = L1 ++ L2 := by
    simp [withPorts, hd0map]
  refine ⟨?_, ?_, ?_, ?_⟩
  · unfold uniTable
    rw [f1, hmap, List.map_append, hv1, hv2,
      expectedPorts_congr env (withPorts d0 L1 cs1) dh _ _ _ (hu1.trans hd0no),
      expectedPorts_congr env d0 dh _ _ _ hd0no]
  · unfold uniTable
    rw [f1, hmap, List.map_append, List.map_append, List.map_append, hv1, hv2, hk1, hk2,
      expectedPorts_portNos, expectedPorts_portNos, hu1]
  · rw [f2]; exact hd0reason
  · rw [f3]; exact hwfatal

/-- C20: after `processMibDatabaseSyncEvent` on a handler with an empty UNI table and a
device entry, for a mirror with u UNI-G and v VEIP instance keys (u+v at most 255), a
port-number function that is injective in the local UNI index, and a core that accepts
the created ports: the UNI table has exactly u+v ports, stored under their port numbers,
which are pairwise distinct; the k-th UNI-G key (counted from 0, in the order of
`getSortedInstKeys`) gets local index k and type PPTP, the j-th VEIP key gets local index
u+j and type VEIP, each port has the instance key as entity id and the port number of its
local index, and the reason is "discovery-mibsync-complete". -/
theorem mib_sync_creates_uni_ports (env : DhEnv) (dh : deviceHandler)
    (pDevEntry : OnuDeviceEntry)
    (hempty : dh.uniEntityMap = []) (hentry : dh.pOnuOmciDevice = some pDevEntry)
    (hfatal : dh.fatal = false)
    (hok : dh.reconciling = false → ∀ p, env.callFails (DhCall.PortCreated p) = false)
    (hlen : env.unigInstKeys.length + env.veipInstKeys.length ≤ 255)
    (hinj : ∀ a b, a < 256 → b < 256 → uniPortNo env dh a = uniPortNo env dh b → a = b) :
    (processMibDatabaseSyncEvent env dh).uniEntityMap.length =
      env.unigInstKeys.length + env.veipInstKeys.length ∧
    (processMibDatabaseSyncEvent env dh).uniEntityMap.map Prod.fst =
      (uniTable (processMibDatabaseSyncEvent env dh)).map (fun v => v.1) ∧
    ((uniTable (processMibDatabaseSyncEvent env dh)).map (fun v => v.1)).Nodup ∧
    (∀ k id, env.unigInstKeys[k]? = some id →
      (uniTable (processMibDatabaseSyncEvent env dh))[k]? =
        some (uniPortNo env dh k, k, uniPPTP, id)) ∧
    (∀ j id, env.veipInstKeys[j]? = some id →
      (uniTable (processMibDatabaseSyncEvent env dh))[env.unigInstKeys.length + j]? =
        some (uniPortNo env dh (env.unigInstKeys.length + j),
          env.unigInstKeys.length + j, uniVEIP, id)) ∧
    (processMibDatabaseSyncEvent env dh).deviceReason = "discovery-mibsync-complete" ∧
    (processMibDatabaseSyncEvent env dh).fatal = false := by
  obtain ⟨htab, hkey, hreason, hfat⟩ :=
    processMibDatabaseSyncEvent_table env dh pDevEntry hempty hentry hfatal hok hlen hinj
  refine ⟨?_, hkey, ?_, ?_, ?_, hreason, hfat⟩
  · have hl : (uniTable (processMibDatabaseSyncEvent env dh)).length =
        env.unigInstKeys.length + env.veipInstKeys.length := by
      rw [htab, List.length_append, expectedPorts_length, expectedPorts_length]
    simpa [uniTable] using hl
  · rw [htab, List.map_append, expectedPorts_portNos, expectedPorts_portNos,
      ← List.map_append]
    have hr : List.range' 0 env.unigInstKeys.length ++
        List.range' env.unigInstKeys.length env.veipInstKeys.length =
        List.range' 0 (env.veipInstKeys.length + env.unigInstKeys.length) := by
      have := List.range'_append 0 env.unigInstKeys.length env.veipInstKeys.length 1
      simpa using this
    rw [hr]
    apply List.Nodup.map_on
    · intro a ha b hb hab
      have ha2 := (List.mem_range'_1.1 ha).2
      have hb2 := (List.mem_range'_1.1 hb).2
      exact hinj a b (by omega) (by omega) hab
    · exact List.nodup_range' 0 _
  · intro k id hk
    have hklt : k < env.unigInstKeys.length := by
      rcases Nat.lt_or_ge k env.unigInstKeys.length with h | h
      · exact h
      · rw [List.getElem?_eq_none h] at hk; cases hk
    rw [htab, List.getElem?_append_left (by rw [expectedPorts_length]; exact hklt),
      expectedPorts_getElem env dh uniPPTP 0 env.unigInstKeys k id hk]
    simp
  · intro j id hj
    rw [htab, List.getElem?_append_right (by rw [expectedPorts_length]; omega),
      expectedPorts_length, Nat.add_sub_cancel_left,
      expectedPorts_getElem env dh uniVEIP env.unigInstKeys.length env.veipInstKeys j id hj]

/-- C20 at the adopted sample handler with an "up" indication from interface 0, ONU 1,
and a mirror with the UNI-G instances 0x101, 0x102 and the VEIP instance 0x401: three
ports, the third with local index 2, type VEIP and entity id 0x401. -/
theorem mib_sync_creates_uni_ports_witness :
    (processMibDatabaseSyncEvent sampleDhEnv indicatedDeviceHandler).uniEntityMap.length =
      sampleDhEnv.unigInstKeys.length + sampleDhEnv.veipInstKeys.length ∧
    (uniTable (processMibDatabaseSyncEvent sampleDhEnv indicatedDeviceHandler))[2]? =
      some (18, 2, uniVEIP, 0x401) :=
  ⟨(mib_sync_creates_uni_ports sampleDhEnv indicatedDeviceHandler
      (newOnuDeviceEntry sampleDhEnv "onu-1" 0) (by decide) (by decide) (by decide)
      (fun _ _ => rfl) (by decide)
      (fun a b _ _ h => Nat.add_left_cancel h)).1,
   (mib_sync_creates_uni_ports sampleDhEnv indicatedDeviceHandler
      (newOnuDeviceEntry sampleDhEnv "onu-1" 0) (by decide) (by decide) (by decide)
      (fun _ _ => rfl) (by decide)
      (fun a b _ _ h => Nat.add_left_cancel h)).2.2.2.2.1 0 0x401 rfl⟩

/-! ## C21: reconciliation of the technology profiles -/

/-- C21: with a technology-profile processor present, `reconcileDeviceTechProf` starts
`configureUniTp` for the first entry of the persisted list only (with its UNI id as
`uint8` and its path) and returns from inside the loop, leaving the handler, with its
reconciling flag, as it was; the entries after the first are not configured. Only for
an empty list does it reach the end, where it unlocks the mutex and clears the
reconciling flag. -/
theorem reconcile_configures_first_entry_only (dh : deviceHandler) (tp : onuUniTechProf)
    (uniData : uniPersData) (rest : List uniPersData) (htp : dh.pOnuTP = some tp) :
    configuredTps (reconcileDeviceTechProf dh (uniData :: rest)).2 =
      [(uniData.PersUniID % 2 ^ 8, uniData.PersTpPath)] ∧
    (reconcileDeviceTechProf dh (uniData :: rest)).1 = dh ∧
    (reconcileDeviceTechProf dh (uniData :: rest)).2 =
      [TpCall.lockTpProcMutex, TpCall.resetProcessingErrorIndication,
        TpCall.configureUniTp (uniData.PersUniID % 2 ^ 8) uniData.PersTpPath,
        TpCall.waitForTpCompletion] ∧
    reconcileDeviceTechProf dh [] =
      ({ dh with reconciling := false }, [TpCall.lockTpProcMutex, TpCall.unlockTpProcMutex]) := by
  simp [reconcileDeviceTechProf, reconcileLoop, htp, configuredTps]

/-- C21 at a reconciling handler with two persisted UNIs: one configuration is started,
for UNI 0, none for UNI 1, and the handler is still reconciling. -/
theorem reconcile_configures_first_entry_only_witness :
    configuredTps (reconcileDeviceTechProf reconcilingHandlerWithTp twoPersistedUnis).2 =
      [(0 % 2 ^ 8, "service/voltha/technology_profiles/EPON/64")] ∧
    (reconcileDeviceTechProf reconcilingHandlerWithTp twoPersistedUnis).1 =
      reconcilingHandlerWithTp :=
  ⟨(reconcile_configures_first_entry_only reconcilingHandlerWithTp
      (newOnuUniTechProf "onu-1" 0) ⟨0, "service/voltha/technology_profiles/EPON/64"⟩
      [⟨1, "service/voltha/technology_profiles/EPON/65"⟩] rfl).1,
   (reconcile_configures_first_entry_only reconcilingHandlerWithTp
      (newOnuUniTechProf "onu-1" 0) ⟨0, "service/voltha/technology_profiles/EPON/64"⟩
      [⟨1, "service/voltha/technology_profiles/EPON/65"⟩] rfl).2.1⟩

/-! ## C22: lookup in the ONU status list -/

/-- C22: `GetOnuFromDeviceID` returns the first entry of the list whose ID differs from
the given id (the loop tests `sts.ID != id`), while `GetOnuFromMacAddr` returns the first
entry whose MAC address equals the given one: for every list and id, a returned entry
has an ID other than the id and every entry before it has the id, and nil is returned
exactly when every entry of the list has the id. -/
theorem get_onu_from_device_id_returns_other_id (list : List OnuStatus) (id : String) :
    (∀ sts, GetOnuFromDeviceID (Except.ok (some list)) id = Except.ok (some sts) →
      sts.ID ≠ id ∧ sts ∈ list) ∧
    (GetOnuFromDeviceID (Except.ok (some list)) id = Except.ok none ↔
      ∀ sts ∈ list, sts.ID = id) ∧
    (∀ sts addr, GetOnuFromMacAddr (Except.ok (some list)) addr = Except.ok (some sts) →
      sts.MacAddress = addr ∧ sts ∈ list) := by
  refine ⟨?_, ?_, ?_⟩
  · intro sts h
    have h2 : findOnuFromDeviceID id list = some sts := by
      simpa [GetOnuFromDeviceID] using h
    clear h
    induction list with
    | nil => simp [findOnuFromDeviceID] at h2
    | cons a rest ih =>
      unfold findOnuFromDeviceID at h2
      by_cases ha : a.ID = id
      · simp only [ha, ne_eq, not_true_eq_false, if_false] at h2
        obtain ⟨h3, h4⟩ := ih h2
        exact ⟨h3, List.mem_cons_of_mem _ h4⟩
      · simp only [ne_eq, ha, not_false_eq_true, if_true, Option.some.injEq] at h2
        subst h2
        exact ⟨ha, List.mem_cons_self _ _⟩
  · have h2 : GetOnuFromDeviceID (Except.ok (some list)) id = Except.ok none ↔
        findOnuFromDeviceID id list = none := by
      simp [GetOnuFromDeviceID]
    rw [h2]
    clear h2
    induction list with
    | nil => simp [findOnuFromDeviceID]
    | cons a rest ih =>
      unfold findOnuFromDeviceID
      by_cases ha : a.ID = id
      · simp [ha, ih]
      · simp [ha]
  · intro sts addr h
    have h2 : findOnuFromMacAddr addr list = some sts := by
      simpa [GetOnuFromMacAddr] using h
    clear h
    induction list with
    | nil => simp [findOnuFromMacAddr] at h2
    | cons a rest ih =>
      unfold findOnuFromMacAddr at h2
      by_cases ha : a.MacAddress = addr
      · simp only [ha, if_true, Option.some.injEq] at h2
        subst h2
        exact ⟨ha, List.mem_cons_self _ _⟩
      · simp only [ha, if_false] at h2
        obtain ⟨h3, h4⟩ := ih h2
        exact ⟨h3, List.mem_cons_of_mem _ h4⟩

/-- C22 at a list with the ONUs "onu-1" and "onu-2": the lookup of "onu-2" returns the
entry of "onu-1", and the lookup of "onu-1" in the list of "onu-1" alone returns nil. -/
theorem get_onu_from_device_id_returns_other_id_witness :
    GetOnuFromDeviceID (Except.ok (some [onuStatusA, onuStatusB])) "onu-2" =
      Except.ok (some onuStatusA) ∧
    onuStatusA.ID ≠ "onu-2" ∧
    GetOnuFromDeviceID (Except.ok (some [onuStatusA])) "onu-1" = Except.ok none :=
  ⟨congrArg Except.ok (by decide),
   ((get_onu_from_device_id_returns_other_id [onuStatusA, onuStatusB] "onu-2").1
      onuStatusA (congrArg Except.ok (by decide))).1,
   (get_onu_from_device_id_returns_other_id [onuStatusA] "onu-1").2.1.2 (by decide)⟩

/-! ## C24: placeholder handlers of the lifecycle machine -/

theorem addOnuDeviceEntry_state (env : DhEnv) (d : deviceHandler) :
    (addOnuDeviceEntry env d).1 = none ∧
    (addOnuDeviceEntry env d).2.pDeviceStateFsm = d.pDeviceStateFsm := by
  cases he : d.pOnuOmciDevice with
  | some e => rw [addOnuDeviceEntry_some env d e he]; exact ⟨rfl, rfl⟩
  | none =>
    rw [addOnuDeviceEntry_none env d he]
    refine ⟨rfl, ?_⟩
    simp only
    split <;> rfl

theorem postInit_state (env : DhEnv) (d : deviceHandler) :
    (postInit env d).pDeviceStateFsm = d.pDeviceStateFsm := by
  have h := addOnuDeviceEntry_state env d
  unfold postInit
  rcases hres : addOnuDeviceEntry env d with ⟨err, d1⟩
  rw [hres] at h
  obtain ⟨h1, h2⟩ := h
  simp only at h1 h2
  subst h1
  simp only
  split
  · exact h2
  · split
    · simpa [deviceHandler.call] using h2
    · exact h2

theorem deviceStateEvent_state (env : DhEnv) (dh : deviceHandler) (ev : DevEvent) :
    (deviceStateEvent env dh ev).1.pDeviceStateFsm =
      (devFsmEvent dh.pDeviceStateFsm ev (beforeDeviceStateEvent env dh ev).2).1 := by
  unfold deviceStateEvent
  cases ht : transitions deviceStateEvents ev dh.pDeviceStateFsm with
  | none =>
    simp only [devFsmEvent, fsmEvent, ht]
    split <;> rfl
  | some dst =>
    simp only
    cases hr : (devFsmEvent dh.pDeviceStateFsm ev (beforeDeviceStateEvent env dh ev).2).2 with
    | some err => rfl
    | none =>
      simp only
      cases ev <;> simp only [afterDeviceStateEvent, postInit_state]

theorem devFsmEvent_null_init (s : DevState) (ev : DevEvent) (c : Bool)
    (hs : s = devStNull ∨ s = devStInit)
    (hc : ev = devEvGrpcConnected ∨ ev = devEvDeviceUpInd ∨ ev = devEvDeviceDownInd → c = true) :
    (devFsmEvent s ev c).1 = devStNull ∨ (devFsmEvent s ev c).1 = devStInit := by
  rcases hs with rfl | rfl <;> cases ev <;> cases c <;> simp at hc <;> decide

/-- C24: the handlers of transport-connected, device-up and device-down always cancel:
for every handler state, an `Event` call with devEvGrpcConnected, devEvDeviceUpInd or
devEvDeviceDownInd returns an error (the cancel error where the table has a transition,
the invalid-event error elsewhere) and leaves the handler, with its lifecycle state,
unchanged; consequently every sequence of events from Null ends in Null or Init. -/
theorem placeholder_handlers_cancel (env : DhEnv) (dh : deviceHandler) :
    (∀ ev, ev = devEvGrpcConnected ∨ ev = devEvDeviceUpInd ∨ ev = devEvDeviceDownInd →
      (deviceStateEvent env dh ev).1 = dh ∧
      (deviceStateEvent env dh ev).2 ≠ none ∧
      ((transitions deviceStateEvents ev dh.pDeviceStateFsm).isSome = true →
        (deviceStateEvent env dh ev).2 = some FsmError.CanceledError)) ∧
    (∀ evs, dh.pDeviceStateFsm = devStNull →
      (deviceStateRun env dh evs).pDeviceStateFsm = devStNull ∨
      (deviceStateRun env dh evs).pDeviceStateFsm = devStInit) := by
  constructor
  · intro ev hev
    obtain ⟨d, dv, ld, pa, pt, pid, ppn, st, ch, od, tp, ind, rs, lf, uf, um, vm, rc, cl,
      ec, tc, ft, bl, pn⟩ := dh
    rcases hev with rfl | rfl | rfl <;> cases st <;>
      simp [deviceStateEvent, beforeDeviceStateEvent, devFsmEvent, fsmEvent, transitions,
        deviceStateEvents]
  · intro evs hnull
    have hinv : ∀ (evs : List DevEvent) (d : deviceHandler),
        (d.pDeviceStateFsm = devStNull ∨ d.pDeviceStateFsm = devStInit) →
        (deviceStateRun env d evs).pDeviceStateFsm = devStNull ∨
        (deviceStateRun env d evs).pDeviceStateFsm = devStInit := by
      intro evs
      induction evs with
      | nil => intro d hd; exact hd
      | cons ev rest ih =>
        intro d hd
        have hstep : deviceStateRun env d (ev :: rest) =
            deviceStateRun env (deviceStateEvent env d ev).1 rest := rfl
        rw [hstep]
        apply ih
        rw [deviceStateEvent_state]
        apply devFsmEvent_null_init _ _ _ hd
        intro hev
        rcases hev with rfl | rfl | rfl <;> rfl
    exact hinv evs dh (Or.inl hnull)

/-- C24 at the adopted sample handler (state Init): the transport-connected event is
cancelled and the handler stays as it is; from the new handler, a sequence of all five
events ends in Init. -/
theorem placeholder_handlers_cancel_witness :
    (deviceStateEvent sampleDhEnv adoptedDeviceHandler devEvGrpcConnected).2 =
      some FsmError.CanceledError ∧
    (deviceStateEvent sampleDhEnv adoptedDeviceHandler devEvGrpcConnected).1 =
      adoptedDeviceHandler ∧
    ((deviceStateRun sampleDhEnv sampleDeviceHandler
        [devEvDeviceInit, devEvGrpcConnected, devEvDeviceUpInd, devEvDeviceDownInd,
          devEvGrpcDisconnected]).pDeviceStateFsm = devStNull ∨
     (deviceStateRun sampleDhEnv sampleDeviceHandler
        [devEvDeviceInit, devEvGrpcConnected, devEvDeviceUpInd, devEvDeviceDownInd,
          devEvGrpcDisconnected]).pDeviceStateFsm = devStInit) :=
  ⟨((placeholder_handlers_cancel sampleDhEnv adoptedDeviceHandler).1 devEvGrpcConnected
      (Or.inl rfl)).2.2 (by decide),
   ((placeholder_handlers_cancel sampleDhEnv adoptedDeviceHandler).1 devEvGrpcConnected
      (Or.inl rfl)).1,
   (placeholder_handlers_cancel sampleDhEnv sampleDeviceHandler).2 _ rfl⟩

/-! ## C25: the way to ConfigDone -/

theorem aniRun_snoc (s : AniState) (evs : List AniEvent) (e : AniEvent) :
    aniRun s (evs ++ [e]) = (fsmEvent aniConfigEvents (aniRun s evs) e false).1 := by
  simp [aniRun, List.foldl_append]

theorem aniSteps_snoc (evs : List AniEvent) (e : AniEvent) :
    ∀ s : AniState, aniSteps s (evs ++ [e]) =
      aniSteps s evs ++
        (if (fsmEvent aniConfigEvents (aniRun s evs) e false).2 = none then
          [(aniRun s evs, e, (fsmEvent aniConfigEvents (aniRun s evs) e false).1)]
         else []) := by
  induction evs with
  | nil =>
    intro s
    simp only [List.nil_append, aniSteps, aniRun, List.foldl_nil]
    rcases h : fsmEvent aniConfigEvents s e false with ⟨s1, _ | err⟩ <;> simp
  | cons ev rest ih =>
    intro s
    have hrun : ∀ s1, (fsmEvent aniConfigEvents s ev false).1 = s1 →
        aniRun s (ev :: rest) = aniRun s1 rest := by
      intro s1 h; subst h; rfl
    simp only [List.cons_append, aniSteps, List.append_eq]
    rcases h : fsmEvent aniConfigEvents s ev false with ⟨s1, _ | err⟩
    · simp only [ih s1, hrun s1 (by rw [h]), List.cons_append]
    · have hs1 : s1 = s := by
        have : (fsmEvent aniConfigEvents s ev false).1 = s := by
          unfold fsmEvent
          split
          · split <;> rfl
          · split
            · rfl
            · split
              · rfl
              · rename_i hd _ _
                have h2 := congrArg Prod.snd h
                simp only [fsmEvent, hd] at h2
                split at h2 <;> simp_all
        rw [h] at this; exact this
      subst hs1
      simp only [ih s1, hrun s1 (by rw [h])]

theorem chainTo_step (s : AniState) (e : AniEvent)
    (h : (fsmEvent aniConfigEvents s e false).2 = none) :
    chainTo (fsmEvent aniConfigEvents s e false).1 = [] ∨
    chainTo (fsmEvent aniConfigEvents s e false).1 =
      chainTo s ++ [(s, e, (fsmEvent aniConfigEvents s e false).1)] := by
  revert h
  cases s <;> cases e <;> decide

theorem fsmEvent_error_keeps_state {S E : Type} [DecidableEq S] [DecidableEq E]
    (events : List (EventDesc S E)) (s : S) (e : E) (c : Bool)
    (h : (fsmEvent events s e c).2 ≠ none) : (fsmEvent events s e c).1 = s := by
  unfold fsmEvent at h ⊢
  split
  · split <;> rfl
  · split
    · rfl
    · split
      · rfl
      · rename_i hd _ _
        simp [hd] at h
        simp_all

/-- C25: on the ANI-config table every sequence of `Event` calls that leads from
Disabled to ConfigDone makes, as its last eight transitions, the transitions of the
success events start-config, Dot1P-mapper-create response, MBPCD response, T-CONT
response, GEM-NCTP response, GEM-IW response, priority-queue response and
Dot1P-mapper-set response, in this order, from Starting through CreatingDot1PMapper,
CreatingMBPCD, SettingTconts, CreatingGemNCTPs, CreatingGemIWs, SettingPQs and
SettingDot1PMapper to ConfigDone; more generally the transitions of a run that ends in a
state of this chain end with the chain up to that state. -/
theorem config_done_only_through_chain (evs : List AniEvent) :
    (∃ pre, aniSteps aniStDisabled evs = pre ++ chainTo (aniRun aniStDisabled evs)) ∧
    (aniRun aniStDisabled evs = aniStConfigDone →
      ∃ pre, aniSteps aniStDisabled evs = pre ++ configChain) := by
  have hmain : ∃ pre, aniSteps aniStDisabled evs =
      pre ++ chainTo (aniRun aniStDisabled evs) := by
    induction evs using List.reverseRecOn with
    | nil => exact ⟨[], rfl⟩
    | append_singleton evs e ih =>
      obtain ⟨pre, hpre⟩ := ih
      rw [aniSteps_snoc, aniRun_snoc]
      by_cases hacc : (fsmEvent aniConfigEvents (aniRun aniStDisabled evs) e false).2 = none
      · rw [if_pos hacc]
        rcases chainTo_step _ e hacc with h | h
        · rw [h]; exact ⟨_, (List.append_nil _).symm⟩
        · rw [h, hpre]
          exact ⟨pre, by rw [List.append_assoc]⟩
      · rw [if_neg hacc, fsmEvent_error_keeps_state _ _ _ _ hacc, List.append_nil]
        exact ⟨pre, hpre⟩
  refine ⟨hmain, ?_⟩
  intro hdone
  obtain ⟨pre, hpre⟩ := hmain
  rw [hdone] at hpre
  exact ⟨pre, hpre⟩

/-- C25 at the run start, the eight success events, with a rejected start event and a
timeout in between: the transitions end with the chain. -/
theorem config_done_only_through_chain_witness :
    ∃ pre, aniSteps aniStDisabled
      [aniEvStart, aniEvStartConfig, aniEvTimeoutSimple, aniEvStart, aniEvStartConfig,
        aniEvRxDot1pmapCResp, aniEvRxMbpcdResp, aniEvRxTcontsResp, aniEvRxGemntcpsResp,
        aniEvRxGemiwsResp, aniEvRxPrioqsResp, aniEvRxDot1pmapSResp] = pre ++ configChain :=
  (config_done_only_through_chain
    [aniEvStart, aniEvStartConfig, aniEvTimeoutSimple, aniEvStart, aniEvStartConfig,
      aniEvRxDot1pmapCResp, aniEvRxMbpcdResp, aniEvRxTcontsResp, aniEvRxGemntcpsResp,
      aniEvRxGemiwsResp, aniEvRxPrioqsResp, aniEvRxDot1pmapSResp]).2
    (by simp [aniRun, fsmEvent, transitions, aniConfigEvents])

/-! ## C26: reset returns to Disabled -/

/-- C26: in the ANI-config table and in both lock/unlock tables, from Resetting the
restart event is accepted and leads to Disabled; from every other state except Disabled
the reset event is accepted and leads to Resetting (from where restart leads to
Disabled); from Disabled the start event is accepted; and in the ANI-config table an
accepted event leads to Disabled only from Resetting. -/
theorem reset_returns_to_disabled :
    (∀ s : AniState, s ≠ aniStDisabled → s ≠ aniStResetting →
      fsmEvent aniConfigEvents s aniEvReset false = (aniStResetting, none)) ∧
    fsmEvent aniConfigEvents aniStResetting aniEvRestart false = (aniStDisabled, none) ∧
    fsmEvent aniConfigEvents aniStDisabled aniEvStart false = (aniStStarting, none) ∧
    (∀ (s : AniState) (e : AniEvent),
      fsmEvent aniConfigEvents s e false = (aniStDisabled, none) → s = aniStResetting) ∧
    (∀ (a : Bool) (s : UniState), s ≠ uniStDisabled → s ≠ uniStResetting →
      fsmEvent (lockStateEvents a) s uniEvReset false = (uniStResetting, none)) ∧
    (∀ a : Bool,
      fsmEvent (lockStateEvents a) uniStResetting uniEvRestart false = (uniStDisabled, none)) ∧
    (∀ a : Bool,
      fsmEvent (lockStateEvents a) uniStDisabled uniEvStart false = (uniStStarting, none)) := by
  refine ⟨?_, by decide, by decide, ?_, ?_, ?_, ?_⟩
  · intro s; cases s <;> decide
  · intro s e; cases s <;> cases e <;> decide
  · intro a s; cases a <;> cases s <;> decide
  · intro a; cases a <;> decide
  · intro a; cases a <;> decide

/-- C26 at the state SettingPQs of the ANI-config table and SettingUnis of the lock
table: reset is accepted and leads to Resetting. -/
theorem reset_returns_to_disabled_witness :
    fsmEvent aniConfigEvents aniStSettingPQs aniEvReset false = (aniStResetting, none) ∧
    fsmEvent (lockStateEvents true) uniStSettingUnis uniEvReset false =
      (uniStResetting, none) :=
  ⟨reset_returns_to_disabled.1 aniStSettingPQs (by decide) (by decide),
   reset_returns_to_disabled.2.2.2.2.1 true uniStSettingUnis (by decide) (by decide)⟩

/-! ## C27: the GEM-NCTP and GEM-IW loops -/

theorem Ani.multiInstanceLoop_first_failure (env : AniEnv) (done : AniEvent)
    (waits : Nat → WaitOutcome) (reqs : List OmciRequest) :
    ∀ (idx : Nat) (w : AniWorld) (k : Nat), k < reqs.length →
      (∀ j, j < k → waitforOmciResponse (waits (idx + j)) = none) →
      waitforOmciResponse (waits (idx + k)) ≠ none →
      Ani.multiInstanceLoop env done waits reqs idx w =
        Ani.fire env ((reqs.take (k + 1)).foldl Ani.send w) aniEvReset := by
  induction reqs with
  | nil => intro idx w k hk; simp at hk
  | cons req rest ih =>
    intro idx w k hk hok hfail
    cases k with
    | zero =>
      simp only [Nat.add_zero] at hfail
      cases hw : waitforOmciResponse (waits idx) with
      | none => exact absurd hw hfail
      | some e => simp [Ani.multiInstanceLoop, hw]
    | succ k =>
      have h0 : waitforOmciResponse (waits idx) = none := by
        simpa using hok 0 (by omega)
      simp only [List.length_cons] at hk
      simp only [Ani.multiInstanceLoop, h0, List.take_succ_cons, List.foldl_cons]
      apply ih (idx + 1) (Ani.send w req) k (by omega)
      · intro j hj
        have := hok (j + 1) (by omega)
        rw [show idx + 1 + j = idx + (j + 1) by omega]
        exact this
      · rw [show idx + 1 + k = idx + (k + 1) by omega]
        exact hfail

theorem Ani.foldl_send_frame (reqs : List OmciRequest) :
    ∀ w : AniWorld, (reqs.foldl Ani.send w).oFsm = w.oFsm ∧
      (reqs.foldl Ani.send w).stateLog = w.stateLog ∧
      (reqs.foldl Ani.send w).panicked = w.panicked := by
  induction reqs with
  | nil => intro w; exact ⟨rfl, rfl, rfl⟩
  | cons req rest ih =>
    intro w
    simp only [List.foldl_cons]
    obtain ⟨h1, h2, h3⟩ := ih (Ani.send w req)
    exact ⟨h1, h2, h3⟩

theorem Ani.fire_loop_event_txRequests (env : AniEnv) (w : AniWorld) (e : AniEvent)
    (he : e = aniEvReset ∨ e = aniEvRxGemntcpsResp ∨ e = aniEvRxGemiwsResp) :
    (Ani.fire env w e).txRequests = w.txRequests := by
  obtain ⟨f, tp, dh, tx, last, cc, cs, st, pr, vv, sl, pn⟩ := w
  obtain ⟨cur, uni, mb, eid, tpid, re, acc, chs, ps, m1, m2, t0, a0, gp⟩ := f
  cases pn
  · rcases he with rfl | rfl | rfl <;> cases cur <;>
      simp [Ani.fire, fsmEvent, transitions, aniConfigEvents, Ani.enterState,
        Ani.enterResettingState, Ani.enterCreatingGemIWs, Ani.enterSettingPQs]
  · simp [Ani.fire]

theorem Ani.fire_stateLog (env : AniEnv) (w : AniWorld) (e : AniEvent) (s s1 : AniState)
    (hs : w.oFsm.current = s) (hnp : w.panicked = false)
    (ht : fsmEvent aniConfigEvents s e false = (s1, none)) :
    (Ani.fire env w e).stateLog = w.stateLog ++ [s1] := by
  obtain ⟨f, tp, dh, tx, last, cc, cs, st, pr, vv, sl, pn⟩ := w
  obtain ⟨cur, uni, mb, eid, tpid, re, acc, chs, ps, m1, m2, t0, a0, gp⟩ := f
  simp only at hs hnp
  subst hs hnp
  simp only [Ani.fire, Bool.false_eq_true, if_false, ht]
  cases s1 <;> simp only [Ani.enterState, Ani.enterConfigStartingState,
    Ani.enterCreatingDot1PMapper, Ani.enterCreatingMBPCD, Ani.enterSettingTconts,
    Ani.enterCreatingGemNCTPs, Ani.enterCreatingGemIWs, Ani.enterSettingPQs,
    Ani.enterAniConfigDone, Ani.enterResettingState, Ani.send]
  · unfold Ani.enterDisabledState
    simp only
    split <;> split <;> rfl
  · unfold Ani.enterSettingDot1PMapper
    simp only
    split
    · rfl
    · split <;> rfl

/-- C27: the GEM-NCTP and GEM-IW loops send one create request per GEM port, in list
order, each followed by a wait. If the wait after the k-th request (counted from 1) is
the first that fails, the loop has sent exactly the first k requests and then fires the
reset event, nothing else: from CreatingGemNCTPs (CreatingGemIWs) the machine enters
Resetting and no other state. If no wait fails, the loop sends all n requests and then
fires its success event: the machine enters CreatingGemIWs (SettingPQs). -/
theorem gem_loops_one_create_per_port (env : AniEnv) (w : AniWorld)
    (waits : Nat → WaitOutcome) :
    (∀ k, k < w.oFsm.gemPortAttribsSlice.length →
      (∀ j, j < k → waitforOmciResponse (waits j) = none) →
      waitforOmciResponse (waits k) ≠ none →
      (Ani.performCreatingGemNCTPs env w waits =
          Ani.fire env (((w.oFsm.gemPortAttribsSlice.map
            (gemNCTPRequest w.oFsm.tcont0ID)).take (k + 1)).foldl Ani.send w) aniEvReset ∧
        (Ani.performCreatingGemNCTPs env w waits).txRequests =
          w.txRequests ++ (w.oFsm.gemPortAttribsSlice.map
            (gemNCTPRequest w.oFsm.tcont0ID)).take (k + 1) ∧
        (w.panicked = false → w.oFsm.current = aniStCreatingGemNCTPs →
          (Ani.performCreatingGemNCTPs env w waits).stateLog =
            w.stateLog ++ [aniStResetting])) ∧
      (Ani.performCreatingGemIWs env w waits =
          Ani.fire env (((w.oFsm.gemPortAttribsSlice.map
            (gemIWTPRequest env w.oFsm.mapperSP0ID)).take (k + 1)).foldl Ani.send w)
            aniEvReset ∧
        (Ani.performCreatingGemIWs env w waits).txRequests =
          w.txRequests ++ (w.oFsm.gemPortAttribsSlice.map
            (gemIWTPRequest env w.oFsm.mapperSP0ID)).take (k + 1) ∧
        (w.panicked = false → w.oFsm.current = aniStCreatingGemIWs →
          (Ani.performCreatingGemIWs env w waits).stateLog =
            w.stateLog ++ [aniStResetting]))) ∧
    ((∀ j, j < w.oFsm.gemPortAttribsSlice.length → waitforOmciResponse (waits j) = none) →
      (Ani.performCreatingGemNCTPs env w waits =
          Ani.fire env ((w.oFsm.gemPortAttribsSlice.map
            (gemNCTPRequest w.oFsm.tcont0ID)).foldl Ani.send w) aniEvRxGemntcpsResp ∧
        (Ani.performCreatingGemNCTPs env w waits).txRequests =
          w.txRequests ++ w.oFsm.gemPortAttribsSlice.map (gemNCTPRequest w.oFsm.tcont0ID) ∧
        (w.panicked = false → w.oFsm.current = aniStCreatingGemNCTPs →
          (Ani.performCreatingGemNCTPs env w waits).stateLog =
            w.stateLog ++ [aniStCreatingGemIWs])) ∧
      (Ani.performCreatingGemIWs env w waits =
          Ani.fire env ((w.oFsm.gemPortAttribsSlice.map
            (gemIWTPRequest env w.oFsm.mapperSP0ID)).foldl Ani.send w) aniEvRxGemiwsResp ∧
        (Ani.performCreatingGemIWs env w waits).txRequests =
          w.txRequests ++
            w.oFsm.gemPortAttribsSlice.map (gemIWTPRequest env w.oFsm.mapperSP0ID) ∧
        (w.panicked = false → w.oFsm.current = aniStCreatingGemIWs →
          (Ani.performCreatingGemIWs env w waits).stateLog =
            w.stateLog ++ [aniStSettingPQs]))) := by
  have hfail : ∀ (done : AniEvent) (reqs : List OmciRequest) (k : Nat) (s : AniState),
      k < reqs.length → (∀ j, j < k → waitforOmciResponse (waits j) = none) →
      waitforOmciResponse (waits k) ≠ none →
      fsmEvent aniConfigEvents s aniEvReset false = (aniStResetting, none) →
      Ani.multiInstanceLoop env done waits reqs 0 w =
          Ani.fire env ((reqs.take (k + 1)).foldl Ani.send w) aniEvReset ∧
        (Ani.multiInstanceLoop env done waits reqs 0 w).txRequests =
          w.txRequests ++ reqs.take (k + 1) ∧
        (w.panicked = false → w.oFsm.current = s →
          (Ani.multiInstanceLoop env done waits reqs 0 w).stateLog =
            w.stateLog ++ [aniStResetting]) := by
    intro done reqs k s hk hok hbad ht
    have h := Ani.multiInstanceLoop_first_failure env done waits reqs 0 w k hk
      (fun j hj => by simpa using hok j hj) (by simpa using hbad)
    obtain ⟨f1, f2, f3⟩ := Ani.foldl_send_frame (reqs.take (k + 1)) w
    refine ⟨h, ?_, ?_⟩
    · rw [h, Ani.fire_loop_event_txRequests env _ _ (Or.inl rfl), Ani.foldl_send_txRequests]
    · intro hnp hs
      rw [h, Ani.fire_stateLog env _ aniEvReset s aniStResetting (by rw [f1]; exact hs)
        (by rw [f3]; exact hnp) ht, f2]
  have hsucc : ∀ (done : AniEvent) (reqs : List OmciRequest) (s s1 : AniState),
      (∀ j, j < reqs.length → waitforOmciResponse (waits j) = none) →
      (done = aniEvRxGemntcpsResp ∨ done = aniEvRxGemiwsResp) →
      fsmEvent aniConfigEvents s done false = (s1, none) →
      Ani.multiInstanceLoop env done waits reqs 0 w =
          Ani.fire env (reqs.foldl Ani.send w) done ∧
        (Ani.multiInstanceLoop env done waits reqs 0 w).txRequests = w.txRequests ++ reqs ∧
        (w.panicked = false → w.oFsm.current = s →
          (Ani.multiInstanceLoop env done waits reqs 0 w).stateLog = w.stateLog ++ [s1]) := by
    intro done reqs s s1 hok hdone ht
    have h := Ani.multiInstanceLoop_succeeds env done waits reqs 0 w
      (fun k _ hk => hok k (by omega))
    obtain ⟨f1, f2, f3⟩ := Ani.foldl_send_frame reqs w
    refine ⟨h, ?_, ?_⟩
    · rw [h, Ani.fire_loop_event_txRequests env _ _ (Or.inr hdone),
        Ani.foldl_send_txRequests]
    · intro hnp hs
      rw [h, Ani.fire_stateLog env _ done s s1 (by rw [f1]; exact hs)
        (by rw [f3]; exact hnp) ht, f2]
  constructor
  · intro k hk hok hbad
    exact ⟨hfail aniEvRxGemntcpsResp _ k aniStCreatingGemNCTPs (by simpa using hk) hok hbad
        (by decide),
      hfail aniEvRxGemiwsResp _ k aniStCreatingGemIWs (by simpa using hk) hok hbad
        (by decide)⟩
  · intro hok
    exact ⟨hsucc aniEvRxGemntcpsResp _ aniStCreatingGemNCTPs aniStCreatingGemIWs
        (by simpa using hok) (Or.inl rfl) (by decide),
      hsucc aniEvRxGemiwsResp _ aniStCreatingGemIWs aniStSettingPQs
        (by simpa using hok) (Or.inr rfl) (by decide)⟩

/-- C27 at a machine in CreatingGemNCTPs with two GEM ports whose second wait times
out: both create requests are sent, then the machine enters Resetting. -/
theorem gem_loops_one_create_per_port_witness :
    (Ani.performCreatingGemNCTPs sampleAniEnv
        (sampleAniWorld aniStCreatingGemNCTPs collidingPorts) secondWaitFails).txRequests =
      (sampleAniWorld aniStCreatingGemNCTPs collidingPorts).txRequests ++
        ((sampleAniWorld aniStCreatingGemNCTPs collidingPorts).oFsm.gemPortAttribsSlice.map
          (gemNCTPRequest
            (sampleAniWorld aniStCreatingGemNCTPs collidingPorts).oFsm.tcont0ID)).take
              (1 + 1) ∧
    (Ani.performCreatingGemNCTPs sampleAniEnv
        (sampleAniWorld aniStCreatingGemNCTPs collidingPorts) secondWaitFails).stateLog =
      (sampleAniWorld aniStCreatingGemNCTPs collidingPorts).stateLog ++ [aniStResetting] :=
  ⟨((gem_loops_one_create_per_port sampleAniEnv
      (sampleAniWorld aniStCreatingGemNCTPs collidingPorts) secondWaitFails).1 1
        (by decide) (fun j hj => by have h0 : j = 0 := by omega
                                    subst h0; rfl) (by decide)).1.2.1,
   ((gem_loops_one_create_per_port sampleAniEnv
      (sampleAniWorld aniStCreatingGemNCTPs collidingPorts) secondWaitFails).1 1
        (by decide) (fun j hj => by have h0 : j = 0 := by omega
                                    subst h0; rfl) (by decide)).1.2.2 rfl rfl⟩

/-! ## C28: queue resolution per GEM port -/

theorem Ani.searchQueues_spec (env : AniEnv) (us ds : Nat) (keys : List Nat) :
    ∀ (lo : ponAniGemPortAttribs) (uf df : Bool),
      ((Ani.searchQueues env us ds keys (lo, uf, df)).1.upQueueID = lo.upQueueID ∨
        ((Ani.searchQueues env us ds keys (lo, uf, df)).1.upQueueID ∈ keys ∧
          env.relatedPort (Ani.searchQueues env us ds keys (lo, uf, df)).1.upQueueID =
            some us)) ∧
      ((Ani.searchQueues env us ds keys (lo, uf, df)).1.downQueueID = lo.downQueueID ∨
        ((Ani.searchQueues env us ds keys (lo, uf, df)).1.downQueueID ∈ keys ∧
          (Ani.searchQueues env us ds keys (lo, uf, df)).1.downQueueID < 0x8000 ∧
          ∃ rp, env.relatedPort (Ani.searchQueues env us ds keys (lo, uf, df)).1.downQueueID =
            some rp ∧ rp % 2 ^ 24 = ds)) := by
  induction keys with
  | nil => intro lo uf df; exact ⟨Or.inl rfl, Or.inl rfl⟩
  | cons key rest ih =>
    intro lo uf df
    have hlift : ∀ (lo1 : ponAniGemPortAttribs) (u1 d1 : Bool),
        (lo1.upQueueID = lo.upQueueID ∨
          (lo1.upQueueID ∈ key :: rest ∧ env.relatedPort lo1.upQueueID = some us)) →
        (lo1.downQueueID = lo.downQueueID ∨
          (lo1.downQueueID ∈ key :: rest ∧ lo1.downQueueID < 0x8000 ∧
            ∃ rp, env.relatedPort lo1.downQueueID = some rp ∧ rp % 2 ^ 24 = ds)) →
        ((Ani.searchQueues env us ds rest (lo1, u1, d1)).1.upQueueID = lo.upQueueID ∨
          ((Ani.searchQueues env us ds rest (lo1, u1, d1)).1.upQueueID ∈ key :: rest ∧
            env.relatedPort (Ani.searchQueues env us ds rest (lo1, u1, d1)).1.upQueueID =
              some us)) ∧
        ((Ani.searchQueues env us ds rest (lo1, u1, d1)).1.downQueueID = lo.downQueueID ∨
          ((Ani.searchQueues env us ds rest (lo1, u1, d1)).1.downQueueID ∈ key :: rest ∧
            (Ani.searchQueues env us ds rest (lo1, u1, d1)).1.downQueueID < 0x8000 ∧
            ∃ rp, env.relatedPort
              (Ani.searchQueues env us ds rest (lo1, u1, d1)).1.downQueueID = some rp ∧
              rp % 2 ^ 24 = ds)) := by
      intro lo1 u1 d1 h1 h2
      obtain ⟨i1, i2⟩ := ih lo1 u1 d1
      constructor
      · rcases i1 with e | ⟨m, r⟩
        · rw [e]; exact h1
        · exact Or.inr ⟨List.mem_cons_of_mem _ m, r⟩
      · rcases i2 with e | ⟨m, r⟩
        · rw [e]; exact h2
        · exact Or.inr ⟨List.mem_cons_of_mem _ m, r⟩
    unfold Ani.searchQueues
    cases hrp : env.relatedPort key with
    | none => exact hlift lo uf df (Or.inl rfl) (Or.inl rfl)
    | some relatedPort =>
      simp only
      by_cases hus : relatedPort = us
      · simp only [hus, if_true]
        split
        · exact ⟨Or.inr ⟨List.mem_cons_self _ _, by rw [hrp, hus]⟩, Or.inl rfl⟩
        · exact hlift _ _ _ (Or.inr ⟨List.mem_cons_self _ _, by rw [hrp, hus]⟩) (Or.inl rfl)
      · simp only [hus, if_false]
        by_cases hds : relatedPort % 2 ^ 24 = ds ∧ key < 0x8000
        · simp only [hds, and_self, if_true]
          split
          · exact ⟨Or.inl rfl, Or.inr ⟨List.mem_cons_self _ _, hds.2, relatedPort, hrp, hds.1⟩⟩
          · exact hlift _ _ _ (Or.inl rfl)
              (Or.inr ⟨List.mem_cons_self _ _, hds.2, relatedPort, hrp, hds.1⟩)
        · rw [if_neg hds]
          split
          · exact ⟨Or.inl rfl, Or.inl rfl⟩
          · exact hlift _ _ _ (Or.inl rfl) (Or.inl rfl)

/-- C28: the queue search of `prepareAndEnterConfigState` for one GEM entry leaves in
`loGemPortAttribs` either a queue id that matches the entry (an upstream id whose
RelatedPort equals the upstream pattern; a downstream id below 0x8000 whose RelatedPort
masked with 0xFFFFFF equals the downstream pattern) or the id the variable held before
the search, which is the one of the previous GEM entry. So on a mirror with one
upstream queue for priority 0 (0x8001) and one downstream queue for priority 0 (1), the
second GEM entry, of priority index 1, is recorded with the queue ids 0x8001 and 1 of
the first entry, whose RelatedPort encodes priority 0, not 1. -/
theorem queue_ids_carried_over_between_gem_entries :
    (∀ (env : AniEnv) (us ds : Nat) (keys : List Nat) (lo : ponAniGemPortAttribs),
      ((Ani.searchQueues env us ds keys (lo, false, false)).1.upQueueID = lo.upQueueID ∨
        env.relatedPort (Ani.searchQueues env us ds keys (lo, false, false)).1.upQueueID =
          some us) ∧
      ((Ani.searchQueues env us ds keys (lo, false, false)).1.downQueueID = lo.downQueueID ∨
        ((Ani.searchQueues env us ds keys (lo, false, false)).1.downQueueID < 0x8000 ∧
          ∃ rp, env.relatedPort
            (Ani.searchQueues env us ds keys (lo, false, false)).1.downQueueID = some rp ∧
            rp % 2 ^ 24 = ds))) ∧
    staleQueueRun = [(1024, 0x8001, 1), (1025, 0x8001, 1)] ∧
    staleQueueEnv.relatedPort 0x8001 ≠ some (0x8001 * 2 ^ 16 + 1) ∧
    staleQueueEnv.relatedPort 1 ≠ some (1 * 2 ^ 16 + 1) := by
  refine ⟨?_, ?_, by decide, by decide⟩
  · intro env us ds keys lo
    obtain ⟨h1, h2⟩ := Ani.searchQueues_spec env us ds keys lo false false
    constructor
    · rcases h1 with e | ⟨_, r⟩
      · exact Or.inl e
      · exact Or.inr r
    · rcases h2 with e | ⟨_, r⟩
      · exact Or.inl e
      · exact Or.inr r
  · decide

/-! ## C29: delivery of the ANI-config-done event -/

theorem completedRuns_snoc (log : List AniState) (s : AniState) :
    completedRuns (log ++ [s]) =
      (match s with
        | aniStConfigDone => (true, (completedRuns log).2)
        | aniStDisabled =>
          (false, if (completedRuns log).1 then (completedRuns log).2 + 1
            else (completedRuns log).2)
        | _ => completedRuns log) := by
  simp only [completedRuns, List.foldl_append, List.foldl_cons, List.foldl_nil]

theorem Ani.enterState_delivery (env : AniEnv) (w : AniWorld) (s : AniState)
    (h : Ani.DeliveryInv w) :
    Ani.DeliveryInv (Ani.enterState env
      { w with oFsm := { w.oFsm with current := s }, stateLog := w.stateLog ++ [s] } s) ∧
    (Ani.enterState env
      { w with oFsm := { w.oFsm with current := s }, stateLog := w.stateLog ++ [s] }
        s).oFsm.requestEvent = w.oFsm.requestEvent := by
  obtain ⟨f, tp, dh, tx, last, cc, cs, st, pr, vv, sl, pn⟩ := w
  obtain ⟨cur, uni, mb, eid, tpid, re, acc, chs, ps, m1, m2, t0, a0, gp⟩ := f
  obtain ⟨h1, h2⟩ := h
  simp only at h1 h2
  subst h1 h2
  cases s
  case aniStDisabled =>
    unfold Ani.DeliveryInv Ani.enterState Ani.enterDisabledState
    cases hb : (completedRuns sl).1 <;> cases chs <;>
      simp [List.replicate_succ', hb, completedRuns_snoc]
  case aniStSettingDot1PMapper =>
    unfold Ani.DeliveryInv Ani.enterState Ani.enterSettingDot1PMapper
    simp only
    split
    · simp [completedRuns_snoc]
    · split <;> simp [Ani.send, completedRuns_snoc]
  all_goals
    simp [Ani.DeliveryInv, Ani.enterState, Ani.enterConfigStartingState,
      Ani.enterCreatingDot1PMapper, Ani.enterCreatingMBPCD, Ani.enterSettingTconts,
      Ani.enterCreatingGemNCTPs, Ani.enterCreatingGemIWs, Ani.enterSettingPQs,
      Ani.enterAniConfigDone, Ani.enterResettingState, Ani.send, completedRuns_snoc]

theorem Ani.fire_delivery (env : AniEnv) (w : AniWorld) (e : AniEvent)
    (h : Ani.DeliveryInv w) :
    Ani.DeliveryInv (Ani.fire env w e) ∧
    (Ani.fire env w e).oFsm.requestEvent = w.oFsm.requestEvent := by
  unfold Ani.fire
  split
  · exact ⟨h, rfl⟩
  · split
    · exact Ani.enterState_delivery env w _ h
    · exact ⟨h, rfl⟩

theorem Ani.multiInstanceLoop_shape (env : AniEnv) (done : AniEvent)
    (waits : Nat → WaitOutcome) (reqs : List OmciRequest) :
    ∀ (idx : Nat) (w : AniWorld), ∃ tx last e,
      Ani.multiInstanceLoop env done waits reqs idx w =
        Ani.fire env { w with txRequests := tx, pLastTxMeInstance := last } e := by
  induction reqs with
  | nil => intro idx w; exact ⟨w.txRequests, w.pLastTxMeInstance, done, rfl⟩
  | cons req rest ih =>
    intro idx w
    cases hw : waitforOmciResponse (waits idx) with
    | some err =>
      exact ⟨_, _, aniEvReset, by simp only [Ani.multiInstanceLoop, hw]; rfl⟩
    | none =>
      obtain ⟨tx, last, e, h⟩ := ih (idx + 1) (Ani.send w req)
      exact ⟨tx, last, e, by simp only [Ani.multiInstanceLoop, hw]; exact h⟩

theorem Ani.runTask_delivery (env : AniEnv) (waits : Nat → WaitOutcome) (w : AniWorld)
    (t : AniTask) (h : Ani.DeliveryInv w) :
    Ani.DeliveryInv (Ani.runTask env waits w t) ∧
    (Ani.runTask env waits w t).oFsm.requestEvent = w.oFsm.requestEvent := by
  have hloop : ∀ (done : AniEvent) (reqs : List OmciRequest),
      Ani.DeliveryInv (Ani.multiInstanceLoop env done waits reqs 0 w) ∧
      (Ani.multiInstanceLoop env done waits reqs 0 w).oFsm.requestEvent =
        w.oFsm.requestEvent := by
    intro done reqs
    obtain ⟨tx, last, e, he⟩ := Ani.multiInstanceLoop_shape env done waits reqs 0 w
    rw [he]
    exact Ani.fire_delivery env { w with txRequests := tx, pLastTxMeInstance := last } e h
  cases t with
  | event e => exact Ani.fire_delivery env w e h
  | processOmciAniMessages => exact ⟨h, rfl⟩
  | prepareAndEnterConfigState =>
    unfold Ani.runTask Ani.prepareAndEnterConfigState
    exact Ani.fire_delivery env _ aniEvStartConfig h
  | performCreatingGemNCTPs => exact hloop _ _
  | performCreatingGemIWs => exact hloop _ _
  | performSettingPQs => exact hloop _ _
  | verifyUniVlanConfigRequest u => exact ⟨h, rfl⟩

theorem Ani.runTasks_delivery (env : AniEnv)
    (tasks : List (AniTask × (Nat → WaitOutcome))) :
    ∀ w : AniWorld, Ani.DeliveryInv w →
      Ani.DeliveryInv (Ani.runTasks env w tasks) ∧
      (Ani.runTasks env w tasks).oFsm.requestEvent = w.oFsm.requestEvent := by
  induction tasks with
  | nil => intro w h; exact ⟨h, rfl⟩
  | cons t rest ih =>
    intro w h
    obtain ⟨h1, h2⟩ := Ani.runTask_delivery env t.2 w t.1 h
    obtain ⟨h3, h4⟩ := ih _ h1
    exact ⟨h3, h4.trans h2⟩

/-- C29: for a machine that starts with `aniConfigCompleted` false, an empty state log
and nothing delivered, and for every sequence of work units (events from any source
and the machine's own loops) run on it: the events delivered to the device handler are
exactly one request event for every entry into Disabled before which ConfigDone was
entered since the previous entry into Disabled, and the flag `aniConfigCompleted`
is set exactly when ConfigDone was entered since the last entry into Disabled. An entry
into Disabled of a run that did not pass ConfigDone delivers nothing. -/
theorem ani_config_done_delivered_once_per_completed_run (env : AniEnv) (w : AniWorld)
    (tasks : List (AniTask × (Nat → WaitOutcome)))
    (hflag : w.oFsm.aniConfigCompleted = false) (hlog : w.stateLog = [])
    (hdh : w.dhEvents = []) :
    (Ani.runTasks env w tasks).dhEvents =
      List.replicate (completedRuns (Ani.runTasks env w tasks).stateLog).2
        w.oFsm.requestEvent ∧
    (Ani.runTasks env w tasks).oFsm.aniConfigCompleted =
      (completedRuns (Ani.runTasks env w tasks).stateLog).1 := by
  have hinv : Ani.DeliveryInv w := by
    unfold Ani.DeliveryInv
    rw [hlog, hdh, hflag]
    exact ⟨rfl, rfl⟩
  obtain ⟨h1, h2⟩ := Ani.runTasks_delivery env tasks w hinv
  unfold Ani.DeliveryInv at h1
  rw [h2] at h1
  exact h1

/-- C29 at the sample machine: a complete run followed by a run that is reset in
SettingTconts delivers the ANI-config-done event once, and the aborted run alone
delivers nothing. -/
theorem ani_config_done_delivered_once_per_completed_run_witness :
    (Ani.runTasks sampleAniEnv (sampleAniWorld aniStDisabled collidingPorts)
      (completeRunTasks ++ abortedRunTasks)).dhEvents =
      List.replicate (completedRuns (Ani.runTasks sampleAniEnv
        (sampleAniWorld aniStDisabled collidingPorts)
        (completeRunTasks ++ abortedRunTasks)).stateLog).2
        (sampleAniWorld aniStDisabled collidingPorts).oFsm.requestEvent ∧
    (Ani.runTasks sampleAniEnv (sampleAniWorld aniStDisabled collidingPorts)
      (completeRunTasks ++ abortedRunTasks)).dhEvents = [OnuDeviceEvent.OmciAniConfigDone] ∧
    (Ani.runTasks sampleAniEnv (sampleAniWorld aniStDisabled collidingPorts)
      abortedRunTasks).dhEvents = [] :=
  ⟨(ani_config_done_delivered_once_per_completed_run sampleAniEnv
      (sampleAniWorld aniStDisabled collidingPorts) (completeRunTasks ++ abortedRunTasks)
      rfl rfl rfl).1,
   by decide,
   by decide⟩

/-! ## C23: reason updates of the device-event handlers -/

theorem reasonUpdates_lockStateEvents (l : List (Bool × UniEvent)) :
    reasonUpdates (l.map (fun p => DhCall.lockStateEvent p.1 p.2)) = 0 := by
  induction l with
  | nil => rfl
  | cons a rest ih =>
    have h := reasonUpdates_append [DhCall.lockStateEvent a.1 a.2]
      (rest.map (fun p => DhCall.lockStateEvent p.1 p.2))
    simp only [List.singleton_append] at h
    rw [List.map_cons, h, ih]
    rfl

theorem runUniLockFsm_reasonUpdates (dh : deviceHandler) (a : Bool) :
    reasonUpdates (dh.runUniLockFsm a).calls = reasonUpdates dh.calls := by
  unfold deviceHandler.runUniLockFsm
  split
  · rfl
  · simp only [reasonUpdates_append, reasonUpdates_lockStateEvents, Nat.add_zero]

theorem createUniLockFsm_reasonUpdates (dh : deviceHandler) (a : Bool) (ev : OnuDeviceEvent) :
    reasonUpdates (dh.createUniLockFsm a ev).calls = reasonUpdates dh.calls := by
  have hget : (getOnuDeviceEntry dh true).2.calls = dh.calls := by
    unfold getOnuDeviceEntry
    split
    · split <;> rfl
    · rfl
  unfold deviceHandler.createUniLockFsm
  rcases hres : getOnuDeviceEntry dh true with ⟨e, d1⟩
  rw [hres] at hget
  simp only at hget
  cases e with
  | none => simp only [hget]
  | some entry =>
    simp only [runUniLockFsm_reasonUpdates]
    split <;> exact congrArg reasonUpdates hget

theorem processMibDownloadDoneEvent_reasonUpdates (dh : deviceHandler) :
    reasonUpdates (processMibDownloadDoneEvent dh).calls =
      reasonUpdates dh.calls + (if dh.reconciling then 0 else 1) := by
  unfold processMibDownloadDoneEvent
  simp only
  split
  · rw [createUniLockFsm_reasonUpdates]
    cases hr : dh.reconciling <;>
      simp [hr, deviceHandler.call, reasonUpdates_append, reasonUpdates]
  · rw [runUniLockFsm_reasonUpdates]
    cases hr : dh.reconciling <;>
      simp [hr, deviceHandler.call, reasonUpdates_append, reasonUpdates]

theorem addUniPort_reasonUpdates (env : DhEnv) (dh : deviceHandler) (a b c : Nat) :
    reasonUpdates (addUniPort env dh a b c).calls = reasonUpdates dh.calls := by
  unfold addUniPort
  simp only
  split
  · rfl
  · split
    · unfold createVolthaPort
      simp only
      split <;> simp [deviceHandler.call, reasonUpdates_append, reasonUpdates]
    · rfl

theorem addUniPorts_reasonUpdates (env : DhEnv) (ty : Nat) (keys : List Nat) :
    ∀ acc : deviceHandler × Nat,
      reasonUpdates (addUniPorts env ty keys acc).1.calls = reasonUpdates acc.1.calls := by
  induction keys with
  | nil => intro acc; rfl
  | cons k rest ih =>
    rintro ⟨d, i⟩
    unfold addUniPorts
    split
    · rfl
    · rw [ih]
      exact addUniPort_reasonUpdates env d k i ty

theorem mibDownloadEvent_reasonUpdates (env : DhEnv) (dh : deviceHandler) (e : DlEvent) :
    reasonUpdates (mibDownloadEvent env dh e).1.calls = reasonUpdates dh.calls := by
  have h : (mibDownloadEvent env dh e).1.calls = dh.calls ++ [DhCall.mibDownloadEvent e] := by
    unfold mibDownloadEvent
    simp only [deviceHandler.call]
    split
    · rfl
    · split
      · rfl
      · split <;> rfl
  rw [h, reasonUpdates_append]
  rfl

theorem processMibDatabaseSyncEvent_reasonUpdates (env : DhEnv) (dh : deviceHandler) :
    reasonUpdates (processMibDatabaseSyncEvent env dh).calls =
      reasonUpdates dh.calls + (if dh.reconciling then 0 else 1) := by
  have h0 : reasonUpdates ({ (if ¬ dh.reconciling = true then
        dh.call (DhCall.DeviceReasonUpdate "discovery-mibsync-complete") else dh) with
        deviceReason := "discovery-mibsync-complete" } : deviceHandler).calls =
      reasonUpdates dh.calls + (if dh.reconciling then 0 else 1) := by
    cases hr : dh.reconciling <;>
      simp [deviceHandler.call, reasonUpdates_append, reasonUpdates]
  have hunf : processMibDatabaseSyncEvent env dh =
      (fun d0 : deviceHandler =>
        match (getOnuDeviceEntry d0 false).1 with
        | none => { d0 with panicked := true }
        | some pDevEntry =>
          if (addUniPorts env uniVEIP env.veipInstKeys
              (addUniPorts env uniPPTP env.unigInstKeys (d0, 0))).1.fatal then
            (addUniPorts env uniVEIP env.veipInstKeys
              (addUniPorts env uniPPTP env.unigInstKeys (d0, 0))).1
          else
            match pDevEntry.pMibDownloadFsm with
            | some st =>
              if st = DlState.dlStDisabled then
                match mibDownloadEvent env (addUniPorts env uniVEIP env.veipInstKeys
                  (addUniPorts env uniPPTP env.unigInstKeys (d0, 0))).1 dlEvStart with
                | (dh5, true) => dh5
                | (dh5, false) => (mibDownloadEvent env dh5 dlEvCreateGal).1
              else (addUniPorts env uniVEIP env.veipInstKeys
                (addUniPorts env uniPPTP env.unigInstKeys (d0, 0))).1
            | none => (addUniPorts env uniVEIP env.veipInstKeys
                (addUniPorts env uniPPTP env.unigInstKeys (d0, 0))).1)
      ({ (if ¬ dh.reconciling = true then
            dh.call (DhCall.DeviceReasonUpdate "discovery-mibsync-complete") else dh) with
          deviceReason := "discovery-mibsync-complete" } : deviceHandler) := rfl
  rw [hunf]
  generalize ({ (if ¬ dh.reconciling = true then
        dh.call (DhCall.DeviceReasonUpdate "discovery-mibsync-complete") else dh) with
        deviceReason := "discovery-mibsync-complete" } : deviceHandler) = d0 at h0 ⊢
  simp only
  have hports : reasonUpdates (addUniPorts env uniVEIP env.veipInstKeys
      (addUniPorts env uniPPTP env.unigInstKeys (d0, 0))).1.calls = reasonUpdates d0.calls := by
    rw [addUniPorts_reasonUpdates, addUniPorts_reasonUpdates]
  split
  · exact h0
  · split
    · rw [hports]; exact h0
    · split
      · split
        · split
          · rename_i heq
            have := mibDownloadEvent_reasonUpdates env (addUniPorts env uniVEIP
              env.veipInstKeys (addUniPorts env uniPPTP env.unigInstKeys (d0, 0))).1 dlEvStart
            rw [heq] at this
            rw [this, hports]; exact h0
          · rename_i heq
            have := mibDownloadEvent_reasonUpdates env (addUniPorts env uniVEIP
              env.veipInstKeys (addUniPorts env uniPPTP env.unigInstKeys (d0, 0))).1 dlEvStart
            rw [heq] at this
            rw [mibDownloadEvent_reasonUpdates, this, hports]; exact h0
        · rw [hports]; exact h0
      · rw [hports]; exact h0

/-- C23, counterexample: the MIB-database-synchronized event processed a second time,
with the reason already "discovery-mibsync-complete" from the first time, sends a second
DeviceReasonUpdate, and so does the MIB-download-done event. -/
theorem mib_sync_event_repeats_reason_update :
    (deviceProcStatusUpdate sampleDhEnv indicatedDeviceHandler
      OnuDeviceEvent.MibDatabaseSync).1.deviceReason = "discovery-mibsync-complete" ∧
    reasonUpdates (deviceProcStatusUpdate sampleDhEnv indicatedDeviceHandler
      OnuDeviceEvent.MibDatabaseSync).1.calls = 1 ∧
    reasonUpdates (deviceProcStatusUpdate sampleDhEnv
      (deviceProcStatusUpdate sampleDhEnv indicatedDeviceHandler
        OnuDeviceEvent.MibDatabaseSync).1 OnuDeviceEvent.MibDatabaseSync).1.calls = 2 ∧
    reasonUpdates (deviceProcStatusUpdate sampleDhEnv
      (deviceProcStatusUpdate sampleDhEnv indicatedDeviceHandler
        OnuDeviceEvent.MibDownloadDone).1 OnuDeviceEvent.MibDownloadDone).1.calls = 2 := by
  have h1 := processMibDatabaseSyncEvent_reasonUpdates sampleDhEnv indicatedDeviceHandler
  have h2 := processMibDatabaseSyncEvent_reasonUpdates sampleDhEnv
    (processMibDatabaseSyncEvent sampleDhEnv indicatedDeviceHandler)
  have h3 := processMibDownloadDoneEvent_reasonUpdates indicatedDeviceHandler
  have h4 := processMibDownloadDoneEvent_reasonUpdates
    (processMibDownloadDoneEvent indicatedDeviceHandler)
  have hr0 : indicatedDeviceHandler.reconciling = false := by decide
  have hc0 : reasonUpdates indicatedDeviceHandler.calls = 0 := by decide
  have hr1 : (processMibDatabaseSyncEvent sampleDhEnv indicatedDeviceHandler).reconciling =
      false := by decide
  have hr2 : (processMibDownloadDoneEvent indicatedDeviceHandler).reconciling = false := by
    decide
  have hreason : (processMibDatabaseSyncEvent sampleDhEnv indicatedDeviceHandler).deviceReason =
      "discovery-mibsync-complete" := by decide
  simp only [deviceProcStatusUpdate]
  rw [hr0, hc0] at h1 h3
  rw [hr1, h1] at h2
  rw [hr2, h3] at h4
  exact ⟨hreason, h1, h2, h4⟩

/-- C23, amended: of the device-event handlers only ANI-config-done and
VLAN-filter-done suppress a repeated notification: processed while the reason already
is theirs they leave the handler unchanged. The MIB-database-synchronized and
MIB-download-done handlers send their DeviceReasonUpdate every time they are processed
on a handler that is not reconciling (none on a reconciling one), whatever the reason
is, and the unlock-done handler sends no DeviceReasonUpdate and leaves the handler
unchanged. -/
theorem reason_update_suppressed_only_for_ani_and_vlan (env : DhEnv) (dh : deviceHandler) :
    (dh.deviceReason = "tech-profile-config-download-success" →
      deviceProcStatusUpdate env dh OnuDeviceEvent.OmciAniConfigDone = (dh, [])) ∧
    (dh.deviceReason = "omci-flows-pushed" →
      deviceProcStatusUpdate env dh OnuDeviceEvent.OmciVlanFilterDone = (dh, [])) ∧
    reasonUpdates (deviceProcStatusUpdate env dh OnuDeviceEvent.MibDatabaseSync).1.calls =
      reasonUpdates dh.calls + (if dh.reconciling then 0 else 1) ∧
    reasonUpdates (deviceProcStatusUpdate env dh OnuDeviceEvent.MibDownloadDone).1.calls =
      reasonUpdates dh.calls + (if dh.reconciling then 0 else 1) ∧
    (deviceProcStatusUpdate env dh OnuDeviceEvent.UniUnlockStateDone).1 = dh := by
  refine ⟨?_, ?_, ?_, ?_, rfl⟩
  · intro h
    simp only [deviceProcStatusUpdate, processOmciAniConfigDoneEvent_fix dh h]
  · intro h
    simp only [deviceProcStatusUpdate, processOmciVlanFilterDoneEvent_fix dh h]
  · exact processMibDatabaseSyncEvent_reasonUpdates env dh
  · exact processMibDownloadDoneEvent_reasonUpdates dh

/-- C23 amended, at the sample handler after a first ANI-config-done event: a second
one changes nothing. -/
theorem reason_update_suppressed_only_for_ani_and_vlan_witness :
    deviceProcStatusUpdate sampleDhEnv
      (deviceProcStatusUpdate sampleDhEnv indicatedDeviceHandler
        OnuDeviceEvent.OmciAniConfigDone).1 OnuDeviceEvent.OmciAniConfigDone =
      ((deviceProcStatusUpdate sampleDhEnv indicatedDeviceHandler
        OnuDeviceEvent.OmciAniConfigDone).1, []) :=
  (reason_update_suppressed_only_for_ani_and_vlan sampleDhEnv
    (deviceProcStatusUpdate sampleDhEnv indicatedDeviceHandler
      OnuDeviceEvent.OmciAniConfigDone).1).1 (by decide)

/-! ## C30: the hardware address announced for a UNI port -/

theorem digitValue_hexByte (d : Nat) (h : d < 16) : digitValue (hexByte d) = some d := by
  interval_cases d <;> rfl

theorem hexByte_ne_sep (d : Nat) (h : d < 16) : hexByte d ≠ 58 := by
  unfold hexByte
  split <;> omega

theorem digitValue_not_sign (c d : Nat) (h : digitValue c = some d) : c ≠ 43 ∧ c ≠ 45 := by
  unfold digitValue at h
  split at h
  · omega
  · split at h
    · omega
    · split at h
      · omega
      · cases h

theorem ParseInt_hex_pair (a b da db bs : Nat) (ha : digitValue a = some da) (hda : da < 16)
    (hb : digitValue b = some db) (hdb : db < 16) :
    ParseInt [a, b] 16 bs =
      if 16 * da + db < 2 ^ (bs - 1) then some ((16 * da + db : Nat) : Int) else none := by
  have hne := digitValue_not_sign a da ha
  have h1 : ¬ da ≥ 16 := by omega
  have h2 : ¬ db ≥ 16 := by omega
  simp only [ParseInt, hne.1, hne.2, or_self, if_false, decide_False, parseDigits, ha, hb, h1, h2,
    Nat.zero_mul, Nat.zero_add]
  by_cases hlt : 16 * da + db < 2 ^ (bs - 1)
  · have : da * 16 + db < 2 ^ (bs - 1) := by omega
    simp [hlt, this, Nat.mul_comm]
  · have : ¬ da * 16 + db < 2 ^ (bs - 1) := by omega
    simp [hlt, this]

theorem ParseInt_fmt02x (b : Nat) (hb : b < 256) : ParseInt (fmt02x b) 16 32 = some (b : Int) := by
  have h := ParseInt_hex_pair (hexByte (b / 16)) (hexByte (b % 16)) (b / 16) (b % 16) 32
    (digitValue_hexByte _ (by omega)) (by omega) (digitValue_hexByte _ (by omega)) (by omega)
  have hv : 16 * (b / 16) + b % 16 = b := by omega
  rw [hv] at h
  have hlt : b < 2 ^ (32 - 1) := by
    have : (256 : Nat) < 2 ^ (32 - 1) := by norm_num
    omega
  rw [if_pos hlt] at h
  exact h

theorem splitBytes_fmt02x_cons (a : Nat) (ha : a < 256) (rest : List Nat) :
    splitBytes 58 (fmt02x a ++ 58 :: rest) [] = fmt02x a :: splitBytes 58 rest [] := by
  have h1 : hexByte (a / 16) ≠ 58 := hexByte_ne_sep _ (by omega)
  have h2 : hexByte (a % 16) ≠ 58 := hexByte_ne_sep _ (by omega)
  simp [fmt02x, splitBytes, h1, h2]

theorem splitBytes_fmt02x_last (a : Nat) (ha : a < 256) :
    splitBytes 58 (fmt02x a) [] = [fmt02x a] := by
  have h1 : hexByte (a / 16) ≠ 58 := hexByte_ne_sep _ (by omega)
  have h2 : hexByte (a % 16) ≠ 58 := hexByte_ne_sep _ (by omega)
  simp [fmt02x, splitBytes, h1, h2]

theorem parsePieces_cons_fmt02x (a : Nat) (ha : a < 256) (rest : List (List Nat)) :
    parsePieces (fmt02x a :: rest) =
      match parsePieces rest with
      | none => none
      | some result => some (a :: result) := by
  have hmod : (((a : Int)) % 2 ^ 32).toNat = a := by omega
  simp only [parsePieces, ParseInt_fmt02x a ha, hmod]

theorem macAddressToUint32Array_genMacFromOctets (o0 o1 o2 o3 o4 o5 : Nat)
    (h0 : o0 < 256) (h1 : o1 < 256) (h2 : o2 < 256) (h3 : o3 < 256) (h4 : o4 < 256)
    (h5 : o5 < 256) :
    macAddressToUint32Array (genMacFromOctets [o0, o1, o2, o3, o4, o5]) =
      [o5, o4, o3, o2, o1, o0] := by
  have hs : genMacFromOctets [o0, o1, o2, o3, o4, o5] =
      fmt02x o5 ++ 58 :: (fmt02x o4 ++ 58 :: (fmt02x o3 ++ 58 :: (fmt02x o2 ++ 58 ::
        (fmt02x o1 ++ 58 :: fmt02x o0)))) := by
    simp [genMacFromOctets, List.getD]
  unfold macAddressToUint32Array
  rw [hs, splitBytes_fmt02x_cons o5 h5, splitBytes_fmt02x_cons o4 h4,
    splitBytes_fmt02x_cons o3 h3, splitBytes_fmt02x_cons o2 h2, splitBytes_fmt02x_cons o1 h1,
    splitBytes_fmt02x_last o0 h0]
  rw [parsePieces_cons_fmt02x _ h5, parsePieces_cons_fmt02x _ h4,
    parsePieces_cons_fmt02x _ h3, parsePieces_cons_fmt02x _ h2, parsePieces_cons_fmt02x _ h1,
    parsePieces_cons_fmt02x _ h0]
  rfl

theorem isHexDigit_spec (c : Nat) (h : isHexDigit c = true) :
    ∃ d, digitValue c = some d ∧ d < 16 := by
  unfold isHexDigit at h
  split at h
  · rename_i d hd
    exact ⟨d, hd, of_decide_eq_true h⟩
  · cases h

theorem length_twelve (l : List Nat) (h : l.length = 12) :
    ∃ m0 m1 m2 m3 m4 m5 m6 m7 m8 m9 m10 m11,
      l = [m0, m1, m2, m3, m4, m5, m6, m7, m8, m9, m10, m11] := by
  rcases l with _ | ⟨m0, l⟩
  · cases h
  rcases l with _ | ⟨m1, l⟩
  · cases h
  rcases l with _ | ⟨m2, l⟩
  · cases h
  rcases l with _ | ⟨m3, l⟩
  · cases h
  rcases l with _ | ⟨m4, l⟩
  · cases h
  rcases l with _ | ⟨m5, l⟩
  · cases h
  rcases l with _ | ⟨m6, l⟩
  · cases h
  rcases l with _ | ⟨m7, l⟩
  · cases h
  rcases l with _ | ⟨m8, l⟩
  · cases h
  rcases l with _ | ⟨m9, l⟩
  · cases h
  rcases l with _ | ⟨m10, l⟩
  · cases h
  rcases l with _ | ⟨m11, l⟩
  · cases h
  rcases l with _ | ⟨x, l⟩
  · exact ⟨m0, m1, m2, m3, m4, m5, m6, m7, m8, m9, m10, m11, rfl⟩
  · simp only [List.length_cons] at h
    omega

theorem set_getD_self (l : List Nat) : ∀ i : Nat, l.set i (l.getD i 0) = l := by
  induction l with
  | nil => intro i; rfl
  | cons a rest ih =>
    intro i
    cases i with
    | zero => rfl
    | succ j =>
      have h := ih j
      simp only [List.getD_cons_succ, List.set_cons_succ, h]

theorem macStep (octs p : List Nat) (i val : Nat)
    (hp : ParseInt p 16 8 = if val < 128 then some ((val : Nat) : Int) else none) :
    (match ParseInt p 16 8 with
      | some v => octs.set i (v % 2 ^ 8).toNat
      | none => octs) = octs.set i (if val < 128 then val else octs.getD i 0) := by
  rw [hp]
  by_cases h : val < 128
  · have hv : (((val : Nat) : Int) % 2 ^ 8).toNat = val := by omega
    simp only [h, if_true, hv]
  · simp only [h, if_false, set_getD_self]

theorem macLoop_spec (mac : List Nat) (hlen : mac.length = 12)
    (hhex : ∀ c ∈ mac, isHexDigit c = true) (a0 a1 a2 a3 a4 a5 : Nat) :
    (List.range 6).foldl (fun octets idx =>
        match ParseInt ((mac.drop (idx * 2)).take 2) 16 8 with
        | some v => octets.set (5 - idx) (v % 2 ^ 8).toNat
        | none => octets) [a0, a1, a2, a3, a4, a5] =
      [if hexPairValue mac 5 < 128 then hexPairValue mac 5 else a0,
       if hexPairValue mac 4 < 128 then hexPairValue mac 4 else a1,
       if hexPairValue mac 3 < 128 then hexPairValue mac 3 else a2,
       if hexPairValue mac 2 < 128 then hexPairValue mac 2 else a3,
       if hexPairValue mac 1 < 128 then hexPairValue mac 1 else a4,
       if hexPairValue mac 0 < 128 then hexPairValue mac 0 else a5] := by
  obtain ⟨m0, m1, m2, m3, m4, m5, m6, m7, m8, m9, m10, m11, rfl⟩ := length_twelve mac hlen
  obtain ⟨d0, e0, l0⟩ := isHexDigit_spec m0 (hhex m0 (by simp))
  obtain ⟨d1, e1, l1⟩ := isHexDigit_spec m1 (hhex m1 (by simp))
  obtain ⟨d2, e2, l2⟩ := isHexDigit_spec m2 (hhex m2 (by simp))
  obtain ⟨d3, e3, l3⟩ := isHexDigit_spec m3 (hhex m3 (by simp))
  obtain ⟨d4, e4, l4⟩ := isHexDigit_spec m4 (hhex m4 (by simp))
  obtain ⟨d5, e5, l5⟩ := isHexDigit_spec m5 (hhex m5 (by simp))
  obtain ⟨d6, e6, l6⟩ := isHexDigit_spec m6 (hhex m6 (by simp))
  obtain ⟨d7, e7, l7⟩ := isHexDigit_spec m7 (hhex m7 (by simp))
  obtain ⟨d8, e8, l8⟩ := isHexDigit_spec m8 (hhex m8 (by simp))
  obtain ⟨d9, e9, l9⟩ := isHexDigit_spec m9 (hhex m9 (by simp))
  obtain ⟨d10, e10, l10⟩ := isHexDigit_spec m10 (hhex m10 (by simp))
  obtain ⟨d11, e11, l11⟩ := isHexDigit_spec m11 (hhex m11 (by simp))
  have hr : List.range 6 = [0, 1, 2, 3, 4, 5] := by decide
  have p0 := ParseInt_hex_pair m0 m1 d0 d1 8 e0 l0 e1 l1
  have p1 := ParseInt_hex_pair m2 m3 d2 d3 8 e2 l2 e3 l3
  have p2 := ParseInt_hex_pair m4 m5 d4 d5 8 e4 l4 e5 l5
  have p3 := ParseInt_hex_pair m6 m7 d6 d7 8 e6 l6 e7 l7
  have p4 := ParseInt_hex_pair m8 m9 d8 d9 8 e8 l8 e9 l9
  have p5 := ParseInt_hex_pair m10 m11 d10 d11 8 e10 l10 e11 l11
  have hp : (2 : Nat) ^ (8 - 1) = 128 := by norm_num
  rw [hp] at p0 p1 p2 p3 p4 p5
  have v0 : hexPairValue [m0, m1, m2, m3, m4, m5, m6, m7, m8, m9, m10, m11] 0 = 16 * d0 + d1 := by
    simp [hexPairValue, List.getD, e0, e1]
  have v1 : hexPairValue [m0, m1, m2, m3, m4, m5, m6, m7, m8, m9, m10, m11] 1 = 16 * d2 + d3 := by
    simp [hexPairValue, List.getD, e2, e3]
  have v2 : hexPairValue [m0, m1, m2, m3, m4, m5, m6, m7, m8, m9, m10, m11] 2 = 16 * d4 + d5 := by
    simp [hexPairValue, List.getD, e4, e5]
  have v3 : hexPairValue [m0, m1, m2, m3, m4, m5, m6, m7, m8, m9, m10, m11] 3 = 16 * d6 + d7 := by
    simp [hexPairValue, List.getD, e6, e7]
  have v4 : hexPairValue [m0, m1, m2, m3, m4, m5, m6, m7, m8, m9, m10, m11] 4 = 16 * d8 + d9 := by
    simp [hexPairValue, List.getD, e8, e9]
  have v5 : hexPairValue [m0, m1, m2, m3, m4, m5, m6, m7, m8, m9, m10, m11] 5 =
      16 * d10 + d11 := by
    simp [hexPairValue, List.getD, e10, e11]
  rw [hr, v0, v1, v2, v3, v4, v5]
  simp only [List.foldl_cons, List.foldl_nil, Nat.zero_mul, Nat.one_mul, Nat.reduceMul,
    List.drop_zero, List.drop_succ_cons, List.take_succ_cons, List.take_zero, Nat.sub_zero,
    Nat.reduceSub]
  rw [macStep _ _ 0 _ p5, macStep _ _ 1 _ p4, macStep _ _ 2 _ p3, macStep _ _ 3 _ p2,
    macStep _ _ 4 _ p1, macStep _ _ 5 _ p0]
  simp only [List.set_cons_succ, List.set_cons_zero, List.getD_cons_succ, List.getD_cons_zero]

theorem macOctets_spec (dh : deviceHandler) (oo : onuUniPortEntry) (entry : OnuDeviceEntry)
    (h : dh.pOnuOmciDevice = some entry) (hlen : entry.macAddress.length = 12)
    (hhex : ∀ c ∈ entry.macAddress, isHexDigit c = true) :
    macOctets dh oo =
      [if hexPairValue entry.macAddress 5 < 128 then hexPairValue entry.macAddress 5
        else oo.portNo % 2 ^ 8,
       if hexPairValue entry.macAddress 4 < 128 then hexPairValue entry.macAddress 4
        else oo.portNo / 2 ^ 8 % 2 ^ 8,
       if hexPairValue entry.macAddress 3 < 128 then hexPairValue entry.macAddress 3
        else oo.portNo / 2 ^ 16 % 2 ^ 8,
       if hexPairValue entry.macAddress 2 < 128 then hexPairValue entry.macAddress 2
        else dh.ponPortNumber % 2 ^ 8,
       if hexPairValue entry.macAddress 1 < 128 then hexPairValue entry.macAddress 1
        else dh.ponPortNumber / 2 ^ 8 % 2 ^ 8,
       if hexPairValue entry.macAddress 0 < 128 then hexPairValue entry.macAddress 0
        else 0x08] := by
  unfold macOctets
  simp only [getOnuDeviceEntry_nowait, h, hlen, if_true]
  exact macLoop_spec entry.macAddress hlen hhex _ _ _ _ _ _

/-- C30: for a device entry whose MAC address is 12 hexadecimal digits,
`createVolthaPort` hands exactly one port to `PortCreated`, and octet `k` of its
hardware address is the value of the digits `2k`, `2k+1` only when that value is below
0x80 (`strconv.ParseInt(..., 16, 8)` reads a signed 8-bit number and fails from 0x80
on); for a value from 0x80 to 0xFF the octet keeps the default computed from the PON
port number and the port number. -/
theorem announced_mac_keeps_default_from_0x80 (env : DhEnv) (dh : deviceHandler)
    (oo : onuUniPortEntry) (entry : OnuDeviceEntry)
    (h : dh.pOnuOmciDevice = some entry) (hlen : entry.macAddress.length = 12)
    (hhex : ∀ c ∈ entry.macAddress, isHexDigit c = true) :
    (createVolthaPort env dh oo).2.1.calls =
      dh.calls ++ [DhCall.PortCreated (uniVolthaPort dh oo)] ∧
    announcedHwAddr dh oo =
      (List.range 6).map (fun k =>
        if hexPairValue entry.macAddress k < 128 then hexPairValue entry.macAddress k
        else (defaultHwAddr dh oo).getD k 0) := by
  constructor
  · unfold createVolthaPort
    simp only [deviceHandler.call]
    split <;> rfl
  · have hr : List.range 6 = [0, 1, 2, 3, 4, 5] := by decide
    have hb : ∀ v d : Nat, d < 256 → (if v < 128 then v else d) < 256 := by
      intro v d hd
      split <;> omega
    have h8 : ∀ n : Nat, n % 2 ^ 8 < 256 := fun n => Nat.mod_lt _ (by norm_num)
    unfold announcedHwAddr uniVolthaPort
    simp only [macOctets_spec dh oo entry h hlen hhex]
    rw [macAddressToUint32Array_genMacFromOctets _ _ _ _ _ _
      (hb _ _ (h8 _)) (hb _ _ (h8 _)) (hb _ _ (h8 _)) (hb _ _ (h8 _)) (hb _ _ (h8 _))
      (hb _ _ (by norm_num))]
    rw [hr]
    simp only [List.map_cons, List.map_nil, defaultHwAddr, List.getD_cons_succ,
      List.getD_cons_zero]

/-- C30, at the MAC address "0011227f80ff" on the sample handler (PON port 0, UNI port
16): the octets 0x00, 0x11, 0x22 and 0x7f are taken over, the octets 0x80 and 0xff are
not: the address announced ends in the default octets 0x00 and 0x10. -/
theorem announced_mac_keeps_default_from_0x80_witness :
    announcedHwAddr macDeviceHandler macUniPort = [0x00, 0x11, 0x22, 0x7f, 0x00, 0x10] ∧
    hexPairValue macDeviceEntry.macAddress 4 = 0x80 ∧
    hexPairValue macDeviceEntry.macAddress 5 = 0xff :=
  ⟨(announced_mac_keeps_default_from_0x80 sampleDhEnv macDeviceHandler macUniPort
      macDeviceEntry rfl (by decide) (by decide)).2.trans (by decide),
    by decide, by decide⟩

end Onu
